import Mathlib

/-!
Verification development for the tensor-aware pickle codec in
`torch/csrc/jit/pickler.cpp` (encoder `Pickler`, decoder `Unpickler`).

The program is shallowly embedded: the encoder is modelled as a pure
state-passing function over `PState`, emitting a list of `Token`s (one
token per `push<T>` call in the source; `flatten` yields the exact byte
stream), and the decoder as a step function over `UState` in the
`Except` monad.  Machine integers are modelled as `Nat`/`Int` with
explicit two's-complement conversion at the byte boundary.

Constructs of the repository that are declared outside `pickler.cpp`
(the `OpCode` byte values, the `read<T>` primitive, the numeric values
of the `PicklerClass` enum, the decoder's dict container and the
initial value of `last_opcode_`) are modelled from the specification
and marked as such in their doc comments.

Undefined behaviour in the source (raw-pointer reads past `end_ptr_`,
`back()`/`pop_back()`/`operator[]` on an out-of-range index of a
`std::vector`) is modelled by dedicated error values so that theorems
can distinguish a checked abort from a crash.
-/

set_option autoImplicit false

namespace TorchPickle

/-- Modelled from the spec (§6, opcode byte table): the `OpCode`
enumeration lives in `pickler.h`, which is not part of the given
sources; the byte values below are the ones listed in the spec and are
the standard pickle protocol-2 values. Only the members actually used
by `pickler.cpp` are included. -/
inductive OpCode where
  | MARK | STOP | BININT | BININT1 | BININT2 | LONG1 | BINFLOAT
  | BINUNICODE | EMPTY_LIST | EMPTY_DICT | EMPTY_TUPLE | APPENDS
  | SETITEMS | TUPLE | GLOBAL | REDUCE | NEWOBJ | BUILD
  | BINPUT | LONG_BINPUT | BINGET | LONG_BINGET | BINPERSID
  | PROTO | NEWTRUE | NEWFALSE | NONE
  deriving DecidableEq, Repr

/-- Byte value of each opcode (spec §6). -/
def opByte : OpCode → Nat
  | .MARK => 0x28
  | .STOP => 0x2E
  | .BININT => 0x4A
  | .BININT1 => 0x4B
  | .BININT2 => 0x4D
  | .LONG1 => 0x8A
  | .BINFLOAT => 0x47
  | .BINUNICODE => 0x58
  | .EMPTY_LIST => 0x5D
  | .EMPTY_DICT => 0x7D
  | .EMPTY_TUPLE => 0x29
  | .APPENDS => 0x65
  | .SETITEMS => 0x75
  | .TUPLE => 0x74
  | .GLOBAL => 0x63
  | .REDUCE => 0x52
  | .NEWOBJ => 0x81
  | .BUILD => 0x62
  | .BINPUT => 0x71
  | .LONG_BINPUT => 0x72
  | .BINGET => 0x68
  | .LONG_BINGET => 0x6A
  | .BINPERSID => 0x51
  | .PROTO => 0x80
  | .NEWTRUE => 0x88
  | .NEWFALSE => 0x89
  | .NONE => 0x4E

/-- Partial inverse of `opByte`.  A byte outside the enumeration is
decoded as `none`; `Unpickler::readInstruction` then takes its
`default:` branch (unknown opcode error), which is also what the C++
`switch` does for any member without a `case`. -/
def byteToOp (b : Nat) : Option OpCode :=
  if b = 0x28 then some .MARK
  else if b = 0x2E then some .STOP
  else if b = 0x4A then some .BININT
  else if b = 0x4B then some .BININT1
  else if b = 0x4D then some .BININT2
  else if b = 0x8A then some .LONG1
  else if b = 0x47 then some .BINFLOAT
  else if b = 0x58 then some .BINUNICODE
  else if b = 0x5D then some .EMPTY_LIST
  else if b = 0x7D then some .EMPTY_DICT
  else if b = 0x29 then some .EMPTY_TUPLE
  else if b = 0x65 then some .APPENDS
  else if b = 0x75 then some .SETITEMS
  else if b = 0x74 then some .TUPLE
  else if b = 0x63 then some .GLOBAL
  else if b = 0x52 then some .REDUCE
  else if b = 0x81 then some .NEWOBJ
  else if b = 0x62 then some .BUILD
  else if b = 0x71 then some .BINPUT
  else if b = 0x72 then some .LONG_BINPUT
  else if b = 0x68 then some .BINGET
  else if b = 0x6A then some .LONG_BINGET
  else if b = 0x51 then some .BINPERSID
  else if b = 0x80 then some .PROTO
  else if b = 0x88 then some .NEWTRUE
  else if b = 0x89 then some .NEWFALSE
  else if b = 0x4E then some .NONE
  else none

/-- PicklerClass enumeration (`TENSOR`, `INTLIST`).  The enum is
declared in `pickler.h`. -/
inductive PicklerClass where
  | TENSOR | INTLIST
  deriving DecidableEq, Repr

/-- Modelled from the spec: the numeric values of the `PicklerClass`
enumerators are fixed in `pickler.h`, which is not among the given
sources; the spec (§4.2, `GLOBAL` for `__main__`) only says the integer
value of the class tag is pushed.  We use the declaration order of the
enum, `TENSOR = 0`, `INTLIST = 1`. -/
def picklerClassTag : PicklerClass → Nat
  | .TENSOR => 0
  | .INTLIST => 1

/-- Inverse of `picklerClassTag`; the C++ `static_cast` of a byte to
`PicklerClass` followed by a `switch` with a `default:` error is
modelled by this partial map. -/
def classOfTag (n : Nat) : Option PicklerClass :=
  if n = 0 then some .TENSOR
  else if n = 1 then some .INTLIST
  else none

/-- ASCII bytes of a Lean string literal; used for the identifier and
global-name constants of the codec (all of which are ASCII). -/
def ascii (s : String) : List Nat :=
  s.data.map Char.toNat

/-- Source `getClass`: map a class name (as read from the stream) to a
`PicklerClass`; unknown names are an error (`AT_ERROR`). -/
def getClass (str : List Nat) : Option PicklerClass :=
  if str = ascii ("build_tensor_from_id") then some .TENSOR
  else if str = ascii ("build_intlist") then some .INTLIST
  else if str = ascii ("TensorID") then some .TENSOR
  else if str = ascii ("IntList") then some .INTLIST
  else none

/-- Source `getClassName`: the newline-terminated reconstructor name
for a `PicklerClass`. -/
def getClassName : PicklerClass → List Nat
  | .TENSOR => ascii ("build_tensor_from_id\n")
  | .INTLIST => ascii ("build_intlist\n")

/-- Source `getModuleName`. -/
def getModuleName : List Nat :=
  ascii ("torch.jit._pickle\n")

/-- Element scalar types of a tensor (spec §3). -/
inductive ScalarType where
  | float | double | half | long | int | short | char | byte | bool
  deriving DecidableEq, Repr

/-- Name of a scalar type as produced by ATen's `toString`, used to
build the `torch\n<Name>Storage\n` global in literal-tensor mode. -/
def scalarTypeName : ScalarType → String
  | .float => "Float"
  | .double => "Double"
  | .half => "Half"
  | .long => "Long"
  | .int => "Int"
  | .short => "Short"
  | .char => "Char"
  | .byte => "Byte"
  | .bool => "Bool"

/-- Underlying contiguous byte storage of a tensor.  `key` models the
stable `StorageImpl*` address returned by `getStorageKey`
(`reinterpret_cast<intptr_t>`), unique per distinct storage within a
session; `data` holds the raw storage bytes, of length
`element_size * storage_size` (the record size computed by
`getWriteableTensor` on the CPU path). -/
structure Storage where
  key : Nat
  data : List Nat
  deriving DecidableEq, Repr

/-- Opaque tensor handle (spec §3).  Device-resident (CUDA) tensors
are materialised on CPU by `getWriteableTensor` with identical storage
bytes, so the device tag is not modelled. -/
structure TensorHandle where
  scalar_type : ScalarType
  numel : Int
  sizes : List Int
  strides : List Int
  requires_grad : Bool
  storage : Storage
  deriving DecidableEq, Repr

/-- Source `getStorageKey`: the stable per-storage identifier. -/
def getStorageKey (tensor : TensorHandle) : Nat :=
  tensor.storage.key

/-- Source `getWriteableTensor` (CPU path): the record size equals
`element_size * storage.size()`, which is the length of the raw
storage bytes; the CUDA branch produces a CPU tensor over the same
storage with an equal record size. -/
def getWriteableTensor (tensor : TensorHandle) : TensorHandle × Nat :=
  (tensor, tensor.storage.data.length)

/-- Decimal ASCII representation of a natural number, modelling
`std::to_string` on the (nonnegative) storage key. -/
def decimalOf (n : Nat) : List Nat :=
  ascii (Nat.repr n)

/-- Little-endian byte list (length `k`) of `n` modulo `2 ^ (8 * k)`. -/
def natLE : Nat → Nat → List Nat
  | 0, _ => []
  | k + 1, n => n % 256 :: natLE k (n / 256)

/-- Little-endian two's-complement byte list (length `k`) of an
integer, as written by `push<intN_t>`. -/
def intLE (k : Nat) (i : Int) : List Nat :=
  natLE k (i % ((2 : Int) ^ (8 * k))).toNat

/-- Value of a little-endian byte list. -/
def leNat : List Nat → Nat
  | [] => 0
  | b :: bs => b % 256 + 256 * leNat bs

/-- Reinterpret a `k`-byte unsigned value as two's-complement signed,
as done by `read<intN_t>`. -/
def asSigned (k : Nat) (v : Nat) : Int :=
  if v < 2 ^ (8 * k - 1) then (v : Int) else (v : Int) - 2 ^ (8 * k)

/-- Byte `j` (little-endian position) of a 64-bit pattern. -/
def byteAt (bits : Nat) (j : Nat) : Nat :=
  bits / 256 ^ j % 256

/-- One emission of the encoder.  Each `push<T>(v)` call of the source
appends exactly one token; `pushString` and the raw inserts of
`pushTensorData` append a `raw` token.  `flatten` recovers the byte
stream. -/
inductive Token where
  | op (c : OpCode)
  | u8 (n : Nat)
  | u16 (n : Nat)
  | u32 (n : Nat)
  | i8 (n : Int)
  | i32 (n : Int)
  | i64 (n : Int)
  | raw (bs : List Nat)
  deriving DecidableEq, Repr

/-- Bytes of one token. -/
def flat1 : Token → List Nat
  | .op c => [opByte c]
  | .u8 n => [n % 256]
  | .u16 n => natLE 2 n
  | .u32 n => natLE 4 n
  | .i8 n => intLE 1 n
  | .i32 n => intLE 4 n
  | .i64 n => intLE 8 n
  | .raw bs => bs

/-- Byte stream of a token list (the content of the encoder's
`stack_` buffer). -/
def flatten (ts : List Token) : List Nat :=
  (ts.map flat1).flatten

mutual
/-- Encoder-side `IValue` (spec §3).  Container variants carry an
abstract object identity `id : Nat`, modelling the heap address the
C++ memoisation keys on (`Pickler::getPointer`); two live container
objects have distinct addresses, and copies of the same object share
one (spec §9, identity-based memoisation).  The `double` payload is
the raw IEEE-754 binary64 bit pattern: the codec only ever moves the
eight bytes, so no floating-point semantics are needed.  Strings are
UTF-8 byte lists. -/
inductive IValue where
  | none
  | bool (b : Bool)
  | int (n : Int)
  | double (bits : Nat)
  | str (id : Nat) (bs : List Nat)
  | tuple (id : Nat) (xs : IVList)
  | list (id : Nat) (xs : IVList)
  | intlist (id : Nat) (xs : List Int)
  | dict (id : Nat) (ps : IVPairs)
  | tensor (h : TensorHandle)

/-- Element list of a tuple or generic list value. -/
inductive IVList where
  | nil
  | cons (v : IValue) (rest : IVList)

/-- Key-value pair list of a dict value, in its declared iteration
order (spec §3: iteration order is supplied by the external Dict type). -/
inductive IVPairs where
  | nil
  | cons (k : IValue) (v : IValue) (rest : IVPairs)
end

/-- Object identity: the `const void*` returned by
`Pickler::getPointer`.  Distinct container variants live at distinct
addresses, hence the variant tag. -/
inductive Ptr where
  | user (tag : Nat) (id : Nat)
  deriving DecidableEq, Repr

/-- Source `Pickler::getPointer`: a pointer uniquely identifying the
data of a container `IValue`; `none` (C++ `nullptr`) for
non-containers (including tensors). -/
def getPointer : IValue → Option Ptr
  | .dict id _ => some (.user 0 id)
  | .list id _ => some (.user 1 id)
  | .tuple id _ => some (.user 2 id)
  | .str id _ => some (.user 3 id)
  | .intlist id _ => some (.user 4 id)
  | _ => Option.none

/-- Lookup in an association list, first hit wins (models
`std::unordered_map::find`; insertion by consing therefore models
`operator[]` assignment). -/
def alookup {α β : Type} [DecidableEq α] (k : α) : List (α × β) → Option β
  | [] => Option.none
  | (k0, v0) :: rest => if k0 = k then some v0 else alookup k rest

/-- Encoder state (`Pickler`).  `out` is the `stack_` byte buffer at
token granularity; `memo_map` is `memo_map_` (object identity to memo
id); `memoized_strings_map` is `memoized_strings_map_` (global name to
memo id); `tensor_table` is the caller-supplied side table
(`tensor_table_`, `none` when encoding in literal mode);
`literal_tensors` is `literal_tensors_`; `fresh_ptr` supplies
addresses for strings constructed inside `pushLiteralTensor` (the
`memoized_ivalues_` keep-alive list has no other observable effect and
is not modelled). -/
structure PState where
  out : List Token
  memo_map : List (Ptr × Nat)
  memoized_strings_map : List (List Nat × Nat)
  memo_id : Nat
  tensor_table : Option (List TensorHandle)
  literal_tensors : List TensorHandle
  fresh_ptr : Nat
  deriving Repr

/-- Append emissions to the output buffer. -/
def emit (st : PState) (ts : List Token) : PState :=
  { st with out := st.out ++ ts }

/-- Source `Pickler::start`: `PROTO` and the protocol version byte 2. -/
def start (st : PState) : PState :=
  emit st [Token.op OpCode.PROTO, Token.u8 2]

/-- Source `Pickler::startTuple`. -/
def startTuple (st : PState) : PState :=
  emit st [Token.op OpCode.MARK]

/-- Source `Pickler::endTuple`. -/
def endTuple (st : PState) : PState :=
  emit st [Token.op OpCode.TUPLE]

/-- Source `Pickler::pushInt` (argument already extracted from the
`IValue` by `toInt`): opcode selection strictly by range,
`int8_t` limits `[-128, 127]`, `int32_t` limits `[-2^31, 2^31 - 1]`,
otherwise `LONG1` with length prefix 8. -/
def pushInt (st : PState) (n : Int) : PState :=
  if -128 ≤ n ∧ n ≤ 127 then
    emit st [Token.op OpCode.BININT1, Token.i8 n]
  else if -(2 ^ 31) ≤ n ∧ n ≤ 2 ^ 31 - 1 then
    emit st [Token.op OpCode.BININT, Token.i32 n]
  else
    emit st [Token.op OpCode.LONG1, Token.u8 8, Token.i64 n]

/-- Source `Pickler::pushBinGet`: `BINGET` with one byte when the memo
id fits, else `LONG_BINGET`. -/
def pushBinGet (st : PState) (memo_id : Nat) : PState :=
  if memo_id ≤ 255 then
    emit st [Token.op OpCode.BINGET, Token.u8 memo_id]
  else
    emit st [Token.op OpCode.LONG_BINGET, Token.u32 memo_id]

/-- Source `Pickler::pushNextBinPut`: emit a PUT of the current
`memo_id_`, increment it, return the id used.  (The
`AT_ASSERT(memo_id_ <= uint32 max)` overflow guard is not modelled;
it is unreachable in any statement proved here.) -/
def pushNextBinPut (st : PState) : PState × Nat :=
  let st' :=
    if st.memo_id ≤ 255 then
      emit st [Token.op OpCode.BINPUT, Token.u8 st.memo_id]
    else
      emit st [Token.op OpCode.LONG_BINPUT, Token.u32 st.memo_id]
  ({ st' with memo_id := st.memo_id + 1 }, st.memo_id)

/-- Source `Pickler::pushMemoization(const void*)`: bind the pointer
to the next memo id (the `AT_CHECK(item != nullptr)` is enforced by
the `Ptr` type). -/
def pushMemoizationPtr (st : PState) (item : Ptr) : PState :=
  let (st', id) := pushNextBinPut st
  { st' with memo_map := (item, id) :: st'.memo_map }

/-- Source `Pickler::pushMemoization(const IValue&)`: memoise via
`getPointer`.  All call sites pass containers, whose pointer exists
(the source `AT_CHECK`s this); the `none` branch is unreachable. -/
def pushMemoizationIV (st : PState) (ivalue : IValue) : PState :=
  match getPointer ivalue with
  | some ptr => pushMemoizationPtr st ptr
  | Option.none => st

/-- Source `Pickler::pushMemoizedString` on a string `IValue`:
`BINUNICODE`, 4-byte length, raw bytes, then a PUT binding the
string's identity. -/
def pushMemoizedString (st : PState) (ivalue : IValue) : PState :=
  match ivalue with
  | .str _ bs =>
      pushMemoizationIV
        (emit st [Token.op OpCode.BINUNICODE, Token.u32 bs.length, Token.raw bs]) ivalue
  | _ => st

/-- Source `Pickler::pushGlobal`: on first emission of a textual
global, `GLOBAL` plus the raw newline-terminated name and a PUT
(recorded in `memoized_strings_map_` without touching `memo_map_`);
afterwards a GET of the recorded id. -/
def pushGlobal (st : PState) (name_temp : List Nat) : PState :=
  match alookup name_temp st.memoized_strings_map with
  | Option.none =>
      let st1 := emit st [Token.op OpCode.GLOBAL, Token.raw name_temp]
      let (st2, memo_id) := pushNextBinPut st1
      { st2 with memoized_strings_map := (name_temp, memo_id) :: st2.memoized_strings_map }
  | some memo_id => pushBinGet st memo_id

/-- Source `Pickler::pushClass`. -/
def pushClass (st : PState) (cls : PicklerClass) : PState :=
  pushGlobal st (getModuleName ++ getClassName cls)

/-- Source `Pickler::pushDouble`: `BINFLOAT` followed by the eight
bytes of the host little-endian representation in reversed (big
endian) order. -/
def pushDouble (st : PState) (bits : Nat) : PState :=
  emit st (Token.op OpCode.BINFLOAT ::
    ((List.range 8).map fun i => Token.u8 (byteAt bits (7 - i))))

/-- Element loop of `Pickler::pushIntList`: the source calls
`addIValue(item)` on each `int64_t` element; `addIValue` on an Int
`IValue` has no pointer and dispatches to `pushInt`, which is inlined
here so that the container recursion stays structural (the bridging
equation `addIValue st (IValue.int n) = pushInt st n` is proved below
as `addIValue_int`). -/
def addInts (st : PState) : List Int → PState
  | [] => st
  | n :: rest => addInts (pushInt st n) rest

/-- Source `Pickler::pushIntList`: class global, argument tuple
containing one list built with `EMPTY_LIST`/`MARK`/`APPENDS`, `REDUCE`,
then memoisation of the IntList value. -/
def pushIntList (st : PState) (id : Nat) (xs : List Int) : PState :=
  let st1 := pushClass st PicklerClass.INTLIST
  let st2 := emit st1 [Token.op OpCode.MARK, Token.op OpCode.EMPTY_LIST, Token.op OpCode.MARK]
  let st3 := addInts st2 xs
  let st4 := emit st3 [Token.op OpCode.APPENDS, Token.op OpCode.TUPLE, Token.op OpCode.REDUCE]
  pushMemoizationIV st4 (IValue.intlist id xs)

/-- Source `Pickler::pushTensorReference`: class global, append the
handle to the shared side table, argument tuple holding the new
entry's zero-based position (`tensor_table_->size() - 1`), `REDUCE`.
The inner `addIValue(tensor_id)` is on an Int and equals `pushInt`
(see `addIValue_int`). -/
def pushTensorReference (st : PState) (tt : List TensorHandle) (h : TensorHandle) : PState :=
  let st1 := pushClass st PicklerClass.TENSOR
  let st2 := { st1 with tensor_table := some (tt ++ [h]) }
  let tensor_id : Int := Int.ofNat (tt ++ [h]).length - 1
  let st3 := emit st2 [Token.op OpCode.MARK]
  let st4 := pushInt st3 tensor_id
  emit st4 [Token.op OpCode.TUPLE, Token.op OpCode.REDUCE]

/-- Source `Pickler::pushLiteralTensor`: the `torch._utils\n
_rebuild_tensor_v2\n` reduce program.  The three `std::string`
temporaries handed to `pushMemoizedString` are fresh heap objects
(kept alive by `memoized_ivalues_`, so the addresses stay distinct for
the session); their identities come from the `fresh_ptr` counter,
offset by 1000000 to model that a fresh allocation never aliases a
caller-supplied container identity.  The inner
`addIValue(tensor.requires_grad())` is on a Bool `IValue`, which
dispatches to the `NEWTRUE`/`NEWFALSE` emission inlined here (bridging
equation `addIValue_bool` below). -/
def pushLiteralTensor (st : PState) (tensor : TensorHandle) : PState :=
  let st1 := pushGlobal st (ascii ("torch._utils\n_rebuild_tensor_v2\n"))
  let st2 := emit st1 [Token.op OpCode.MARK]
  -- tuple for persistent_load
  let st3 := emit st2 [Token.op OpCode.MARK]
  -- typename
  let st4 := pushMemoizedString { st3 with fresh_ptr := st3.fresh_ptr + 1 }
    (IValue.str (st3.fresh_ptr + 1000000) (ascii ("storage")))
  -- data_type
  let st5 := pushGlobal st4
    (ascii ("torch\n" ++ scalarTypeName tensor.scalar_type ++ "Storage\n"))
  -- root_key
  let st6 := pushMemoizedString { st5 with fresh_ptr := st5.fresh_ptr + 1 }
    (IValue.str (st5.fresh_ptr + 1000000) (decimalOf (getStorageKey tensor)))
  -- location
  let st7 := pushMemoizedString { st6 with fresh_ptr := st6.fresh_ptr + 1 }
    (IValue.str (st6.fresh_ptr + 1000000) (ascii ("cpu")))
  -- size
  let st8 := pushInt st7 tensor.numel
  -- view_metadata
  let st9 := emit st8 [Token.op OpCode.NONE, Token.op OpCode.TUPLE, Token.op OpCode.BINPERSID]
  -- storage offset
  let st10 := pushInt st9 0
  -- size tuple
  let st11 := addInts (emit st10 [Token.op OpCode.MARK]) tensor.sizes
  let st12 := emit st11 [Token.op OpCode.TUPLE]
  -- stride tuple
  let st13 := addInts (emit st12 [Token.op OpCode.MARK]) tensor.strides
  let st14 := emit st13 [Token.op OpCode.TUPLE]
  -- requires_grad
  let st15 := emit st14
    [Token.op (if tensor.requires_grad then OpCode.NEWTRUE else OpCode.NEWFALSE)]
  -- backward_hooks
  let st16 := pushGlobal st15 (ascii ("collections\nOrderedDict\n"))
  let st17 := emit st16 [Token.op OpCode.EMPTY_TUPLE, Token.op OpCode.REDUCE]
  let st18 := emit st17 [Token.op OpCode.TUPLE, Token.op OpCode.REDUCE]
  { st18 with literal_tensors := st18.literal_tensors ++ [tensor] }

/-- Source `Pickler::pushTensor`: literal mode when no side table was
supplied, reference mode otherwise. -/
def pushTensor (st : PState) (h : TensorHandle) : PState :=
  match st.tensor_table with
  | Option.none => pushLiteralTensor st h
  | some tt => pushTensorReference st tt h

mutual
/-- Source `Pickler::addIValue`.  The memoisation check comes first:
`getPointer` then `memo_map_.find`; a hit emits only a GET.  The
dispatch order of the source's `if`/`else if` chain is preserved.  The
bodies of `pushTuple`, `pushList` and `pushDict` are inlined in their
branches so that the recursion over the nested value structure is
structural; the named wrappers below restate them and agree by
definitional equality. -/
def addIValue (st : PState) (ivalue : IValue) : PState :=
  match (getPointer ivalue).bind (fun p => alookup p st.memo_map) with
  | some memo_id => pushBinGet st memo_id
  | Option.none =>
    match ivalue with
    | .tensor h => pushTensor st h
    | .tuple id xs =>
        -- body of pushTuple: MARK, elements, TUPLE, memoise
        let st1 := emit st [Token.op OpCode.MARK]
        let st2 := addIValueList st1 xs
        let st3 := emit st2 [Token.op OpCode.TUPLE]
        pushMemoizationIV st3 (IValue.tuple id xs)
    | .double bits => pushDouble st bits
    | .int n => pushInt st n
    | .bool b =>
        if b then emit st [Token.op OpCode.NEWTRUE]
        else emit st [Token.op OpCode.NEWFALSE]
    | .str id bs => pushMemoizedString st (IValue.str id bs)
    | .list id xs =>
        -- body of pushList: EMPTY_LIST, memoise, MARK, elements, APPENDS
        let st1 := emit st [Token.op OpCode.EMPTY_LIST]
        let st2 := pushMemoizationIV st1 (IValue.list id xs)
        let st3 := emit st2 [Token.op OpCode.MARK]
        let st4 := addIValueList st3 xs
        emit st4 [Token.op OpCode.APPENDS]
    | .dict id ps =>
        -- body of pushDict: EMPTY_DICT, memoise, MARK, pairs in the
        -- declared iteration order, SETITEMS
        let st1 := emit st [Token.op OpCode.EMPTY_DICT]
        let st2 := pushMemoizationIV st1 (IValue.dict id ps)
        let st3 := emit st2 [Token.op OpCode.MARK]
        let st4 := addPairs st3 ps
        emit st4 [Token.op OpCode.SETITEMS]
    | .none => emit st [Token.op OpCode.NONE]
    | .intlist id xs => pushIntList st id xs

/-- Element loop shared by the tuple and list branches. -/
def addIValueList (st : PState) : IVList → PState
  | .nil => st
  | .cons v rest => addIValueList (addIValue st v) rest

/-- Pair loop of the dict branch: key then value, in iteration order. -/
def addPairs (st : PState) : IVPairs → PState
  | .nil => st
  | .cons k v rest => addPairs (addIValue (addIValue st k) v) rest
end

/-- Source `Pickler::pushTuple`, restating the inlined tuple branch of
`addIValue`. -/
def pushTuple (st : PState) (id : Nat) (xs : IVList) : PState :=
  let st1 := emit st [Token.op OpCode.MARK]
  let st2 := addIValueList st1 xs
  let st3 := emit st2 [Token.op OpCode.TUPLE]
  pushMemoizationIV st3 (IValue.tuple id xs)

/-- Source `Pickler::pushList`, restating the inlined list branch of
`addIValue`. -/
def pushList (st : PState) (id : Nat) (xs : IVList) : PState :=
  let st1 := emit st [Token.op OpCode.EMPTY_LIST]
  let st2 := pushMemoizationIV st1 (IValue.list id xs)
  let st3 := emit st2 [Token.op OpCode.MARK]
  let st4 := addIValueList st3 xs
  emit st4 [Token.op OpCode.APPENDS]

/-- Source `Pickler::pushDict`, restating the inlined dict branch of
`addIValue`. -/
def pushDict (st : PState) (id : Nat) (ps : IVPairs) : PState :=
  let st1 := emit st [Token.op OpCode.EMPTY_DICT]
  let st2 := pushMemoizationIV st1 (IValue.dict id ps)
  let st3 := emit st2 [Token.op OpCode.MARK]
  let st4 := addPairs st3 ps
  emit st4 [Token.op OpCode.SETITEMS]

/-- Source `Pickler::pushTensorData`: 8-byte little-endian element
count, then the raw storage bytes of the writeable tensor. -/
def pushTensorData (st : PState) (tensor : TensorHandle) : PState :=
  emit st [Token.raw (intLE 8 tensor.numel),
           Token.raw (getWriteableTensor tensor).1.storage.data]

/-- Key-program entry of `Pickler::finish` for one literal tensor:
`BINUNICODE` of the decimal storage key. -/
def tensorKeyChunk (tensor : TensorHandle) : List Token :=
  [Token.op OpCode.BINUNICODE,
   Token.u32 (decimalOf (getStorageKey tensor)).length,
   Token.raw (decimalOf (getStorageKey tensor))]

/-- Source `Pickler::finish`: `STOP`; when literal tensors were
collected, a second pickle program listing their decimal storage keys
(`start`, `MARK`, one `BINUNICODE` per tensor, `TUPLE`, `STOP`)
followed by the concatenated tensor records, all in collection
order. -/
def finish (st : PState) : PState :=
  let st1 := emit st [Token.op OpCode.STOP]
  if st1.literal_tensors.length > 0 then
    let st2 := start st1
    let st3 := emit st2 [Token.op OpCode.MARK]
    let st4 := emit st3 (st1.literal_tensors.map tensorKeyChunk).flatten
    let st5 := emit st4 [Token.op OpCode.TUPLE, Token.op OpCode.STOP]
    st1.literal_tensors.foldl pushTensorData st5
  else
    st1

/-- Fresh encoder session state; `tab` is `some table` in reference
mode, `none` in literal mode. -/
def freshPickler (tab : Option (List TensorHandle)) : PState :=
  ⟨[], [], [], 0, tab, [], 0⟩

/-- One complete encode session for a value sequence: `start`,
`startTuple`, `addIValue` for each element, `endTuple`, `finish`. -/
def encodeSession (tab : Option (List TensorHandle)) (vs : IVList) : PState :=
  finish (endTuple (addIValueList (startTuple (start (freshPickler tab))) vs))

/-- Byte stream of a session. -/
def encodeBytes (tab : Option (List TensorHandle)) (vs : IVList) : List Nat :=
  flatten (encodeSession tab vs).out

mutual
/-- Decoder-side value.  Decoded objects are freshly constructed, so
they carry no object identity.  The `dict` pair list is kept in
insertion order (see `dictInsert`). -/
inductive DValue where
  | none
  | bool (b : Bool)
  | int (n : Int)
  | double (bits : Nat)
  | str (bs : List Nat)
  | tuple (xs : DVList)
  | list (xs : DVList)
  | intlist (xs : List Int)
  | dict (ps : DVPairs)
  | tensor (h : TensorHandle)

/-- Element list of a decoded tuple or generic list. -/
inductive DVList where
  | nil
  | cons (v : DValue) (rest : DVList)

/-- Pair list of a decoded dict, in insertion order. -/
inductive DVPairs where
  | nil
  | cons (k : DValue) (v : DValue) (rest : DVPairs)
end

mutual
/-- Structural equality of decoded values, modelling `IValue` equality
as used for dict keys. -/
def dvBeq : DValue → DValue → Bool
  | .none, .none => true
  | .bool a, .bool b => a = b
  | .int a, .int b => a = b
  | .double a, .double b => a = b
  | .str a, .str b => a = b
  | .tuple a, .tuple b => dvlBeq a b
  | .list a, .list b => dvlBeq a b
  | .intlist a, .intlist b => a = b
  | .dict a, .dict b => dvpBeq a b
  | .tensor a, .tensor b => a = b
  | _, _ => false

/-- Structural equality on element lists. -/
def dvlBeq : DVList → DVList → Bool
  | .nil, .nil => true
  | .cons a as, .cons b bs => dvBeq a b && dvlBeq as bs
  | _, _ => false

/-- Structural equality on pair lists. -/
def dvpBeq : DVPairs → DVPairs → Bool
  | .nil, .nil => true
  | .cons ka va as, .cons kb vb bs => dvBeq ka kb && dvBeq va vb && dvpBeq as bs
  | _, _ => false
end

/-- Convert a Lean list of decoded values to a `DVList`. -/
def toDVList : List DValue → DVList
  | [] => .nil
  | v :: rest => .cons v (toDVList rest)

/-- Convert a `DVList` back to a Lean list. -/
def ofDVList : DVList → List DValue
  | .nil => []
  | .cons v rest => v :: ofDVList rest

/-- Decoder errors.  `AT_CHECK`/`AT_ERROR`/`AT_ASSERT` aborts are
modelled by descriptive error values; `rangeError` is the
`std::out_of_range` exception thrown by a checked `.at()` access; the
two `ub*` values model genuine undefined behaviour of the source
(`ubReadPastEnd`: dereferencing the input pointer at or past
`end_ptr_`; `ubVector`: `back()`/`pop_back()` on an empty
`std::vector` or `operator[]` with an out-of-range index). -/
inductive DErr where
  | badProtocol
  | overranBuffer
  | unknownOpcode
  | truncated
  | assertFailed
  | emptyStack
  | badClassTag
  | listSpecialization
  | unknownClassName
  | badIdentifier
  | rangeError
  | ubReadPastEnd
  | ubVector
  | typeMismatch
  | wrongStackSize
  deriving DecidableEq, Repr

/-- Entry of the decoder's value stack: a reconstructed value or a
class marker pushed by `GLOBAL` (spec §9, stack entry polymorphism). -/
inductive StackEntry where
  | ival (v : DValue)
  | cls (c : PicklerClass)

/-- Accessor `StackEntry::ivalue()`; calling it on a class marker is
invalid (the source patches around this with `pickler_class_opt`), so
it is modelled as a type error. -/
def entryIValue : StackEntry → Except DErr DValue
  | .ival v => .ok v
  | .cls _ => .error .typeMismatch

/-- Accessor `StackEntry::pickler_class_opt()`. -/
def entryClassOpt : StackEntry → Option PicklerClass
  | .ival _ => Option.none
  | .cls c => some c

/-- Accessor `StackEntry::pickler_class()`; invalid on a value. -/
def entryClass : StackEntry → Except DErr PicklerClass
  | .ival _ => .error .typeMismatch
  | .cls c => .ok c

/-- `IValue::toInt` on a decoded value. -/
def toIntE : DValue → Except DErr Int
  | .int n => .ok n
  | _ => .error .typeMismatch

/-- `IValue::toTuple` on a decoded value. -/
def toTupleE : DValue → Except DErr DVList
  | .tuple xs => .ok xs
  | _ => .error .typeMismatch

/-- Decoder state (`Unpickler`).  `rem` is the byte range
`[bytes_, end_ptr_)` still to be consumed; the stack and mark stack
grow at the list end, matching vector indices. `last_opcode_` has no
in-class initialiser in the header; the first instruction runs before
any assignment, modelled as `none` (compared unequal to `NEWOBJ`). -/
structure UState where
  rem : List Nat
  stack : List StackEntry
  marks : List Nat
  memo_table : List StackEntry
  last_opcode : Option OpCode
  tensor_table : List TensorHandle

/-- Modelled from the spec: the byte-read primitive `read<T>` is
declared in `pickler.h`, which is not among the given sources; per
spec §7 a truncated operand is a `MalformedStream` error, so the read
checks the remaining length before consuming.  Returns the `k`-byte
little-endian unsigned value. -/
def readLE (k : Nat) (rem : List Nat) : Except DErr (Nat × List Nat) :=
  if k ≤ rem.length then .ok (leNat (rem.take k), rem.drop k)
  else .error .truncated

/-- `read<uint8_t>`. -/
def readU8 (rem : List Nat) : Except DErr (Nat × List Nat) :=
  readLE 1 rem

/-- Source `is_valid_python_id_char`. -/
def is_valid_python_id_char (c : Nat) : Bool :=
  c = 95 || c = 46 || (48 ≤ c && c ≤ 57) || (97 ≤ c && c ≤ 122) || (65 ≤ c && c ≤ 90)

/-- Character loop of `Unpickler::readString`, faithful to the source
control flow: the byte at position `n` is dereferenced *before* any
bounds check, so entering with the cursor already at `end_ptr_` (the
empty case here) reads past the end — modelled by `ubReadPastEnd`.
After a valid character the overrun `AT_CHECK` demands a further byte
(`chars + n < char_end_ptr`, with `n` already incremented), a checked
abort; this is why only the very first read can overrun.  Returns the
length of the identifier. -/
def readStringChars : List Nat → Except DErr Nat
  | [] => .error .ubReadPastEnd
  | c :: rest =>
      if c = 10 then .ok 0
      else if ¬ is_valid_python_id_char c then .error .badIdentifier
      else if rest.isEmpty then .error .truncated
      else
        match readStringChars rest with
        | .ok n => .ok (n + 1)
        | .error e => .error e

/-- Source `Unpickler::readString`: read a newline-terminated
identifier, consuming the newline. -/
def readString (rem : List Nat) : Except DErr (List Nat × List Nat) := do
  let n ← readStringChars rem
  .ok (rem.take n, rem.drop (n + 1))

/-- Source `Unpickler::readFloat`: assert more than eight bytes remain
(`bytes_ + 8 < end_ptr_`, an `AT_ASSERT`), then reverse the eight
big-endian bytes into the host little-endian bit pattern. -/
def readFloat (rem : List Nat) : Except DErr (Nat × List Nat) :=
  if 8 < rem.length then .ok (leNat (rem.take 8).reverse, rem.drop 8)
  else .error .assertFailed

/-- Modelled from the spec: the decoder's dict container
`c10::ivalue::UnorderedMap` is declared outside the given sources; the
spec (§3) requires a mapping with a defined iteration order and §9
requires insertion-order preservation, so insertion updates an
existing key in place and appends a new key at the end. -/
def dictInsert (ps : DVPairs) (k v : DValue) : DVPairs :=
  match ps with
  | .nil => .cons k v .nil
  | .cons k0 v0 rest =>
      if dvBeq k0 k then .cons k0 v rest
      else .cons k0 v0 (dictInsert rest k v)

/-- Pair loop of the `SETITEMS` case: `dict[stack_[i]] = stack_[i+1]`
for `i = start, start+2, ...`; an odd number of elements makes the
source read `stack_[i+1]` one past the end with unchecked
`operator[]`. -/
def setPairs (ps : DVPairs) : List StackEntry → Except DErr DVPairs
  | [] => .ok ps
  | [_] => .error .ubVector
  | k :: v :: rest => do
      let kv ← entryIValue k
      let vv ← entryIValue v
      setPairs (dictInsert ps kv vv) rest

/-- Collect stack entries as values (`it->ivalue()` loops). -/
def entsToValues : List StackEntry → Except DErr (List DValue)
  | [] => .ok []
  | e :: rest => do
      let v ← entryIValue e
      let vs ← entsToValues rest
      .ok (v :: vs)

/-- Collect stack entries as integers (IntList `APPENDS` loop:
`it->ivalue().toInt()`). -/
def entsToInts : List StackEntry → Except DErr (List Int)
  | [] => .ok []
  | e :: rest => do
      let v ← entryIValue e
      let n ← toIntE v
      let ns ← entsToInts rest
      .ok (n :: ns)

/-- Source `Unpickler::readList` (the `APPENDS` case): pop the top
mark, mutate the container below it by appending the elements above
it, truncate the stack.  The container object is shared by reference
in C++ (a memoised copy would observe the mutation); the model rebuilds
the stack slot instead, which no theorem below can distinguish because
none reads a memoised container after a mutation. -/
def readList (st : UState) : Except DErr UState :=
  match st.marks.getLast? with
  | Option.none => .error .ubVector
  | some startPos => do
      let marks' := st.marks.dropLast
      if startPos = 0 then .error .rangeError
      else if hlt : startPos - 1 < st.stack.length then do
        let listEntry := st.stack.get ⟨startPos - 1, hlt⟩
        let lv ← entryIValue listEntry
        match lv with
        | .intlist xs => do
            let ns ← entsToInts (st.stack.drop startPos)
            .ok { st with
                  stack := st.stack.take (startPos - 1) ++ [.ival (.intlist (xs ++ ns))],
                  marks := marks' }
        | .list xs => do
            let vs ← entsToValues (st.stack.drop startPos)
            .ok { st with
                  stack := st.stack.take (startPos - 1) ++
                    [.ival (.list (toDVList (ofDVList xs ++ vs)))],
                  marks := marks' }
        | _ => .error .typeMismatch
      else .error .rangeError

/-- Source `Unpickler::readInstruction`: read one opcode byte and
dispatch; returns the updated state and the opcode (the caller
maintains `last_opcode_`). -/
def readInstruction (st : UState) : Except DErr (UState × OpCode) := do
  let (b, rem1) ← readU8 st.rem
  let st := { st with rem := rem1 }
  match byteToOp b with
  | Option.none =>
      -- default: unknown opcode (also reached for enum members
      -- without a case, e.g. NONE and BINPERSID)
      .error .unknownOpcode
  | some opcode =>
    match opcode with
    | .EMPTY_LIST =>
        if st.last_opcode = some .NEWOBJ then do
          -- legacy list specialisation: enum id on the stack
          match st.stack.getLast? with
          | Option.none => .error .emptyStack
          | some e => do
              let v ← entryIValue e
              let value ← toIntE v
              if 0 ≤ value ∧ value ≤ 255 then
                if value = Int.ofNat (picklerClassTag PicklerClass.INTLIST) then
                  .ok ({ st with stack := st.stack ++ [.ival (.intlist [])] }, opcode)
                else
                  -- no `else`: nothing is pushed for any other tag
                  .ok (st, opcode)
              else .error .badClassTag
        else
          match st.stack.getLast? with
          | some e =>
              match entryClassOpt e with
              | some c =>
                  if c = PicklerClass.INTLIST then
                    .ok ({ st with stack := st.stack ++ [.ival (.intlist [])] }, opcode)
                  else .error .listSpecialization
              | Option.none =>
                  .ok ({ st with stack := st.stack ++ [.ival (.list .nil)] }, opcode)
          | Option.none =>
              .ok ({ st with stack := st.stack ++ [.ival (.list .nil)] }, opcode)
    | .EMPTY_TUPLE =>
        .ok ({ st with stack := st.stack ++ [.ival (.tuple .nil)] }, opcode)
    | .BINPUT => do
        -- the source only `reserve`s capacity (`1 + 2 * memo_id`) and
        -- then `push_back`s: the entry lands at index
        -- `memo_table_.size()`, not at `memo_id`
        let (_, rem2) ← readU8 st.rem
        match st.stack.getLast? with
        | Option.none => .error .ubVector
        | some e => .ok ({ st with rem := rem2, memo_table := st.memo_table ++ [e] }, opcode)
    | .LONG_BINPUT => do
        let (_, rem2) ← readLE 4 st.rem
        match st.stack.getLast? with
        | Option.none => .error .ubVector
        | some e => .ok ({ st with rem := rem2, memo_table := st.memo_table ++ [e] }, opcode)
    | .MARK =>
        .ok ({ st with marks := st.marks ++ [st.stack.length] }, opcode)
    | .NEWTRUE =>
        .ok ({ st with stack := st.stack ++ [.ival (.bool true)] }, opcode)
    | .NEWFALSE =>
        .ok ({ st with stack := st.stack ++ [.ival (.bool false)] }, opcode)
    | .BININT1 => do
        let (v, rem2) ← readU8 st.rem
        .ok ({ st with rem := rem2, stack := st.stack ++ [.ival (.int (asSigned 1 v))] }, opcode)
    | .BININT => do
        let (v, rem2) ← readLE 4 st.rem
        .ok ({ st with rem := rem2, stack := st.stack ++ [.ival (.int (asSigned 4 v))] }, opcode)
    | .LONG1 => do
        let (len, rem2) ← readU8 st.rem
        if len = 8 then do
          let (v, rem3) ← readLE 8 rem2
          .ok ({ st with rem := rem3, stack := st.stack ++ [.ival (.int (asSigned 8 v))] }, opcode)
        else .error .assertFailed
    | .BINUNICODE => do
        let (len, rem2) ← readLE 4 st.rem
        -- AT_ASSERT(bytes_ + length < end_ptr_)
        if len < rem2.length then
          .ok ({ st with
                 rem := rem2.drop len,
                 stack := st.stack ++ [.ival (.str (rem2.take len))] }, opcode)
        else .error .assertFailed
    | .BINFLOAT => do
        let (bits, rem2) ← readFloat st.rem
        .ok ({ st with rem := rem2, stack := st.stack ++ [.ival (.double bits)] }, opcode)
    | .TUPLE => do
        match st.marks.getLast? with
        | Option.none => .error .ubVector
        | some startPos =>
            if startPos ≤ st.stack.length then do
              let vs ← entsToValues (st.stack.drop startPos)
              .ok ({ st with
                     stack := st.stack.take startPos ++ [.ival (.tuple (toDVList vs))],
                     marks := st.marks.dropLast }, opcode)
            else .error .ubVector
    | .EMPTY_DICT =>
        .ok ({ st with stack := st.stack ++ [.ival (.dict .nil)] }, opcode)
    | .APPENDS => do
        let st' ← readList st
        .ok (st', opcode)
    | .SETITEMS => do
        match st.marks.getLast? with
        | Option.none => .error .ubVector
        | some startPos =>
            if startPos = 0 then .error .rangeError
            else if hlt : startPos - 1 < st.stack.length then do
              let dictEntry := st.stack.get ⟨startPos - 1, hlt⟩
              let dv ← entryIValue dictEntry
              match dv with
              | .dict ps => do
                  let ps' ← setPairs ps (st.stack.drop startPos)
                  .ok ({ st with
                         stack := st.stack.take (startPos - 1) ++ [.ival (.dict ps')],
                         marks := st.marks.dropLast }, opcode)
              | _ => .error .typeMismatch
            else .error .rangeError
    | .BINGET => do
        let (id, rem2) ← readU8 st.rem
        match st.memo_table.get? id with
        | some e => .ok ({ st with rem := rem2, stack := st.stack ++ [e] }, opcode)
        | Option.none => .error .rangeError
    | .LONG_BINGET => do
        let (id, rem2) ← readLE 4 st.rem
        match st.memo_table.get? id with
        | some e => .ok ({ st with rem := rem2, stack := st.stack ++ [e] }, opcode)
        | Option.none => .error .rangeError
    | .STOP =>
        .ok (st, opcode)
    | .GLOBAL => do
        let (module_name, rem2) ← readString st.rem
        if module_name = ascii ("__main__") then do
          let (name, rem3) ← readString rem2
          match getClass name with
          | some c =>
              .ok ({ st with
                     rem := rem3,
                     stack := st.stack ++ [.ival (.int (Int.ofNat (picklerClassTag c)))] },
                   opcode)
          | Option.none => .error .unknownClassName
        else do
          let (name, rem3) ← readString rem2
          match getClass name with
          | some c => .ok ({ st with rem := rem3, stack := st.stack ++ [.cls c] }, opcode)
          | Option.none => .error .unknownClassName
    | .NEWOBJ =>
        -- pop the (supposedly empty-tuple) top of stack
        if st.stack.isEmpty then .error .ubVector
        else .ok ({ st with stack := st.stack.dropLast }, opcode)
    | .BUILD => do
        match st.stack.getLast? with
        | Option.none => .error .ubVector
        | some top => do
            let setitem_data ← entryIValue top
            let st1 := { st with stack := st.stack.dropLast }
            match st1.stack.getLast? with
            | Option.none => .error .ubVector
            | some tagEntry => do
                let tagV ← entryIValue tagEntry
                let tagN ← toIntE tagV
                let st2 := { st1 with stack := st1.stack.dropLast }
                match classOfTag (tagN % 256).toNat with
                | some PicklerClass.TENSOR => do
                    let idx ← toIntE setitem_data
                    if hidx : 0 ≤ idx ∧ idx.toNat < st2.tensor_table.length then
                      let t := st2.tensor_table.get ⟨idx.toNat, hidx.2⟩
                      .ok ({ st2 with stack := st2.stack ++ [.ival (.tensor t)] }, opcode)
                    else .error .rangeError
                | some PicklerClass.INTLIST =>
                    .ok ({ st2 with stack := st2.stack ++ [.ival setitem_data] }, opcode)
                | Option.none => .error .badClassTag
    | .REDUCE => do
        match st.stack.getLast? with
        | Option.none => .error .ubVector
        | some top => do
            let dataV ← entryIValue top
            let data ← toTupleE dataV
            let st1 := { st with stack := st.stack.dropLast }
            match st1.stack.getLast? with
            | Option.none => .error .ubVector
            | some clsEntry => do
                let class_name ← entryClass clsEntry
                let st2 := { st1 with stack := st1.stack.dropLast }
                match class_name with
                | PicklerClass.TENSOR =>
                    match ofDVList data with
                    | [] => .error .rangeError
                    | arg0 :: _ => do
                        let idx ← toIntE arg0
                        if hidx : 0 ≤ idx ∧ idx.toNat < st2.tensor_table.length then
                          let t := st2.tensor_table.get ⟨idx.toNat, hidx.2⟩
                          .ok ({ st2 with stack := st2.stack ++ [.ival (.tensor t)] }, opcode)
                        else .error .rangeError
                | PicklerClass.INTLIST =>
                    match ofDVList data with
                    | [] => .error .rangeError
                    | arg0 :: _ =>
                        match arg0 with
                        | .intlist xs =>
                            .ok ({ st2 with stack := st2.stack ++ [.ival (.intlist xs)] },
                                 opcode)
                        | _ => .error .typeMismatch
    | _ =>
        -- default: PROTO / BININT2 / BINPERSID / NONE have no case
        .error .unknownOpcode

/-- Main loop of `Unpickler::run`: while input remains, execute one
instruction, stop at `STOP`, record `last_opcode_` otherwise.  Each
instruction consumes at least its opcode byte, so the remaining input
length bounds the number of iterations and serves as fuel; exhausting
the input without `STOP` is the `AT_ERROR` overrun. -/
def runLoop : Nat → UState → Except DErr UState
  | 0, _ => .error .overranBuffer
  | fuel + 1, st =>
      if st.rem.isEmpty then .error .overranBuffer
      else
        match readInstruction st with
        | .error e => .error e
        | .ok (⟨rem, stack, marks, memo, lastOp, ttab⟩, opcode) =>
            if opcode = OpCode.STOP then .ok ⟨rem, stack, marks, memo, lastOp, ttab⟩
            else runLoop fuel ⟨rem, stack, marks, memo, some opcode, ttab⟩

/-- One iteration of the main loop, as a named function so that
concrete executions can be unfolded one instruction at a time. -/
def runLoopBody (fuel : Nat) (st : UState) : Except DErr UState :=
  if st.rem.isEmpty then .error .overranBuffer
  else
    match readInstruction st with
    | .error e => .error e
    | .ok (⟨rem, stack, marks, memo, lastOp, ttab⟩, opcode) =>
        if opcode = OpCode.STOP then .ok ⟨rem, stack, marks, memo, lastOp, ttab⟩
        else runLoop fuel ⟨rem, stack, marks, memo, some opcode, ttab⟩

/-- Source `Unpickler::run`: check the `PROTO` opcode and protocol
version 2, then run the dispatch loop. -/
def run (st : UState) : Except DErr UState := do
  let (b, rem1) ← readU8 st.rem
  if byteToOp b = some OpCode.PROTO then do
    let (protocol, rem2) ← readU8 rem1
    if protocol = 2 then
      runLoop rem2.length { st with rem := rem2 }
    else .error .badProtocol
  else .error .badProtocol

/-- Source `Unpickler::parse_ivalue_list`: run, require exactly one
stack element, and return the elements of the top-level generic list
(legacy) or tuple. -/
def parse_ivalue_list (st : UState) : Except DErr (List DValue) := do
  let st' ← run st
  match st'.stack with
  | [e] => do
      let v ← entryIValue e
      match v with
      | .list xs => .ok (ofDVList xs)
      | _ => do
          let xs ← toTupleE v
          .ok (ofDVList xs)
  | _ => .error .wrongStackSize

/-- Decode a byte stream with a fresh `Unpickler` sharing the given
tensor side table. -/
def unpickle (bytes : List Nat) (tab : List TensorHandle) : Except DErr (List DValue) :=
  parse_ivalue_list ⟨bytes, [], [], [], Option.none, tab⟩

/-- Run a byte stream and return the final decoder state (for
theorems about the machine state rather than the parsed list). -/
def runBytes (bytes : List Nat) (tab : List TensorHandle) : Except DErr UState :=
  run ⟨bytes, [], [], [], Option.none, tab⟩

/-- Tokens whose opcode is one of the four memo opcodes.  Operand
tokens are tagged (`u8`, `u32`, `raw`, ...), so scanning the token
stream for memo opcodes is unambiguous — unlike scanning raw bytes,
where operand bytes may alias opcode bytes. -/
def isPG : Token → Bool
  | .op OpCode.BINPUT => true
  | .op OpCode.LONG_BINPUT => true
  | .op OpCode.BINGET => true
  | .op OpCode.LONG_BINGET => true
  | _ => false

/-- Emission of a PUT of id `n` (`pushNextBinPut`'s width rule). -/
def putChunkT (n : Nat) : List Token :=
  if n ≤ 255 then [Token.op OpCode.BINPUT, Token.u8 n]
  else [Token.op OpCode.LONG_BINPUT, Token.u32 n]

/-- Emission of a GET of id `n` (`pushBinGet`'s width rule). -/
def getChunkT (n : Nat) : List Token :=
  if n ≤ 255 then [Token.op OpCode.BINGET, Token.u8 n]
  else [Token.op OpCode.LONG_BINGET, Token.u32 n]

/-- Memo discipline of an emitted token stream, scanned left to
right with `n` PUTs already seen: `MemoSeq n ts` holds iff every PUT in
`ts` carries exactly the next consecutive id (so ids are dense from
`n` in emission order), every GET carries an id strictly below the
number of PUTs seen at that point (so it was previously bound by a PUT
at the same id), and no memo opcode token occurs outside these two
shapes.  `MemoSeq 0` therefore states invariant 1 of spec §3 plus
dense in-order allocation for a whole stream. -/
inductive MemoSeq : Nat → List Token → Prop where
  | nil (n : Nat) : MemoSeq n []
  | neutral (n : Nat) (t : Token) (rest : List Token) :
      isPG t = false → MemoSeq n rest → MemoSeq n (t :: rest)
  | put (n : Nat) (rest : List Token) :
      MemoSeq (n + 1) rest → MemoSeq n (putChunkT n ++ rest)
  | get (n k : Nat) (rest : List Token) :
      k < n → MemoSeq n rest → MemoSeq n (getChunkT k ++ rest)

/-- Emission of `pushInt` as a token list (for stating the opcode
selection of claim C7 and the operand shape of tensor references). -/
def intTokens (n : Int) : List Token :=
  if -128 ≤ n ∧ n ≤ 127 then [Token.op OpCode.BININT1, Token.i8 n]
  else if -(2 ^ 31) ≤ n ∧ n ≤ 2 ^ 31 - 1 then [Token.op OpCode.BININT, Token.i32 n]
  else [Token.op OpCode.LONG1, Token.u8 8, Token.i64 n]

/-- Emission of `pushGlobal` from a given state: `GLOBAL` with the raw
name and a PUT on first use, a GET of the recorded memo id afterwards. -/
def globalEmission (st : PState) (name : List Nat) : List Token :=
  match alookup name st.memoized_strings_map with
  | Option.none => [Token.op OpCode.GLOBAL, Token.raw name] ++ putChunkT st.memo_id
  | some i => getChunkT i

/-- Trailing record written by `pushTensorData` for one literal
tensor: 8-byte little-endian element count, then the raw storage
bytes. -/
def tensorRecordChunk (tensor : TensorHandle) : List Token :=
  [Token.raw (intLE 8 tensor.numel),
   Token.raw (getWriteableTensor tensor).1.storage.data]

/-- Invariant tying the encoder's two memo maps to the id counter:
every recorded memo id is below `memo_id_`. -/
def EncInv (st : PState) : Prop :=
  (∀ p i, alookup p st.memo_map = some i → i < st.memo_id) ∧
  (∀ s i, alookup s st.memoized_strings_map = some i → i < st.memo_id)

/-- One encoder operation seen as a stream extension: the id counter
never decreases and, from an `EncInv` state, the invariant is
preserved and the emitted delta composes with any memo-disciplined
continuation. -/
def Step (st st' : PState) : Prop :=
  st.memo_id ≤ st'.memo_id ∧
  (EncInv st →
    EncInv st' ∧
    ∃ delta, st'.out = st.out ++ delta ∧
      ∀ rest, MemoSeq st'.memo_id rest → MemoSeq st.memo_id (delta ++ rest))

/-- Concrete tensor handle used by the demonstration conjuncts of the
claim theorems. -/
def demoTensor : TensorHandle :=
  ⟨ScalarType.float, 1, [1], [1], false, ⟨42, [0, 0, 0, 0]⟩⟩

/-- Concrete value exercising every decoder-supported variant except
`None`: a tuple holding a bool, an int, the bit pattern of `1.0`, the
string `ab`, an IntList, a generic list, a dict and a tensor. -/
def demoVal : IValue :=
  IValue.tuple 10 (IVList.cons (IValue.bool true) (IVList.cons (IValue.int 5)
    (IVList.cons (IValue.double 4607182418800017408)
    (IVList.cons (IValue.str 11 (ascii ("ab")))
    (IVList.cons (IValue.intlist 12 [1, 2])
    (IVList.cons (IValue.list 13 (IVList.cons (IValue.int 7) IVList.nil))
    (IVList.cons (IValue.dict 14 (IVPairs.cons (IValue.int 1) (IValue.int 2) IVPairs.nil))
    (IVList.cons (IValue.tensor demoTensor) IVList.nil))))))))

/-- Reference-mode session encoding `[demoVal]`. -/
def demoSession : PState :=
  encodeSession (some []) (IVList.cons demoVal IVList.nil)

/-- Decoded form of `demoVal` (identities erased, tensor resolved to
the same handle through the shared side table). -/
def demoDecoded : DValue :=
  DValue.tuple (toDVList [DValue.bool true, DValue.int 5,
    DValue.double 4607182418800017408, DValue.str (ascii ("ab")),
    DValue.intlist [1, 2], DValue.list (toDVList [DValue.int 7]),
    DValue.dict (DVPairs.cons (DValue.int 1) (DValue.int 2) DVPairs.nil),
    DValue.tensor demoTensor])

/-- A second handle over the same storage as `demoTensor` (differing in
`requires_grad`), for exercising literal-tensor emission. -/
def demoTensorGrad : TensorHandle :=
  ⟨ScalarType.float, 1, [1], [1], true, ⟨42, [0, 0, 0, 0]⟩⟩

/-- A pickler state in literal-tensor mode holding two handles that
share one storage. -/
def demoLitState : PState :=
  ⟨[], [], [], 0, Option.none, [demoTensor, demoTensorGrad], 0⟩

/-!  Theorems.  -/

/-- Bridging equation: the source's `addIValue` on an Int `IValue` is
exactly `pushInt` (scalars have no memo pointer), justifying the
inlining inside `addInts`, `pushTensorReference` and
`pushLiteralTensor`. -/
theorem addIValue_int (st : PState) (n : Int) : addIValue st (IValue.int n) = pushInt st n := rfl

/-- Bridging equation: `addIValue` on a Bool `IValue` emits
`NEWTRUE`/`NEWFALSE`. -/
theorem addIValue_bool (st : PState) (b : Bool) :
    addIValue st (IValue.bool b) =
      (if b then emit st [Token.op OpCode.NEWTRUE] else emit st [Token.op OpCode.NEWFALSE]) := rfl

/-- Bridging equation: the tuple branch of `addIValue` is `pushTuple`. -/
theorem addIValue_tuple (st : PState) (id : Nat) (xs : IVList)
    (h : alookup (Ptr.user 2 id) st.memo_map = Option.none) :
    addIValue st (IValue.tuple id xs) = pushTuple st id xs := by
  simp [addIValue, pushTuple, getPointer, h]

/-- Bridging equation: the list branch of `addIValue` is `pushList`. -/
theorem addIValue_list (st : PState) (id : Nat) (xs : IVList)
    (h : alookup (Ptr.user 1 id) st.memo_map = Option.none) :
    addIValue st (IValue.list id xs) = pushList st id xs := by
  simp [addIValue, pushList, getPointer, h]

/-- Bridging equation: the dict branch of `addIValue` is `pushDict`. -/
theorem addIValue_dict (st : PState) (id : Nat) (ps : IVPairs)
    (h : alookup (Ptr.user 0 id) st.memo_map = Option.none) :
    addIValue st (IValue.dict id ps) = pushDict st id ps := by
  simp [addIValue, pushDict, getPointer, h]

set_option maxRecDepth 4000 in
/-- Unfolding equation for one iteration of the decoder main loop. -/
theorem runLoop_succ (fuel : Nat) (st : UState) :
    runLoop (fuel + 1) st = runLoopBody fuel st := rfl

set_option maxRecDepth 4000 in
/-- Byte stream of the session encoding `[None]`. -/
theorem none_encode_eval :
    encodeBytes (some []) (IVList.cons IValue.none IVList.nil) =
      [0x80, 0x02, 0x28, 0x4E, 0x74, 0x2E] := rfl

set_option maxRecDepth 4000 in
set_option maxHeartbeats 3000000 in
/-- Decoding the round trip of the demonstration value, executed one
instruction at a time. -/
theorem demo_roundtrip_eval :
    unpickle (flatten demoSession.out) (demoSession.tensor_table.getD []) =
      .ok [demoDecoded] := by
  have hb : flatten demoSession.out = [128, 2, 40, 40, 136, 75, 5, 71, 63, 240, 0, 0, 0, 0, 0, 0, 88, 2, 0, 0, 0, 97, 98, 113, 0, 99, 116, 111, 114, 99, 104, 46, 106, 105, 116, 46, 95, 112, 105, 99, 107, 108, 101, 10, 98, 117, 105, 108, 100, 95, 105, 110, 116, 108, 105, 115, 116, 10, 113, 1, 40, 93, 40, 75, 1, 75, 2, 101, 116, 82, 113, 2, 93, 113, 3, 40, 75, 7, 101, 125, 113, 4, 40, 75, 1, 75, 2, 117, 99, 116, 111, 114, 99, 104, 46, 106, 105, 116, 46, 95, 112, 105, 99, 107, 108, 101, 10, 98, 117, 105, 108, 100, 95, 116, 101, 110, 115, 111, 114, 95, 102, 114, 111, 109, 95, 105, 100, 10, 113, 5, 40, 75, 0, 116, 82, 116, 113, 6, 116, 46] := rfl
  have ht : demoSession.tensor_table.getD [] = [demoTensor] := rfl
  rw [hb, ht]
  have p0 : run (⟨[128, 2, 40, 40, 136, 75, 5, 71, 63, 240, 0, 0, 0, 0, 0, 0, 88, 2, 0, 0, 0, 97, 98, 113, 0, 99, 116, 111, 114, 99, 104, 46, 106, 105, 116, 46, 95, 112, 105, 99, 107, 108, 101, 10, 98, 117, 105, 108, 100, 95, 105, 110, 116, 108, 105, 115, 116, 10, 113, 1, 40, 93, 40, 75, 1, 75, 2, 101, 116, 82, 113, 2, 93, 113, 3, 40, 75, 7, 101, 125, 113, 4, 40, 75, 1, 75, 2, 117, 99, 116, 111, 114, 99, 104, 46, 106, 105, 116, 46, 95, 112, 105, 99, 107, 108, 101, 10, 98, 117, 105, 108, 100, 95, 116, 101, 110, 115, 111, 114, 95, 102, 114, 111, 109, 95, 105, 100, 10, 113, 5, 40, 75, 0, 116, 82, 116, 113, 6, 116, 46], [], [], [], Option.none, [demoTensor]⟩ : UState) = runLoop 138 (⟨[40, 40, 136, 75, 5, 71, 63, 240, 0, 0, 0, 0, 0, 0, 88, 2, 0, 0, 0, 97, 98, 113, 0, 99, 116, 111, 114, 99, 104, 46, 106, 105, 116, 46, 95, 112, 105, 99, 107, 108, 101, 10, 98, 117, 105, 108, 100, 95, 105, 110, 116, 108, 105, 115, 116, 10, 113, 1, 40, 93, 40, 75, 1, 75, 2, 101, 116, 82, 113, 2, 93, 113, 3, 40, 75, 7, 101, 125, 113, 4, 40, 75, 1, 75, 2, 117, 99, 116, 111, 114, 99, 104, 46, 106, 105, 116, 46, 95, 112, 105, 99, 107, 108, 101, 10, 98, 117, 105, 108, 100, 95, 116, 101, 110, 115, 111, 114, 95, 102, 114, 111, 109, 95, 105, 100, 10, 113, 5, 40, 75, 0, 116, 82, 116, 113, 6, 116, 46], [], [], [], Option.none, [demoTensor]⟩ : UState) := rfl
  have e0 : runLoop (137 + 1) (⟨[40, 40, 136, 75, 5, 71, 63, 240, 0, 0, 0, 0, 0, 0, 88, 2, 0, 0, 0, 97, 98, 113, 0, 99, 116, 111, 114, 99, 104, 46, 106, 105, 116, 46, 95, 112, 105, 99, 107, 108, 101, 10, 98, 117, 105, 108, 100, 95, 105, 110, 116, 108, 105, 115, 116, 10, 113, 1, 40, 93, 40, 75, 1, 75, 2, 101, 116, 82, 113, 2, 93, 113, 3, 40, 75, 7, 101, 125, 113, 4, 40, 75, 1, 75, 2, 117, 99, 116, 111, 114, 99, 104, 46, 106, 105, 116, 46, 95, 112, 105, 99, 107, 108, 101, 10, 98, 117, 105, 108, 100, 95, 116, 101, 110, 115, 111, 114, 95, 102, 114, 111, 109, 95, 105, 100, 10, 113, 5, 40, 75, 0, 116, 82, 116, 113, 6, 116, 46], [], [], [], Option.none, [demoTensor]⟩ : UState) = runLoop 137 (⟨[40, 136, 75, 5, 71, 63, 240, 0, 0, 0, 0, 0, 0, 88, 2, 0, 0, 0, 97, 98, 113, 0, 99, 116, 111, 114, 99, 104, 46, 106, 105, 116, 46, 95, 112, 105, 99, 107, 108, 101, 10, 98, 117, 105, 108, 100, 95, 105, 110, 116, 108, 105, 115, 116, 10, 113, 1, 40, 93, 40, 75, 1, 75, 2, 101, 116, 82, 113, 2, 93, 113, 3, 40, 75, 7, 101, 125, 113, 4, 40, 75, 1, 75, 2, 117, 99, 116, 111, 114, 99, 104, 46, 106, 105, 116, 46, 95, 112, 105, 99, 107, 108, 101, 10, 98, 117, 105, 108, 100, 95, 116, 101, 110, 115, 111, 114, 95, 102, 114, 111, 109, 95, 105, 100, 10, 113, 5, 40, 75, 0, 116, 82, 116, 113, 6, 116, 46], [], [0], [], (some TorchPickle.OpCode.MARK), [demoTensor]⟩ : UState) := by
    have s : readInstruction (⟨[40, 40, 136, 75, 5, 71, 63, 240, 0, 0, 0, 0, 0, 0, 88, 2, 0, 0, 0, 97, 98, 113, 0, 99, 116, 111, 114, 99, 104, 46, 106, 105, 116, 46, 95, 112, 105, 99, 107, 108, 101, 10, 98, 117, 105, 108, 100, 95, 105, 110, 116, 108, 105, 115, 116, 10, 113, 1, 40, 93, 40, 75, 1, 75, 2, 101, 116, 82, 113, 2, 93, 113, 3, 40, 75, 7, 101, 125, 113, 4, 40, 75, 1, 75, 2, 117, 99, 116, 111, 114, 99, 104, 46, 106, 105, 116, 46, 95, 112, 105, 99, 107, 108, 101, 10, 98, 117, 105, 108, 100, 95, 116, 101, 110, 115, 111, 114, 95, 102, 114, 111, 109, 95, 105, 100, 10, 113, 5, 40, 75, 0, 116, 82, 116, 113, 6, 116, 46], [], [], [], Option.none, [demoTensor]⟩ : UState) = .ok ((⟨[40, 136, 75, 5, 71, 63, 240, 0, 0, 0, 0, 0, 0, 88, 2, 0, 0, 0, 97, 98, 113, 0, 99, 116, 111, 114, 99, 104, 46, 106, 105, 116, 46, 95, 112, 105, 99, 107, 108, 101, 10, 98, 117, 105, 108, 100, 95, 105, 110, 116, 108, 105, 115, 116, 10, 113, 1, 40, 93, 40, 75, 1, 75, 2, 101, 116, 82, 113, 2, 93, 113, 3, 40, 75, 7, 101, 125, 113, 4, 40, 75, 1, 75, 2, 117, 99, 116, 111, 114, 99, 104, 46, 106, 105, 116, 46, 95, 112, 105, 99, 107, 108, 101, 10, 98, 117, 105, 108, 100, 95, 116, 101, 110, 115, 111, 114, 95, 102, 114, 111, 109, 95, 105, 100, 10, 113, 5, 40, 75, 0, 116, 82, 116, 113, 6, 116, 46], [], [0], [], Option.none, [demoTensor]⟩ : UState), OpCode.MARK) := rfl
    rw [runLoop_succ]; simp only [runLoopBody]; rw [s]; rfl
  have e1 : runLoop (136 + 1) (⟨[40, 136, 75, 5, 71, 63, 240, 0, 0, 0, 0, 0, 0, 88, 2, 0, 0, 0, 97, 98, 113, 0, 99, 116, 111, 114, 99, 104, 46, 106, 105, 116, 46, 95, 112, 105, 99, 107, 108, 101, 10, 98, 117, 105, 108, 100, 95, 105, 110, 116, 108, 105, 115, 116, 10, 113, 1, 40, 93, 40, 75, 1, 75, 2, 101, 116, 82, 113, 2, 93, 113, 3, 40, 75, 7, 101, 125, 113, 4, 40, 75, 1, 75, 2, 117, 99, 116, 111, 114, 99, 104, 46, 106, 105, 116, 46, 95, 112, 105, 99, 107, 108, 101, 10, 98, 117, 105, 108, 100, 95, 116, 101, 110, 115, 111, 114, 95, 102, 114, 111, 109, 95, 105, 100, 10, 113, 5, 40, 75, 0, 116, 82, 116, 113, 6, 116, 46], [], [0], [], (some TorchPickle.OpCode.MARK), [demoTensor]⟩ : UState) = runLoop 136 (⟨[136, 75, 5, 71, 63, 240, 0, 0, 0, 0, 0, 0, 88, 2, 0, 0, 0, 97, 98, 113, 0, 99, 116, 111, 114, 99, 104, 46, 106, 105, 116, 46, 95, 112, 105, 99, 107, 108, 101, 10, 98, 117, 105, 108, 100, 95, 105, 110, 116, 108, 105, 115, 116, 10, 113, 1, 40, 93, 40, 75, 1, 75, 2, 101, 116, 82, 113, 2, 93, 113, 3, 40, 75, 7, 101, 125, 113, 4, 40, 75, 1, 75, 2, 117, 99, 116, 111, 114, 99, 104, 46, 106, 105, 116, 46, 95, 112, 105, 99, 107, 108, 101, 10, 98, 117, 105, 108, 100, 95, 116, 101, 110, 115, 111, 114, 95, 102, 114, 111, 109, 95, 105, 100, 10, 113, 5, 40, 75, 0, 116, 82, 116, 113, 6, 116, 46], [], [0, 0], [], (some TorchPickle.OpCode.MARK), [demoTensor]⟩ : UState) := by
    have s : readInstruction (⟨[40, 136, 75, 5, 71, 63, 240, 0, 0, 0, 0, 0, 0, 88, 2, 0, 0, 0, 97, 98, 113, 0, 99, 116, 111, 114, 99, 104, 46, 106, 105, 116, 46, 95, 112, 105, 99, 107, 108, 101, 10, 98, 117, 105, 108, 100, 95, 105, 110, 116, 108, 105, 115, 116, 10, 113, 1, 40, 93, 40, 75, 1, 75, 2, 101, 116, 82, 113, 2, 93, 113, 3, 40, 75, 7, 101, 125, 113, 4, 40, 75, 1, 75, 2, 117, 99, 116, 111, 114, 99, 104, 46, 106, 105, 116, 46, 95, 112, 105, 99, 107, 108, 101, 10, 98, 117, 105, 108, 100, 95, 116, 101, 110, 115, 111, 114, 95, 102, 114, 111, 109, 95, 105, 100, 10, 113, 5, 40, 75, 0, 116, 82, 116, 113, 6, 116, 46], [], [0], [], (some TorchPickle.OpCode.MARK), [demoTensor]⟩ : UState) = .ok ((⟨[136, 75, 5, 71, 63, 240, 0, 0, 0, 0, 0, 0, 88, 2, 0, 0, 0, 97, 98, 113, 0, 99, 116, 111, 114, 99, 104, 46, 106, 105, 116, 46, 95, 112, 105, 99, 107, 108, 101, 10, 98, 117, 105, 108, 100, 95, 105, 110, 116, 108, 105, 115, 116, 10, 113, 1, 40, 93, 40, 75, 1, 75, 2, 101, 116, 82, 113, 2, 93, 113, 3, 40, 75, 7, 101, 125, 113, 4, 40, 75, 1, 75, 2, 117, 99, 116, 111, 114, 99, 104, 46, 106, 105, 116, 46, 95, 112, 105, 99, 107, 108, 101, 10, 98, 117, 105, 108, 100, 95, 116, 101, 110, 115, 111, 114, 95, 102, 114, 111, 109, 95, 105, 100, 10, 113, 5, 40, 75, 0, 116, 82, 116, 113, 6, 116, 46], [], [0, 0], [], (some TorchPickle.OpCode.MARK), [demoTensor]⟩ : UState), OpCode.MARK) := rfl
    rw [runLoop_succ]; simp only [runLoopBody]; rw [s]; rfl
  have e2 : runLoop (135 + 1) (⟨[136, 75, 5, 71, 63, 240, 0, 0, 0, 0, 0, 0, 88, 2, 0, 0, 0, 97, 98, 113, 0, 99, 116, 111, 114, 99, 104, 46, 106, 105, 116, 46, 95, 112, 105, 99, 107, 108, 101, 10, 98, 117, 105, 108, 100, 95, 105, 110, 116, 108, 105, 115, 116, 10, 113, 1, 40, 93, 40, 75, 1, 75, 2, 101, 116, 82, 113, 2, 93, 113, 3, 40, 75, 7, 101, 125, 113, 4, 40, 75, 1, 75, 2, 117, 99, 116, 111, 114, 99, 104, 46, 106, 105, 116, 46, 95, 112, 105, 99, 107, 108, 101, 10, 98, 117, 105, 108, 100, 95, 116, 101, 110, 115, 111, 114, 95, 102, 114, 111, 109, 95, 105, 100, 10, 113, 5, 40, 75, 0, 116, 82, 116, 113, 6, 116, 46], [], [0, 0], [], (some TorchPickle.OpCode.MARK), [demoTensor]⟩ : UState) = runLoop 135 (⟨[75, 5, 71, 63, 240, 0, 0, 0, 0, 0, 0, 88, 2, 0, 0, 0, 97, 98, 113, 0, 99, 116, 111, 114, 99, 104, 46, 106, 105, 116, 46, 95, 112, 105, 99, 107, 108, 101, 10, 98, 117, 105, 108, 100, 95, 105, 110, 116, 108, 105, 115, 116, 10, 113, 1, 40, 93, 40, 75, 1, 75, 2, 101, 116, 82, 113, 2, 93, 113, 3, 40, 75, 7, 101, 125, 113, 4, 40, 75, 1, 75, 2, 117, 99, 116, 111, 114, 99, 104, 46, 106, 105, 116, 46, 95, 112, 105, 99, 107, 108, 101, 10, 98, 117, 105, 108, 100, 95, 116, 101, 110, 115, 111, 114, 95, 102, 114, 111, 109, 95, 105, 100, 10, 113, 5, 40, 75, 0, 116, 82, 116, 113, 6, 116, 46], [(StackEntry.ival (DValue.bool true))], [0, 0], [], (some TorchPickle.OpCode.NEWTRUE), [demoTensor]⟩ : UState) := by
    have s : readInstruction (⟨[136, 75, 5, 71, 63, 240, 0, 0, 0, 0, 0, 0, 88, 2, 0, 0, 0, 97, 98, 113, 0, 99, 116, 111, 114, 99, 104, 46, 106, 105, 116, 46, 95, 112, 105, 99, 107, 108, 101, 10, 98, 117, 105, 108, 100, 95, 105, 110, 116, 108, 105, 115, 116, 10, 113, 1, 40, 93, 40, 75, 1, 75, 2, 101, 116, 82, 113, 2, 93, 113, 3, 40, 75, 7, 101, 125, 113, 4, 40, 75, 1, 75, 2, 117, 99, 116, 111, 114, 99, 104, 46, 106, 105, 116, 46, 95, 112, 105, 99, 107, 108, 101, 10, 98, 117, 105, 108, 100, 95, 116, 101, 110, 115, 111, 114, 95, 102, 114, 111, 109, 95, 105, 100, 10, 113, 5, 40, 75, 0, 116, 82, 116, 113, 6, 116, 46], [], [0, 0], [], (some TorchPickle.OpCode.MARK), [demoTensor]⟩ : UState) = .ok ((⟨[75, 5, 71, 63, 240, 0, 0, 0, 0, 0, 0, 88, 2, 0, 0, 0, 97, 98, 113, 0, 99, 116, 111, 114, 99, 104, 46, 106, 105, 116, 46, 95, 112, 105, 99, 107, 108, 101, 10, 98, 117, 105, 108, 100, 95, 105, 110, 116, 108, 105, 115, 116, 10, 113, 1, 40, 93, 40, 75, 1, 75, 2, 101, 116, 82, 113, 2, 93, 113, 3, 40, 75, 7, 101, 125, 113, 4, 40, 75, 1, 75, 2, 117, 99, 116, 111, 114, 99, 104, 46, 106, 105, 116, 46, 95, 112, 105, 99, 107, 108, 101, 10, 98, 117, 105, 108, 100, 95, 116, 101, 110, 115, 111, 114, 95, 102, 114, 111, 109, 95, 105, 100, 10, 113, 5, 40, 75, 0, 116, 82, 116, 113, 6, 116, 46], [(StackEntry.ival (DValue.bool true))], [0, 0], [], (some TorchPickle.OpCode.MARK), [demoTensor]⟩ : UState), OpCode.NEWTRUE) := rfl
    rw [runLoop_succ]; simp only [runLoopBody]; rw [s]; rfl
  have e3 : runLoop (134 + 1) (⟨[75, 5, 71, 63, 240, 0, 0, 0, 0, 0, 0, 88, 2, 0, 0, 0, 97, 98, 113, 0, 99, 116, 111, 114, 99, 104, 46, 106, 105, 116, 46, 95, 112, 105, 99, 107, 108, 101, 10, 98, 117, 105, 108, 100, 95, 105, 110, 116, 108, 105, 115, 116, 10, 113, 1, 40, 93, 40, 75, 1, 75, 2, 101, 116, 82, 113, 2, 93, 113, 3, 40, 75, 7, 101, 125, 113, 4, 40, 75, 1, 75, 2, 117, 99, 116, 111, 114, 99, 104, 46, 106, 105, 116, 46, 95, 112, 105, 99, 107, 108, 101, 10, 98, 117, 105, 108, 100, 95, 116, 101, 110, 115, 111, 114, 95, 102, 114, 111, 109, 95, 105, 100, 10, 113, 5, 40, 75, 0, 116, 82, 116, 113, 6, 116, 46], [(StackEntry.ival (DValue.bool true))], [0, 0], [], (some TorchPickle.OpCode.NEWTRUE), [demoTensor]⟩ : UState) = runLoop 134 (⟨[71, 63, 240, 0, 0, 0, 0, 0, 0, 88, 2, 0, 0, 0, 97, 98, 113, 0, 99, 116, 111, 114, 99, 104, 46, 106, 105, 116, 46, 95, 112, 105, 99, 107, 108, 101, 10, 98, 117, 105, 108, 100, 95, 105, 110, 116, 108, 105, 115, 116, 10, 113, 1, 40, 93, 40, 75, 1, 75, 2, 101, 116, 82, 113, 2, 93, 113, 3, 40, 75, 7, 101, 125, 113, 4, 40, 75, 1, 75, 2, 117, 99, 116, 111, 114, 99, 104, 46, 106, 105, 116, 46, 95, 112, 105, 99, 107, 108, 101, 10, 98, 117, 105, 108, 100, 95, 116, 101, 110, 115, 111, 114, 95, 102, 114, 111, 109, 95, 105, 100, 10, 113, 5, 40, 75, 0, 116, 82, 116, 113, 6, 116, 46], [(StackEntry.ival (DValue.bool true)), (StackEntry.ival (DValue.int 5))], [0, 0], [], (some TorchPickle.OpCode.BININT1), [demoTensor]⟩ : UState) := by
    have s : readInstruction (⟨[75, 5, 71, 63, 240, 0, 0, 0, 0, 0, 0, 88, 2, 0, 0, 0, 97, 98, 113, 0, 99, 116, 111, 114, 99, 104, 46, 106, 105, 116, 46, 95, 112, 105, 99, 107, 108, 101, 10, 98, 117, 105, 108, 100, 95, 105, 110, 116, 108, 105, 115, 116, 10, 113, 1, 40, 93, 40, 75, 1, 75, 2, 101, 116, 82, 113, 2, 93, 113, 3, 40, 75, 7, 101, 125, 113, 4, 40, 75, 1, 75, 2, 117, 99, 116, 111, 114, 99, 104, 46, 106, 105, 116, 46, 95, 112, 105, 99, 107, 108, 101, 10, 98, 117, 105, 108, 100, 95, 116, 101, 110, 115, 111, 114, 95, 102, 114, 111, 109, 95, 105, 100, 10, 113, 5, 40, 75, 0, 116, 82, 116, 113, 6, 116, 46], [(StackEntry.ival (DValue.bool true))], [0, 0], [], (some TorchPickle.OpCode.NEWTRUE), [demoTensor]⟩ : UState) = .ok ((⟨[71, 63, 240, 0, 0, 0, 0, 0, 0, 88, 2, 0, 0, 0, 97, 98, 113, 0, 99, 116, 111, 114, 99, 104, 46, 106, 105, 116, 46, 95, 112, 105, 99, 107, 108, 101, 10, 98, 117, 105, 108, 100, 95, 105, 110, 116, 108, 105, 115, 116, 10, 113, 1, 40, 93, 40, 75, 1, 75, 2, 101, 116, 82, 113, 2, 93, 113, 3, 40, 75, 7, 101, 125, 113, 4, 40, 75, 1, 75, 2, 117, 99, 116, 111, 114, 99, 104, 46, 106, 105, 116, 46, 95, 112, 105, 99, 107, 108, 101, 10, 98, 117, 105, 108, 100, 95, 116, 101, 110, 115, 111, 114, 95, 102, 114, 111, 109, 95, 105, 100, 10, 113, 5, 40, 75, 0, 116, 82, 116, 113, 6, 116, 46], [(StackEntry.ival (DValue.bool true)), (StackEntry.ival (DValue.int 5))], [0, 0], [], (some TorchPickle.OpCode.NEWTRUE), [demoTensor]⟩ : UState), OpCode.BININT1) := rfl
    rw [runLoop_succ]; simp only [runLoopBody]; rw [s]; rfl
  have e4 : runLoop (133 + 1) (⟨[71, 63, 240, 0, 0, 0, 0, 0, 0, 88, 2, 0, 0, 0, 97, 98, 113, 0, 99, 116, 111, 114, 99, 104, 46, 106, 105, 116, 46, 95, 112, 105, 99, 107, 108, 101, 10, 98, 117, 105, 108, 100, 95, 105, 110, 116, 108, 105, 115, 116, 10, 113, 1, 40, 93, 40, 75, 1, 75, 2, 101, 116, 82, 113, 2, 93, 113, 3, 40, 75, 7, 101, 125, 113, 4, 40, 75, 1, 75, 2, 117, 99, 116, 111, 114, 99, 104, 46, 106, 105, 116, 46, 95, 112, 105, 99, 107, 108, 101, 10, 98, 117, 105, 108, 100, 95, 116, 101, 110, 115, 111, 114, 95, 102, 114, 111, 109, 95, 105, 100, 10, 113, 5, 40, 75, 0, 116, 82, 116, 113, 6, 116, 46], [(StackEntry.ival (DValue.bool true)), (StackEntry.ival (DValue.int 5))], [0, 0], [], (some TorchPickle.OpCode.BININT1), [demoTensor]⟩ : UState) = runLoop 133 (⟨[88, 2, 0, 0, 0, 97, 98, 113, 0, 99, 116, 111, 114, 99, 104, 46, 106, 105, 116, 46, 95, 112, 105, 99, 107, 108, 101, 10, 98, 117, 105, 108, 100, 95, 105, 110, 116, 108, 105, 115, 116, 10, 113, 1, 40, 93, 40, 75, 1, 75, 2, 101, 116, 82, 113, 2, 93, 113, 3, 40, 75, 7, 101, 125, 113, 4, 40, 75, 1, 75, 2, 117, 99, 116, 111, 114, 99, 104, 46, 106, 105, 116, 46, 95, 112, 105, 99, 107, 108, 101, 10, 98, 117, 105, 108, 100, 95, 116, 101, 110, 115, 111, 114, 95, 102, 114, 111, 109, 95, 105, 100, 10, 113, 5, 40, 75, 0, 116, 82, 116, 113, 6, 116, 46], [(StackEntry.ival (DValue.bool true)), (StackEntry.ival (DValue.int 5)), (StackEntry.ival (DValue.double 4607182418800017408))], [0, 0], [], (some TorchPickle.OpCode.BINFLOAT), [demoTensor]⟩ : UState) := by
    have s : readInstruction (⟨[71, 63, 240, 0, 0, 0, 0, 0, 0, 88, 2, 0, 0, 0, 97, 98, 113, 0, 99, 116, 111, 114, 99, 104, 46, 106, 105, 116, 46, 95, 112, 105, 99, 107, 108, 101, 10, 98, 117, 105, 108, 100, 95, 105, 110, 116, 108, 105, 115, 116, 10, 113, 1, 40, 93, 40, 75, 1, 75, 2, 101, 116, 82, 113, 2, 93, 113, 3, 40, 75, 7, 101, 125, 113, 4, 40, 75, 1, 75, 2, 117, 99, 116, 111, 114, 99, 104, 46, 106, 105, 116, 46, 95, 112, 105, 99, 107, 108, 101, 10, 98, 117, 105, 108, 100, 95, 116, 101, 110, 115, 111, 114, 95, 102, 114, 111, 109, 95, 105, 100, 10, 113, 5, 40, 75, 0, 116, 82, 116, 113, 6, 116, 46], [(StackEntry.ival (DValue.bool true)), (StackEntry.ival (DValue.int 5))], [0, 0], [], (some TorchPickle.OpCode.BININT1), [demoTensor]⟩ : UState) = .ok ((⟨[88, 2, 0, 0, 0, 97, 98, 113, 0, 99, 116, 111, 114, 99, 104, 46, 106, 105, 116, 46, 95, 112, 105, 99, 107, 108, 101, 10, 98, 117, 105, 108, 100, 95, 105, 110, 116, 108, 105, 115, 116, 10, 113, 1, 40, 93, 40, 75, 1, 75, 2, 101, 116, 82, 113, 2, 93, 113, 3, 40, 75, 7, 101, 125, 113, 4, 40, 75, 1, 75, 2, 117, 99, 116, 111, 114, 99, 104, 46, 106, 105, 116, 46, 95, 112, 105, 99, 107, 108, 101, 10, 98, 117, 105, 108, 100, 95, 116, 101, 110, 115, 111, 114, 95, 102, 114, 111, 109, 95, 105, 100, 10, 113, 5, 40, 75, 0, 116, 82, 116, 113, 6, 116, 46], [(StackEntry.ival (DValue.bool true)), (StackEntry.ival (DValue.int 5)), (StackEntry.ival (DValue.double 4607182418800017408))], [0, 0], [], (some TorchPickle.OpCode.BININT1), [demoTensor]⟩ : UState), OpCode.BINFLOAT) := rfl
    rw [runLoop_succ]; simp only [runLoopBody]; rw [s]; rfl
  have e5 : runLoop (132 + 1) (⟨[88, 2, 0, 0, 0, 97, 98, 113, 0, 99, 116, 111, 114, 99, 104, 46, 106, 105, 116, 46, 95, 112, 105, 99, 107, 108, 101, 10, 98, 117, 105, 108, 100, 95, 105, 110, 116, 108, 105, 115, 116, 10, 113, 1, 40, 93, 40, 75, 1, 75, 2, 101, 116, 82, 113, 2, 93, 113, 3, 40, 75, 7, 101, 125, 113, 4, 40, 75, 1, 75, 2, 117, 99, 116, 111, 114, 99, 104, 46, 106, 105, 116, 46, 95, 112, 105, 99, 107, 108, 101, 10, 98, 117, 105, 108, 100, 95, 116, 101, 110, 115, 111, 114, 95, 102, 114, 111, 109, 95, 105, 100, 10, 113, 5, 40, 75, 0, 116, 82, 116, 113, 6, 116, 46], [(StackEntry.ival (DValue.bool true)), (StackEntry.ival (DValue.int 5)), (StackEntry.ival (DValue.double 4607182418800017408))], [0, 0], [], (some TorchPickle.OpCode.BINFLOAT), [demoTensor]⟩ : UState) = runLoop 132 (⟨[113, 0, 99, 116, 111, 114, 99, 104, 46, 106, 105, 116, 46, 95, 112, 105, 99, 107, 108, 101, 10, 98, 117, 105, 108, 100, 95, 105, 110, 116, 108, 105, 115, 116, 10, 113, 1, 40, 93, 40, 75, 1, 75, 2, 101, 116, 82, 113, 2, 93, 113, 3, 40, 75, 7, 101, 125, 113, 4, 40, 75, 1, 75, 2, 117, 99, 116, 111, 114, 99, 104, 46, 106, 105, 116, 46, 95, 112, 105, 99, 107, 108, 101, 10, 98, 117, 105, 108, 100, 95, 116, 101, 110, 115, 111, 114, 95, 102, 114, 111, 109, 95, 105, 100, 10, 113, 5, 40, 75, 0, 116, 82, 116, 113, 6, 116, 46], [(StackEntry.ival (DValue.bool true)), (StackEntry.ival (DValue.int 5)), (StackEntry.ival (DValue.double 4607182418800017408)), (StackEntry.ival (DValue.str [97, 98]))], [0, 0], [], (some TorchPickle.OpCode.BINUNICODE), [demoTensor]⟩ : UState) := by
    have s : readInstruction (⟨[88, 2, 0, 0, 0, 97, 98, 113, 0, 99, 116, 111, 114, 99, 104, 46, 106, 105, 116, 46, 95, 112, 105, 99, 107, 108, 101, 10, 98, 117, 105, 108, 100, 95, 105, 110, 116, 108, 105, 115, 116, 10, 113, 1, 40, 93, 40, 75, 1, 75, 2, 101, 116, 82, 113, 2, 93, 113, 3, 40, 75, 7, 101, 125, 113, 4, 40, 75, 1, 75, 2, 117, 99, 116, 111, 114, 99, 104, 46, 106, 105, 116, 46, 95, 112, 105, 99, 107, 108, 101, 10, 98, 117, 105, 108, 100, 95, 116, 101, 110, 115, 111, 114, 95, 102, 114, 111, 109, 95, 105, 100, 10, 113, 5, 40, 75, 0, 116, 82, 116, 113, 6, 116, 46], [(StackEntry.ival (DValue.bool true)), (StackEntry.ival (DValue.int 5)), (StackEntry.ival (DValue.double 4607182418800017408))], [0, 0], [], (some TorchPickle.OpCode.BINFLOAT), [demoTensor]⟩ : UState) = .ok ((⟨[113, 0, 99, 116, 111, 114, 99, 104, 46, 106, 105, 116, 46, 95, 112, 105, 99, 107, 108, 101, 10, 98, 117, 105, 108, 100, 95, 105, 110, 116, 108, 105, 115, 116, 10, 113, 1, 40, 93, 40, 75, 1, 75, 2, 101, 116, 82, 113, 2, 93, 113, 3, 40, 75, 7, 101, 125, 113, 4, 40, 75, 1, 75, 2, 117, 99, 116, 111, 114, 99, 104, 46, 106, 105, 116, 46, 95, 112, 105, 99, 107, 108, 101, 10, 98, 117, 105, 108, 100, 95, 116, 101, 110, 115, 111, 114, 95, 102, 114, 111, 109, 95, 105, 100, 10, 113, 5, 40, 75, 0, 116, 82, 116, 113, 6, 116, 46], [(StackEntry.ival (DValue.bool true)), (StackEntry.ival (DValue.int 5)), (StackEntry.ival (DValue.double 4607182418800017408)), (StackEntry.ival (DValue.str [97, 98]))], [0, 0], [], (some TorchPickle.OpCode.BINFLOAT), [demoTensor]⟩ : UState), OpCode.BINUNICODE) := rfl
    rw [runLoop_succ]; simp only [runLoopBody]; rw [s]; rfl
  have e6 : runLoop (131 + 1) (⟨[113, 0, 99, 116, 111, 114, 99, 104, 46, 106, 105, 116, 46, 95, 112, 105, 99, 107, 108, 101, 10, 98, 117, 105, 108, 100, 95, 105, 110, 116, 108, 105, 115, 116, 10, 113, 1, 40, 93, 40, 75, 1, 75, 2, 101, 116, 82, 113, 2, 93, 113, 3, 40, 75, 7, 101, 125, 113, 4, 40, 75, 1, 75, 2, 117, 99, 116, 111, 114, 99, 104, 46, 106, 105, 116, 46, 95, 112, 105, 99, 107, 108, 101, 10, 98, 117, 105, 108, 100, 95, 116, 101, 110, 115, 111, 114, 95, 102, 114, 111, 109, 95, 105, 100, 10, 113, 5, 40, 75, 0, 116, 82, 116, 113, 6, 116, 46], [(StackEntry.ival (DValue.bool true)), (StackEntry.ival (DValue.int 5)), (StackEntry.ival (DValue.double 4607182418800017408)), (StackEntry.ival (DValue.str [97, 98]))], [0, 0], [], (some TorchPickle.OpCode.BINUNICODE), [demoTensor]⟩ : UState) = runLoop 131 (⟨[99, 116, 111, 114, 99, 104, 46, 106, 105, 116, 46, 95, 112, 105, 99, 107, 108, 101, 10, 98, 117, 105, 108, 100, 95, 105, 110, 116, 108, 105, 115, 116, 10, 113, 1, 40, 93, 40, 75, 1, 75, 2, 101, 116, 82, 113, 2, 93, 113, 3, 40, 75, 7, 101, 125, 113, 4, 40, 75, 1, 75, 2, 117, 99, 116, 111, 114, 99, 104, 46, 106, 105, 116, 46, 95, 112, 105, 99, 107, 108, 101, 10, 98, 117, 105, 108, 100, 95, 116, 101, 110, 115, 111, 114, 95, 102, 114, 111, 109, 95, 105, 100, 10, 113, 5, 40, 75, 0, 116, 82, 116, 113, 6, 116, 46], [(StackEntry.ival (DValue.bool true)), (StackEntry.ival (DValue.int 5)), (StackEntry.ival (DValue.double 4607182418800017408)), (StackEntry.ival (DValue.str [97, 98]))], [0, 0], [(StackEntry.ival (DValue.str [97, 98]))], (some TorchPickle.OpCode.BINPUT), [demoTensor]⟩ : UState) := by
    have s : readInstruction (⟨[113, 0, 99, 116, 111, 114, 99, 104, 46, 106, 105, 116, 46, 95, 112, 105, 99, 107, 108, 101, 10, 98, 117, 105, 108, 100, 95, 105, 110, 116, 108, 105, 115, 116, 10, 113, 1, 40, 93, 40, 75, 1, 75, 2, 101, 116, 82, 113, 2, 93, 113, 3, 40, 75, 7, 101, 125, 113, 4, 40, 75, 1, 75, 2, 117, 99, 116, 111, 114, 99, 104, 46, 106, 105, 116, 46, 95, 112, 105, 99, 107, 108, 101, 10, 98, 117, 105, 108, 100, 95, 116, 101, 110, 115, 111, 114, 95, 102, 114, 111, 109, 95, 105, 100, 10, 113, 5, 40, 75, 0, 116, 82, 116, 113, 6, 116, 46], [(StackEntry.ival (DValue.bool true)), (StackEntry.ival (DValue.int 5)), (StackEntry.ival (DValue.double 4607182418800017408)), (StackEntry.ival (DValue.str [97, 98]))], [0, 0], [], (some TorchPickle.OpCode.BINUNICODE), [demoTensor]⟩ : UState) = .ok ((⟨[99, 116, 111, 114, 99, 104, 46, 106, 105, 116, 46, 95, 112, 105, 99, 107, 108, 101, 10, 98, 117, 105, 108, 100, 95, 105, 110, 116, 108, 105, 115, 116, 10, 113, 1, 40, 93, 40, 75, 1, 75, 2, 101, 116, 82, 113, 2, 93, 113, 3, 40, 75, 7, 101, 125, 113, 4, 40, 75, 1, 75, 2, 117, 99, 116, 111, 114, 99, 104, 46, 106, 105, 116, 46, 95, 112, 105, 99, 107, 108, 101, 10, 98, 117, 105, 108, 100, 95, 116, 101, 110, 115, 111, 114, 95, 102, 114, 111, 109, 95, 105, 100, 10, 113, 5, 40, 75, 0, 116, 82, 116, 113, 6, 116, 46], [(StackEntry.ival (DValue.bool true)), (StackEntry.ival (DValue.int 5)), (StackEntry.ival (DValue.double 4607182418800017408)), (StackEntry.ival (DValue.str [97, 98]))], [0, 0], [(StackEntry.ival (DValue.str [97, 98]))], (some TorchPickle.OpCode.BINUNICODE), [demoTensor]⟩ : UState), OpCode.BINPUT) := rfl
    rw [runLoop_succ]; simp only [runLoopBody]; rw [s]; rfl
  have e7 : runLoop (130 + 1) (⟨[99, 116, 111, 114, 99, 104, 46, 106, 105, 116, 46, 95, 112, 105, 99, 107, 108, 101, 10, 98, 117, 105, 108, 100, 95, 105, 110, 116, 108, 105, 115, 116, 10, 113, 1, 40, 93, 40, 75, 1, 75, 2, 101, 116, 82, 113, 2, 93, 113, 3, 40, 75, 7, 101, 125, 113, 4, 40, 75, 1, 75, 2, 117, 99, 116, 111, 114, 99, 104, 46, 106, 105, 116, 46, 95, 112, 105, 99, 107, 108, 101, 10, 98, 117, 105, 108, 100, 95, 116, 101, 110, 115, 111, 114, 95, 102, 114, 111, 109, 95, 105, 100, 10, 113, 5, 40, 75, 0, 116, 82, 116, 113, 6, 116, 46], [(StackEntry.ival (DValue.bool true)), (StackEntry.ival (DValue.int 5)), (StackEntry.ival (DValue.double 4607182418800017408)), (StackEntry.ival (DValue.str [97, 98]))], [0, 0], [(StackEntry.ival (DValue.str [97, 98]))], (some TorchPickle.OpCode.BINPUT), [demoTensor]⟩ : UState) = runLoop 130 (⟨[113, 1, 40, 93, 40, 75, 1, 75, 2, 101, 116, 82, 113, 2, 93, 113, 3, 40, 75, 7, 101, 125, 113, 4, 40, 75, 1, 75, 2, 117, 99, 116, 111, 114, 99, 104, 46, 106, 105, 116, 46, 95, 112, 105, 99, 107, 108, 101, 10, 98, 117, 105, 108, 100, 95, 116, 101, 110, 115, 111, 114, 95, 102, 114, 111, 109, 95, 105, 100, 10, 113, 5, 40, 75, 0, 116, 82, 116, 113, 6, 116, 46], [(StackEntry.ival (DValue.bool true)), (StackEntry.ival (DValue.int 5)), (StackEntry.ival (DValue.double 4607182418800017408)), (StackEntry.ival (DValue.str [97, 98])), (StackEntry.cls PicklerClass.INTLIST)], [0, 0], [(StackEntry.ival (DValue.str [97, 98]))], (some TorchPickle.OpCode.GLOBAL), [demoTensor]⟩ : UState) := by
    have s : readInstruction (⟨[99, 116, 111, 114, 99, 104, 46, 106, 105, 116, 46, 95, 112, 105, 99, 107, 108, 101, 10, 98, 117, 105, 108, 100, 95, 105, 110, 116, 108, 105, 115, 116, 10, 113, 1, 40, 93, 40, 75, 1, 75, 2, 101, 116, 82, 113, 2, 93, 113, 3, 40, 75, 7, 101, 125, 113, 4, 40, 75, 1, 75, 2, 117, 99, 116, 111, 114, 99, 104, 46, 106, 105, 116, 46, 95, 112, 105, 99, 107, 108, 101, 10, 98, 117, 105, 108, 100, 95, 116, 101, 110, 115, 111, 114, 95, 102, 114, 111, 109, 95, 105, 100, 10, 113, 5, 40, 75, 0, 116, 82, 116, 113, 6, 116, 46], [(StackEntry.ival (DValue.bool true)), (StackEntry.ival (DValue.int 5)), (StackEntry.ival (DValue.double 4607182418800017408)), (StackEntry.ival (DValue.str [97, 98]))], [0, 0], [(StackEntry.ival (DValue.str [97, 98]))], (some TorchPickle.OpCode.BINPUT), [demoTensor]⟩ : UState) = .ok ((⟨[113, 1, 40, 93, 40, 75, 1, 75, 2, 101, 116, 82, 113, 2, 93, 113, 3, 40, 75, 7, 101, 125, 113, 4, 40, 75, 1, 75, 2, 117, 99, 116, 111, 114, 99, 104, 46, 106, 105, 116, 46, 95, 112, 105, 99, 107, 108, 101, 10, 98, 117, 105, 108, 100, 95, 116, 101, 110, 115, 111, 114, 95, 102, 114, 111, 109, 95, 105, 100, 10, 113, 5, 40, 75, 0, 116, 82, 116, 113, 6, 116, 46], [(StackEntry.ival (DValue.bool true)), (StackEntry.ival (DValue.int 5)), (StackEntry.ival (DValue.double 4607182418800017408)), (StackEntry.ival (DValue.str [97, 98])), (StackEntry.cls PicklerClass.INTLIST)], [0, 0], [(StackEntry.ival (DValue.str [97, 98]))], (some TorchPickle.OpCode.BINPUT), [demoTensor]⟩ : UState), OpCode.GLOBAL) := rfl
    rw [runLoop_succ]; simp only [runLoopBody]; rw [s]; rfl
  have e8 : runLoop (129 + 1) (⟨[113, 1, 40, 93, 40, 75, 1, 75, 2, 101, 116, 82, 113, 2, 93, 113, 3, 40, 75, 7, 101, 125, 113, 4, 40, 75, 1, 75, 2, 117, 99, 116, 111, 114, 99, 104, 46, 106, 105, 116, 46, 95, 112, 105, 99, 107, 108, 101, 10, 98, 117, 105, 108, 100, 95, 116, 101, 110, 115, 111, 114, 95, 102, 114, 111, 109, 95, 105, 100, 10, 113, 5, 40, 75, 0, 116, 82, 116, 113, 6, 116, 46], [(StackEntry.ival (DValue.bool true)), (StackEntry.ival (DValue.int 5)), (StackEntry.ival (DValue.double 4607182418800017408)), (StackEntry.ival (DValue.str [97, 98])), (StackEntry.cls PicklerClass.INTLIST)], [0, 0], [(StackEntry.ival (DValue.str [97, 98]))], (some TorchPickle.OpCode.GLOBAL), [demoTensor]⟩ : UState) = runLoop 129 (⟨[40, 93, 40, 75, 1, 75, 2, 101, 116, 82, 113, 2, 93, 113, 3, 40, 75, 7, 101, 125, 113, 4, 40, 75, 1, 75, 2, 117, 99, 116, 111, 114, 99, 104, 46, 106, 105, 116, 46, 95, 112, 105, 99, 107, 108, 101, 10, 98, 117, 105, 108, 100, 95, 116, 101, 110, 115, 111, 114, 95, 102, 114, 111, 109, 95, 105, 100, 10, 113, 5, 40, 75, 0, 116, 82, 116, 113, 6, 116, 46], [(StackEntry.ival (DValue.bool true)), (StackEntry.ival (DValue.int 5)), (StackEntry.ival (DValue.double 4607182418800017408)), (StackEntry.ival (DValue.str [97, 98])), (StackEntry.cls PicklerClass.INTLIST)], [0, 0], [(StackEntry.ival (DValue.str [97, 98])), (StackEntry.cls PicklerClass.INTLIST)], (some TorchPickle.OpCode.BINPUT), [demoTensor]⟩ : UState) := by
    have s : readInstruction (⟨[113, 1, 40, 93, 40, 75, 1, 75, 2, 101, 116, 82, 113, 2, 93, 113, 3, 40, 75, 7, 101, 125, 113, 4, 40, 75, 1, 75, 2, 117, 99, 116, 111, 114, 99, 104, 46, 106, 105, 116, 46, 95, 112, 105, 99, 107, 108, 101, 10, 98, 117, 105, 108, 100, 95, 116, 101, 110, 115, 111, 114, 95, 102, 114, 111, 109, 95, 105, 100, 10, 113, 5, 40, 75, 0, 116, 82, 116, 113, 6, 116, 46], [(StackEntry.ival (DValue.bool true)), (StackEntry.ival (DValue.int 5)), (StackEntry.ival (DValue.double 4607182418800017408)), (StackEntry.ival (DValue.str [97, 98])), (StackEntry.cls PicklerClass.INTLIST)], [0, 0], [(StackEntry.ival (DValue.str [97, 98]))], (some TorchPickle.OpCode.GLOBAL), [demoTensor]⟩ : UState) = .ok ((⟨[40, 93, 40, 75, 1, 75, 2, 101, 116, 82, 113, 2, 93, 113, 3, 40, 75, 7, 101, 125, 113, 4, 40, 75, 1, 75, 2, 117, 99, 116, 111, 114, 99, 104, 46, 106, 105, 116, 46, 95, 112, 105, 99, 107, 108, 101, 10, 98, 117, 105, 108, 100, 95, 116, 101, 110, 115, 111, 114, 95, 102, 114, 111, 109, 95, 105, 100, 10, 113, 5, 40, 75, 0, 116, 82, 116, 113, 6, 116, 46], [(StackEntry.ival (DValue.bool true)), (StackEntry.ival (DValue.int 5)), (StackEntry.ival (DValue.double 4607182418800017408)), (StackEntry.ival (DValue.str [97, 98])), (StackEntry.cls PicklerClass.INTLIST)], [0, 0], [(StackEntry.ival (DValue.str [97, 98])), (StackEntry.cls PicklerClass.INTLIST)], (some TorchPickle.OpCode.GLOBAL), [demoTensor]⟩ : UState), OpCode.BINPUT) := rfl
    rw [runLoop_succ]; simp only [runLoopBody]; rw [s]; rfl
  have e9 : runLoop (128 + 1) (⟨[40, 93, 40, 75, 1, 75, 2, 101, 116, 82, 113, 2, 93, 113, 3, 40, 75, 7, 101, 125, 113, 4, 40, 75, 1, 75, 2, 117, 99, 116, 111, 114, 99, 104, 46, 106, 105, 116, 46, 95, 112, 105, 99, 107, 108, 101, 10, 98, 117, 105, 108, 100, 95, 116, 101, 110, 115, 111, 114, 95, 102, 114, 111, 109, 95, 105, 100, 10, 113, 5, 40, 75, 0, 116, 82, 116, 113, 6, 116, 46], [(StackEntry.ival (DValue.bool true)), (StackEntry.ival (DValue.int 5)), (StackEntry.ival (DValue.double 4607182418800017408)), (StackEntry.ival (DValue.str [97, 98])), (StackEntry.cls PicklerClass.INTLIST)], [0, 0], [(StackEntry.ival (DValue.str [97, 98])), (StackEntry.cls PicklerClass.INTLIST)], (some TorchPickle.OpCode.BINPUT), [demoTensor]⟩ : UState) = runLoop 128 (⟨[93, 40, 75, 1, 75, 2, 101, 116, 82, 113, 2, 93, 113, 3, 40, 75, 7, 101, 125, 113, 4, 40, 75, 1, 75, 2, 117, 99, 116, 111, 114, 99, 104, 46, 106, 105, 116, 46, 95, 112, 105, 99, 107, 108, 101, 10, 98, 117, 105, 108, 100, 95, 116, 101, 110, 115, 111, 114, 95, 102, 114, 111, 109, 95, 105, 100, 10, 113, 5, 40, 75, 0, 116, 82, 116, 113, 6, 116, 46], [(StackEntry.ival (DValue.bool true)), (StackEntry.ival (DValue.int 5)), (StackEntry.ival (DValue.double 4607182418800017408)), (StackEntry.ival (DValue.str [97, 98])), (StackEntry.cls PicklerClass.INTLIST)], [0, 0, 5], [(StackEntry.ival (DValue.str [97, 98])), (StackEntry.cls PicklerClass.INTLIST)], (some TorchPickle.OpCode.MARK), [demoTensor]⟩ : UState) := by
    have s : readInstruction (⟨[40, 93, 40, 75, 1, 75, 2, 101, 116, 82, 113, 2, 93, 113, 3, 40, 75, 7, 101, 125, 113, 4, 40, 75, 1, 75, 2, 117, 99, 116, 111, 114, 99, 104, 46, 106, 105, 116, 46, 95, 112, 105, 99, 107, 108, 101, 10, 98, 117, 105, 108, 100, 95, 116, 101, 110, 115, 111, 114, 95, 102, 114, 111, 109, 95, 105, 100, 10, 113, 5, 40, 75, 0, 116, 82, 116, 113, 6, 116, 46], [(StackEntry.ival (DValue.bool true)), (StackEntry.ival (DValue.int 5)), (StackEntry.ival (DValue.double 4607182418800017408)), (StackEntry.ival (DValue.str [97, 98])), (StackEntry.cls PicklerClass.INTLIST)], [0, 0], [(StackEntry.ival (DValue.str [97, 98])), (StackEntry.cls PicklerClass.INTLIST)], (some TorchPickle.OpCode.BINPUT), [demoTensor]⟩ : UState) = .ok ((⟨[93, 40, 75, 1, 75, 2, 101, 116, 82, 113, 2, 93, 113, 3, 40, 75, 7, 101, 125, 113, 4, 40, 75, 1, 75, 2, 117, 99, 116, 111, 114, 99, 104, 46, 106, 105, 116, 46, 95, 112, 105, 99, 107, 108, 101, 10, 98, 117, 105, 108, 100, 95, 116, 101, 110, 115, 111, 114, 95, 102, 114, 111, 109, 95, 105, 100, 10, 113, 5, 40, 75, 0, 116, 82, 116, 113, 6, 116, 46], [(StackEntry.ival (DValue.bool true)), (StackEntry.ival (DValue.int 5)), (StackEntry.ival (DValue.double 4607182418800017408)), (StackEntry.ival (DValue.str [97, 98])), (StackEntry.cls PicklerClass.INTLIST)], [0, 0, 5], [(StackEntry.ival (DValue.str [97, 98])), (StackEntry.cls PicklerClass.INTLIST)], (some TorchPickle.OpCode.BINPUT), [demoTensor]⟩ : UState), OpCode.MARK) := rfl
    rw [runLoop_succ]; simp only [runLoopBody]; rw [s]; rfl
  have e10 : runLoop (127 + 1) (⟨[93, 40, 75, 1, 75, 2, 101, 116, 82, 113, 2, 93, 113, 3, 40, 75, 7, 101, 125, 113, 4, 40, 75, 1, 75, 2, 117, 99, 116, 111, 114, 99, 104, 46, 106, 105, 116, 46, 95, 112, 105, 99, 107, 108, 101, 10, 98, 117, 105, 108, 100, 95, 116, 101, 110, 115, 111, 114, 95, 102, 114, 111, 109, 95, 105, 100, 10, 113, 5, 40, 75, 0, 116, 82, 116, 113, 6, 116, 46], [(StackEntry.ival (DValue.bool true)), (StackEntry.ival (DValue.int 5)), (StackEntry.ival (DValue.double 4607182418800017408)), (StackEntry.ival (DValue.str [97, 98])), (StackEntry.cls PicklerClass.INTLIST)], [0, 0, 5], [(StackEntry.ival (DValue.str [97, 98])), (StackEntry.cls PicklerClass.INTLIST)], (some TorchPickle.OpCode.MARK), [demoTensor]⟩ : UState) = runLoop 127 (⟨[40, 75, 1, 75, 2, 101, 116, 82, 113, 2, 93, 113, 3, 40, 75, 7, 101, 125, 113, 4, 40, 75, 1, 75, 2, 117, 99, 116, 111, 114, 99, 104, 46, 106, 105, 116, 46, 95, 112, 105, 99, 107, 108, 101, 10, 98, 117, 105, 108, 100, 95, 116, 101, 110, 115, 111, 114, 95, 102, 114, 111, 109, 95, 105, 100, 10, 113, 5, 40, 75, 0, 116, 82, 116, 113, 6, 116, 46], [(StackEntry.ival (DValue.bool true)), (StackEntry.ival (DValue.int 5)), (StackEntry.ival (DValue.double 4607182418800017408)), (StackEntry.ival (DValue.str [97, 98])), (StackEntry.cls PicklerClass.INTLIST), (StackEntry.ival (DValue.intlist []))], [0, 0, 5], [(StackEntry.ival (DValue.str [97, 98])), (StackEntry.cls PicklerClass.INTLIST)], (some TorchPickle.OpCode.EMPTY_LIST), [demoTensor]⟩ : UState) := by
    have s : readInstruction (⟨[93, 40, 75, 1, 75, 2, 101, 116, 82, 113, 2, 93, 113, 3, 40, 75, 7, 101, 125, 113, 4, 40, 75, 1, 75, 2, 117, 99, 116, 111, 114, 99, 104, 46, 106, 105, 116, 46, 95, 112, 105, 99, 107, 108, 101, 10, 98, 117, 105, 108, 100, 95, 116, 101, 110, 115, 111, 114, 95, 102, 114, 111, 109, 95, 105, 100, 10, 113, 5, 40, 75, 0, 116, 82, 116, 113, 6, 116, 46], [(StackEntry.ival (DValue.bool true)), (StackEntry.ival (DValue.int 5)), (StackEntry.ival (DValue.double 4607182418800017408)), (StackEntry.ival (DValue.str [97, 98])), (StackEntry.cls PicklerClass.INTLIST)], [0, 0, 5], [(StackEntry.ival (DValue.str [97, 98])), (StackEntry.cls PicklerClass.INTLIST)], (some TorchPickle.OpCode.MARK), [demoTensor]⟩ : UState) = .ok ((⟨[40, 75, 1, 75, 2, 101, 116, 82, 113, 2, 93, 113, 3, 40, 75, 7, 101, 125, 113, 4, 40, 75, 1, 75, 2, 117, 99, 116, 111, 114, 99, 104, 46, 106, 105, 116, 46, 95, 112, 105, 99, 107, 108, 101, 10, 98, 117, 105, 108, 100, 95, 116, 101, 110, 115, 111, 114, 95, 102, 114, 111, 109, 95, 105, 100, 10, 113, 5, 40, 75, 0, 116, 82, 116, 113, 6, 116, 46], [(StackEntry.ival (DValue.bool true)), (StackEntry.ival (DValue.int 5)), (StackEntry.ival (DValue.double 4607182418800017408)), (StackEntry.ival (DValue.str [97, 98])), (StackEntry.cls PicklerClass.INTLIST), (StackEntry.ival (DValue.intlist []))], [0, 0, 5], [(StackEntry.ival (DValue.str [97, 98])), (StackEntry.cls PicklerClass.INTLIST)], (some TorchPickle.OpCode.MARK), [demoTensor]⟩ : UState), OpCode.EMPTY_LIST) := rfl
    rw [runLoop_succ]; simp only [runLoopBody]; rw [s]; rfl
  have e11 : runLoop (126 + 1) (⟨[40, 75, 1, 75, 2, 101, 116, 82, 113, 2, 93, 113, 3, 40, 75, 7, 101, 125, 113, 4, 40, 75, 1, 75, 2, 117, 99, 116, 111, 114, 99, 104, 46, 106, 105, 116, 46, 95, 112, 105, 99, 107, 108, 101, 10, 98, 117, 105, 108, 100, 95, 116, 101, 110, 115, 111, 114, 95, 102, 114, 111, 109, 95, 105, 100, 10, 113, 5, 40, 75, 0, 116, 82, 116, 113, 6, 116, 46], [(StackEntry.ival (DValue.bool true)), (StackEntry.ival (DValue.int 5)), (StackEntry.ival (DValue.double 4607182418800017408)), (StackEntry.ival (DValue.str [97, 98])), (StackEntry.cls PicklerClass.INTLIST), (StackEntry.ival (DValue.intlist []))], [0, 0, 5], [(StackEntry.ival (DValue.str [97, 98])), (StackEntry.cls PicklerClass.INTLIST)], (some TorchPickle.OpCode.EMPTY_LIST), [demoTensor]⟩ : UState) = runLoop 126 (⟨[75, 1, 75, 2, 101, 116, 82, 113, 2, 93, 113, 3, 40, 75, 7, 101, 125, 113, 4, 40, 75, 1, 75, 2, 117, 99, 116, 111, 114, 99, 104, 46, 106, 105, 116, 46, 95, 112, 105, 99, 107, 108, 101, 10, 98, 117, 105, 108, 100, 95, 116, 101, 110, 115, 111, 114, 95, 102, 114, 111, 109, 95, 105, 100, 10, 113, 5, 40, 75, 0, 116, 82, 116, 113, 6, 116, 46], [(StackEntry.ival (DValue.bool true)), (StackEntry.ival (DValue.int 5)), (StackEntry.ival (DValue.double 4607182418800017408)), (StackEntry.ival (DValue.str [97, 98])), (StackEntry.cls PicklerClass.INTLIST), (StackEntry.ival (DValue.intlist []))], [0, 0, 5, 6], [(StackEntry.ival (DValue.str [97, 98])), (StackEntry.cls PicklerClass.INTLIST)], (some TorchPickle.OpCode.MARK), [demoTensor]⟩ : UState) := by
    have s : readInstruction (⟨[40, 75, 1, 75, 2, 101, 116, 82, 113, 2, 93, 113, 3, 40, 75, 7, 101, 125, 113, 4, 40, 75, 1, 75, 2, 117, 99, 116, 111, 114, 99, 104, 46, 106, 105, 116, 46, 95, 112, 105, 99, 107, 108, 101, 10, 98, 117, 105, 108, 100, 95, 116, 101, 110, 115, 111, 114, 95, 102, 114, 111, 109, 95, 105, 100, 10, 113, 5, 40, 75, 0, 116, 82, 116, 113, 6, 116, 46], [(StackEntry.ival (DValue.bool true)), (StackEntry.ival (DValue.int 5)), (StackEntry.ival (DValue.double 4607182418800017408)), (StackEntry.ival (DValue.str [97, 98])), (StackEntry.cls PicklerClass.INTLIST), (StackEntry.ival (DValue.intlist []))], [0, 0, 5], [(StackEntry.ival (DValue.str [97, 98])), (StackEntry.cls PicklerClass.INTLIST)], (some TorchPickle.OpCode.EMPTY_LIST), [demoTensor]⟩ : UState) = .ok ((⟨[75, 1, 75, 2, 101, 116, 82, 113, 2, 93, 113, 3, 40, 75, 7, 101, 125, 113, 4, 40, 75, 1, 75, 2, 117, 99, 116, 111, 114, 99, 104, 46, 106, 105, 116, 46, 95, 112, 105, 99, 107, 108, 101, 10, 98, 117, 105, 108, 100, 95, 116, 101, 110, 115, 111, 114, 95, 102, 114, 111, 109, 95, 105, 100, 10, 113, 5, 40, 75, 0, 116, 82, 116, 113, 6, 116, 46], [(StackEntry.ival (DValue.bool true)), (StackEntry.ival (DValue.int 5)), (StackEntry.ival (DValue.double 4607182418800017408)), (StackEntry.ival (DValue.str [97, 98])), (StackEntry.cls PicklerClass.INTLIST), (StackEntry.ival (DValue.intlist []))], [0, 0, 5, 6], [(StackEntry.ival (DValue.str [97, 98])), (StackEntry.cls PicklerClass.INTLIST)], (some TorchPickle.OpCode.EMPTY_LIST), [demoTensor]⟩ : UState), OpCode.MARK) := rfl
    rw [runLoop_succ]; simp only [runLoopBody]; rw [s]; rfl
  have e12 : runLoop (125 + 1) (⟨[75, 1, 75, 2, 101, 116, 82, 113, 2, 93, 113, 3, 40, 75, 7, 101, 125, 113, 4, 40, 75, 1, 75, 2, 117, 99, 116, 111, 114, 99, 104, 46, 106, 105, 116, 46, 95, 112, 105, 99, 107, 108, 101, 10, 98, 117, 105, 108, 100, 95, 116, 101, 110, 115, 111, 114, 95, 102, 114, 111, 109, 95, 105, 100, 10, 113, 5, 40, 75, 0, 116, 82, 116, 113, 6, 116, 46], [(StackEntry.ival (DValue.bool true)), (StackEntry.ival (DValue.int 5)), (StackEntry.ival (DValue.double 4607182418800017408)), (StackEntry.ival (DValue.str [97, 98])), (StackEntry.cls PicklerClass.INTLIST), (StackEntry.ival (DValue.intlist []))], [0, 0, 5, 6], [(StackEntry.ival (DValue.str [97, 98])), (StackEntry.cls PicklerClass.INTLIST)], (some TorchPickle.OpCode.MARK), [demoTensor]⟩ : UState) = runLoop 125 (⟨[75, 2, 101, 116, 82, 113, 2, 93, 113, 3, 40, 75, 7, 101, 125, 113, 4, 40, 75, 1, 75, 2, 117, 99, 116, 111, 114, 99, 104, 46, 106, 105, 116, 46, 95, 112, 105, 99, 107, 108, 101, 10, 98, 117, 105, 108, 100, 95, 116, 101, 110, 115, 111, 114, 95, 102, 114, 111, 109, 95, 105, 100, 10, 113, 5, 40, 75, 0, 116, 82, 116, 113, 6, 116, 46], [(StackEntry.ival (DValue.bool true)), (StackEntry.ival (DValue.int 5)), (StackEntry.ival (DValue.double 4607182418800017408)), (StackEntry.ival (DValue.str [97, 98])), (StackEntry.cls PicklerClass.INTLIST), (StackEntry.ival (DValue.intlist [])), (StackEntry.ival (DValue.int 1))], [0, 0, 5, 6], [(StackEntry.ival (DValue.str [97, 98])), (StackEntry.cls PicklerClass.INTLIST)], (some TorchPickle.OpCode.BININT1), [demoTensor]⟩ : UState) := by
    have s : readInstruction (⟨[75, 1, 75, 2, 101, 116, 82, 113, 2, 93, 113, 3, 40, 75, 7, 101, 125, 113, 4, 40, 75, 1, 75, 2, 117, 99, 116, 111, 114, 99, 104, 46, 106, 105, 116, 46, 95, 112, 105, 99, 107, 108, 101, 10, 98, 117, 105, 108, 100, 95, 116, 101, 110, 115, 111, 114, 95, 102, 114, 111, 109, 95, 105, 100, 10, 113, 5, 40, 75, 0, 116, 82, 116, 113, 6, 116, 46], [(StackEntry.ival (DValue.bool true)), (StackEntry.ival (DValue.int 5)), (StackEntry.ival (DValue.double 4607182418800017408)), (StackEntry.ival (DValue.str [97, 98])), (StackEntry.cls PicklerClass.INTLIST), (StackEntry.ival (DValue.intlist []))], [0, 0, 5, 6], [(StackEntry.ival (DValue.str [97, 98])), (StackEntry.cls PicklerClass.INTLIST)], (some TorchPickle.OpCode.MARK), [demoTensor]⟩ : UState) = .ok ((⟨[75, 2, 101, 116, 82, 113, 2, 93, 113, 3, 40, 75, 7, 101, 125, 113, 4, 40, 75, 1, 75, 2, 117, 99, 116, 111, 114, 99, 104, 46, 106, 105, 116, 46, 95, 112, 105, 99, 107, 108, 101, 10, 98, 117, 105, 108, 100, 95, 116, 101, 110, 115, 111, 114, 95, 102, 114, 111, 109, 95, 105, 100, 10, 113, 5, 40, 75, 0, 116, 82, 116, 113, 6, 116, 46], [(StackEntry.ival (DValue.bool true)), (StackEntry.ival (DValue.int 5)), (StackEntry.ival (DValue.double 4607182418800017408)), (StackEntry.ival (DValue.str [97, 98])), (StackEntry.cls PicklerClass.INTLIST), (StackEntry.ival (DValue.intlist [])), (StackEntry.ival (DValue.int 1))], [0, 0, 5, 6], [(StackEntry.ival (DValue.str [97, 98])), (StackEntry.cls PicklerClass.INTLIST)], (some TorchPickle.OpCode.MARK), [demoTensor]⟩ : UState), OpCode.BININT1) := rfl
    rw [runLoop_succ]; simp only [runLoopBody]; rw [s]; rfl
  have e13 : runLoop (124 + 1) (⟨[75, 2, 101, 116, 82, 113, 2, 93, 113, 3, 40, 75, 7, 101, 125, 113, 4, 40, 75, 1, 75, 2, 117, 99, 116, 111, 114, 99, 104, 46, 106, 105, 116, 46, 95, 112, 105, 99, 107, 108, 101, 10, 98, 117, 105, 108, 100, 95, 116, 101, 110, 115, 111, 114, 95, 102, 114, 111, 109, 95, 105, 100, 10, 113, 5, 40, 75, 0, 116, 82, 116, 113, 6, 116, 46], [(StackEntry.ival (DValue.bool true)), (StackEntry.ival (DValue.int 5)), (StackEntry.ival (DValue.double 4607182418800017408)), (StackEntry.ival (DValue.str [97, 98])), (StackEntry.cls PicklerClass.INTLIST), (StackEntry.ival (DValue.intlist [])), (StackEntry.ival (DValue.int 1))], [0, 0, 5, 6], [(StackEntry.ival (DValue.str [97, 98])), (StackEntry.cls PicklerClass.INTLIST)], (some TorchPickle.OpCode.BININT1), [demoTensor]⟩ : UState) = runLoop 124 (⟨[101, 116, 82, 113, 2, 93, 113, 3, 40, 75, 7, 101, 125, 113, 4, 40, 75, 1, 75, 2, 117, 99, 116, 111, 114, 99, 104, 46, 106, 105, 116, 46, 95, 112, 105, 99, 107, 108, 101, 10, 98, 117, 105, 108, 100, 95, 116, 101, 110, 115, 111, 114, 95, 102, 114, 111, 109, 95, 105, 100, 10, 113, 5, 40, 75, 0, 116, 82, 116, 113, 6, 116, 46], [(StackEntry.ival (DValue.bool true)), (StackEntry.ival (DValue.int 5)), (StackEntry.ival (DValue.double 4607182418800017408)), (StackEntry.ival (DValue.str [97, 98])), (StackEntry.cls PicklerClass.INTLIST), (StackEntry.ival (DValue.intlist [])), (StackEntry.ival (DValue.int 1)), (StackEntry.ival (DValue.int 2))], [0, 0, 5, 6], [(StackEntry.ival (DValue.str [97, 98])), (StackEntry.cls PicklerClass.INTLIST)], (some TorchPickle.OpCode.BININT1), [demoTensor]⟩ : UState) := by
    have s : readInstruction (⟨[75, 2, 101, 116, 82, 113, 2, 93, 113, 3, 40, 75, 7, 101, 125, 113, 4, 40, 75, 1, 75, 2, 117, 99, 116, 111, 114, 99, 104, 46, 106, 105, 116, 46, 95, 112, 105, 99, 107, 108, 101, 10, 98, 117, 105, 108, 100, 95, 116, 101, 110, 115, 111, 114, 95, 102, 114, 111, 109, 95, 105, 100, 10, 113, 5, 40, 75, 0, 116, 82, 116, 113, 6, 116, 46], [(StackEntry.ival (DValue.bool true)), (StackEntry.ival (DValue.int 5)), (StackEntry.ival (DValue.double 4607182418800017408)), (StackEntry.ival (DValue.str [97, 98])), (StackEntry.cls PicklerClass.INTLIST), (StackEntry.ival (DValue.intlist [])), (StackEntry.ival (DValue.int 1))], [0, 0, 5, 6], [(StackEntry.ival (DValue.str [97, 98])), (StackEntry.cls PicklerClass.INTLIST)], (some TorchPickle.OpCode.BININT1), [demoTensor]⟩ : UState) = .ok ((⟨[101, 116, 82, 113, 2, 93, 113, 3, 40, 75, 7, 101, 125, 113, 4, 40, 75, 1, 75, 2, 117, 99, 116, 111, 114, 99, 104, 46, 106, 105, 116, 46, 95, 112, 105, 99, 107, 108, 101, 10, 98, 117, 105, 108, 100, 95, 116, 101, 110, 115, 111, 114, 95, 102, 114, 111, 109, 95, 105, 100, 10, 113, 5, 40, 75, 0, 116, 82, 116, 113, 6, 116, 46], [(StackEntry.ival (DValue.bool true)), (StackEntry.ival (DValue.int 5)), (StackEntry.ival (DValue.double 4607182418800017408)), (StackEntry.ival (DValue.str [97, 98])), (StackEntry.cls PicklerClass.INTLIST), (StackEntry.ival (DValue.intlist [])), (StackEntry.ival (DValue.int 1)), (StackEntry.ival (DValue.int 2))], [0, 0, 5, 6], [(StackEntry.ival (DValue.str [97, 98])), (StackEntry.cls PicklerClass.INTLIST)], (some TorchPickle.OpCode.BININT1), [demoTensor]⟩ : UState), OpCode.BININT1) := rfl
    rw [runLoop_succ]; simp only [runLoopBody]; rw [s]; rfl
  have e14 : runLoop (123 + 1) (⟨[101, 116, 82, 113, 2, 93, 113, 3, 40, 75, 7, 101, 125, 113, 4, 40, 75, 1, 75, 2, 117, 99, 116, 111, 114, 99, 104, 46, 106, 105, 116, 46, 95, 112, 105, 99, 107, 108, 101, 10, 98, 117, 105, 108, 100, 95, 116, 101, 110, 115, 111, 114, 95, 102, 114, 111, 109, 95, 105, 100, 10, 113, 5, 40, 75, 0, 116, 82, 116, 113, 6, 116, 46], [(StackEntry.ival (DValue.bool true)), (StackEntry.ival (DValue.int 5)), (StackEntry.ival (DValue.double 4607182418800017408)), (StackEntry.ival (DValue.str [97, 98])), (StackEntry.cls PicklerClass.INTLIST), (StackEntry.ival (DValue.intlist [])), (StackEntry.ival (DValue.int 1)), (StackEntry.ival (DValue.int 2))], [0, 0, 5, 6], [(StackEntry.ival (DValue.str [97, 98])), (StackEntry.cls PicklerClass.INTLIST)], (some TorchPickle.OpCode.BININT1), [demoTensor]⟩ : UState) = runLoop 123 (⟨[116, 82, 113, 2, 93, 113, 3, 40, 75, 7, 101, 125, 113, 4, 40, 75, 1, 75, 2, 117, 99, 116, 111, 114, 99, 104, 46, 106, 105, 116, 46, 95, 112, 105, 99, 107, 108, 101, 10, 98, 117, 105, 108, 100, 95, 116, 101, 110, 115, 111, 114, 95, 102, 114, 111, 109, 95, 105, 100, 10, 113, 5, 40, 75, 0, 116, 82, 116, 113, 6, 116, 46], [(StackEntry.ival (DValue.bool true)), (StackEntry.ival (DValue.int 5)), (StackEntry.ival (DValue.double 4607182418800017408)), (StackEntry.ival (DValue.str [97, 98])), (StackEntry.cls PicklerClass.INTLIST), (StackEntry.ival (DValue.intlist [1, 2]))], [0, 0, 5], [(StackEntry.ival (DValue.str [97, 98])), (StackEntry.cls PicklerClass.INTLIST)], (some TorchPickle.OpCode.APPENDS), [demoTensor]⟩ : UState) := by
    have s : readInstruction (⟨[101, 116, 82, 113, 2, 93, 113, 3, 40, 75, 7, 101, 125, 113, 4, 40, 75, 1, 75, 2, 117, 99, 116, 111, 114, 99, 104, 46, 106, 105, 116, 46, 95, 112, 105, 99, 107, 108, 101, 10, 98, 117, 105, 108, 100, 95, 116, 101, 110, 115, 111, 114, 95, 102, 114, 111, 109, 95, 105, 100, 10, 113, 5, 40, 75, 0, 116, 82, 116, 113, 6, 116, 46], [(StackEntry.ival (DValue.bool true)), (StackEntry.ival (DValue.int 5)), (StackEntry.ival (DValue.double 4607182418800017408)), (StackEntry.ival (DValue.str [97, 98])), (StackEntry.cls PicklerClass.INTLIST), (StackEntry.ival (DValue.intlist [])), (StackEntry.ival (DValue.int 1)), (StackEntry.ival (DValue.int 2))], [0, 0, 5, 6], [(StackEntry.ival (DValue.str [97, 98])), (StackEntry.cls PicklerClass.INTLIST)], (some TorchPickle.OpCode.BININT1), [demoTensor]⟩ : UState) = .ok ((⟨[116, 82, 113, 2, 93, 113, 3, 40, 75, 7, 101, 125, 113, 4, 40, 75, 1, 75, 2, 117, 99, 116, 111, 114, 99, 104, 46, 106, 105, 116, 46, 95, 112, 105, 99, 107, 108, 101, 10, 98, 117, 105, 108, 100, 95, 116, 101, 110, 115, 111, 114, 95, 102, 114, 111, 109, 95, 105, 100, 10, 113, 5, 40, 75, 0, 116, 82, 116, 113, 6, 116, 46], [(StackEntry.ival (DValue.bool true)), (StackEntry.ival (DValue.int 5)), (StackEntry.ival (DValue.double 4607182418800017408)), (StackEntry.ival (DValue.str [97, 98])), (StackEntry.cls PicklerClass.INTLIST), (StackEntry.ival (DValue.intlist [1, 2]))], [0, 0, 5], [(StackEntry.ival (DValue.str [97, 98])), (StackEntry.cls PicklerClass.INTLIST)], (some TorchPickle.OpCode.BININT1), [demoTensor]⟩ : UState), OpCode.APPENDS) := rfl
    rw [runLoop_succ]; simp only [runLoopBody]; rw [s]; rfl
  have e15 : runLoop (122 + 1) (⟨[116, 82, 113, 2, 93, 113, 3, 40, 75, 7, 101, 125, 113, 4, 40, 75, 1, 75, 2, 117, 99, 116, 111, 114, 99, 104, 46, 106, 105, 116, 46, 95, 112, 105, 99, 107, 108, 101, 10, 98, 117, 105, 108, 100, 95, 116, 101, 110, 115, 111, 114, 95, 102, 114, 111, 109, 95, 105, 100, 10, 113, 5, 40, 75, 0, 116, 82, 116, 113, 6, 116, 46], [(StackEntry.ival (DValue.bool true)), (StackEntry.ival (DValue.int 5)), (StackEntry.ival (DValue.double 4607182418800017408)), (StackEntry.ival (DValue.str [97, 98])), (StackEntry.cls PicklerClass.INTLIST), (StackEntry.ival (DValue.intlist [1, 2]))], [0, 0, 5], [(StackEntry.ival (DValue.str [97, 98])), (StackEntry.cls PicklerClass.INTLIST)], (some TorchPickle.OpCode.APPENDS), [demoTensor]⟩ : UState) = runLoop 122 (⟨[82, 113, 2, 93, 113, 3, 40, 75, 7, 101, 125, 113, 4, 40, 75, 1, 75, 2, 117, 99, 116, 111, 114, 99, 104, 46, 106, 105, 116, 46, 95, 112, 105, 99, 107, 108, 101, 10, 98, 117, 105, 108, 100, 95, 116, 101, 110, 115, 111, 114, 95, 102, 114, 111, 109, 95, 105, 100, 10, 113, 5, 40, 75, 0, 116, 82, 116, 113, 6, 116, 46], [(StackEntry.ival (DValue.bool true)), (StackEntry.ival (DValue.int 5)), (StackEntry.ival (DValue.double 4607182418800017408)), (StackEntry.ival (DValue.str [97, 98])), (StackEntry.cls PicklerClass.INTLIST), (StackEntry.ival (DValue.tuple (DVList.cons (DValue.intlist [1, 2]) DVList.nil)))], [0, 0], [(StackEntry.ival (DValue.str [97, 98])), (StackEntry.cls PicklerClass.INTLIST)], (some TorchPickle.OpCode.TUPLE), [demoTensor]⟩ : UState) := by
    have s : readInstruction (⟨[116, 82, 113, 2, 93, 113, 3, 40, 75, 7, 101, 125, 113, 4, 40, 75, 1, 75, 2, 117, 99, 116, 111, 114, 99, 104, 46, 106, 105, 116, 46, 95, 112, 105, 99, 107, 108, 101, 10, 98, 117, 105, 108, 100, 95, 116, 101, 110, 115, 111, 114, 95, 102, 114, 111, 109, 95, 105, 100, 10, 113, 5, 40, 75, 0, 116, 82, 116, 113, 6, 116, 46], [(StackEntry.ival (DValue.bool true)), (StackEntry.ival (DValue.int 5)), (StackEntry.ival (DValue.double 4607182418800017408)), (StackEntry.ival (DValue.str [97, 98])), (StackEntry.cls PicklerClass.INTLIST), (StackEntry.ival (DValue.intlist [1, 2]))], [0, 0, 5], [(StackEntry.ival (DValue.str [97, 98])), (StackEntry.cls PicklerClass.INTLIST)], (some TorchPickle.OpCode.APPENDS), [demoTensor]⟩ : UState) = .ok ((⟨[82, 113, 2, 93, 113, 3, 40, 75, 7, 101, 125, 113, 4, 40, 75, 1, 75, 2, 117, 99, 116, 111, 114, 99, 104, 46, 106, 105, 116, 46, 95, 112, 105, 99, 107, 108, 101, 10, 98, 117, 105, 108, 100, 95, 116, 101, 110, 115, 111, 114, 95, 102, 114, 111, 109, 95, 105, 100, 10, 113, 5, 40, 75, 0, 116, 82, 116, 113, 6, 116, 46], [(StackEntry.ival (DValue.bool true)), (StackEntry.ival (DValue.int 5)), (StackEntry.ival (DValue.double 4607182418800017408)), (StackEntry.ival (DValue.str [97, 98])), (StackEntry.cls PicklerClass.INTLIST), (StackEntry.ival (DValue.tuple (DVList.cons (DValue.intlist [1, 2]) DVList.nil)))], [0, 0], [(StackEntry.ival (DValue.str [97, 98])), (StackEntry.cls PicklerClass.INTLIST)], (some TorchPickle.OpCode.APPENDS), [demoTensor]⟩ : UState), OpCode.TUPLE) := rfl
    rw [runLoop_succ]; simp only [runLoopBody]; rw [s]; rfl
  have e16 : runLoop (121 + 1) (⟨[82, 113, 2, 93, 113, 3, 40, 75, 7, 101, 125, 113, 4, 40, 75, 1, 75, 2, 117, 99, 116, 111, 114, 99, 104, 46, 106, 105, 116, 46, 95, 112, 105, 99, 107, 108, 101, 10, 98, 117, 105, 108, 100, 95, 116, 101, 110, 115, 111, 114, 95, 102, 114, 111, 109, 95, 105, 100, 10, 113, 5, 40, 75, 0, 116, 82, 116, 113, 6, 116, 46], [(StackEntry.ival (DValue.bool true)), (StackEntry.ival (DValue.int 5)), (StackEntry.ival (DValue.double 4607182418800017408)), (StackEntry.ival (DValue.str [97, 98])), (StackEntry.cls PicklerClass.INTLIST), (StackEntry.ival (DValue.tuple (DVList.cons (DValue.intlist [1, 2]) DVList.nil)))], [0, 0], [(StackEntry.ival (DValue.str [97, 98])), (StackEntry.cls PicklerClass.INTLIST)], (some TorchPickle.OpCode.TUPLE), [demoTensor]⟩ : UState) = runLoop 121 (⟨[113, 2, 93, 113, 3, 40, 75, 7, 101, 125, 113, 4, 40, 75, 1, 75, 2, 117, 99, 116, 111, 114, 99, 104, 46, 106, 105, 116, 46, 95, 112, 105, 99, 107, 108, 101, 10, 98, 117, 105, 108, 100, 95, 116, 101, 110, 115, 111, 114, 95, 102, 114, 111, 109, 95, 105, 100, 10, 113, 5, 40, 75, 0, 116, 82, 116, 113, 6, 116, 46], [(StackEntry.ival (DValue.bool true)), (StackEntry.ival (DValue.int 5)), (StackEntry.ival (DValue.double 4607182418800017408)), (StackEntry.ival (DValue.str [97, 98])), (StackEntry.ival (DValue.intlist [1, 2]))], [0, 0], [(StackEntry.ival (DValue.str [97, 98])), (StackEntry.cls PicklerClass.INTLIST)], (some TorchPickle.OpCode.REDUCE), [demoTensor]⟩ : UState) := by
    have s : readInstruction (⟨[82, 113, 2, 93, 113, 3, 40, 75, 7, 101, 125, 113, 4, 40, 75, 1, 75, 2, 117, 99, 116, 111, 114, 99, 104, 46, 106, 105, 116, 46, 95, 112, 105, 99, 107, 108, 101, 10, 98, 117, 105, 108, 100, 95, 116, 101, 110, 115, 111, 114, 95, 102, 114, 111, 109, 95, 105, 100, 10, 113, 5, 40, 75, 0, 116, 82, 116, 113, 6, 116, 46], [(StackEntry.ival (DValue.bool true)), (StackEntry.ival (DValue.int 5)), (StackEntry.ival (DValue.double 4607182418800017408)), (StackEntry.ival (DValue.str [97, 98])), (StackEntry.cls PicklerClass.INTLIST), (StackEntry.ival (DValue.tuple (DVList.cons (DValue.intlist [1, 2]) DVList.nil)))], [0, 0], [(StackEntry.ival (DValue.str [97, 98])), (StackEntry.cls PicklerClass.INTLIST)], (some TorchPickle.OpCode.TUPLE), [demoTensor]⟩ : UState) = .ok ((⟨[113, 2, 93, 113, 3, 40, 75, 7, 101, 125, 113, 4, 40, 75, 1, 75, 2, 117, 99, 116, 111, 114, 99, 104, 46, 106, 105, 116, 46, 95, 112, 105, 99, 107, 108, 101, 10, 98, 117, 105, 108, 100, 95, 116, 101, 110, 115, 111, 114, 95, 102, 114, 111, 109, 95, 105, 100, 10, 113, 5, 40, 75, 0, 116, 82, 116, 113, 6, 116, 46], [(StackEntry.ival (DValue.bool true)), (StackEntry.ival (DValue.int 5)), (StackEntry.ival (DValue.double 4607182418800017408)), (StackEntry.ival (DValue.str [97, 98])), (StackEntry.ival (DValue.intlist [1, 2]))], [0, 0], [(StackEntry.ival (DValue.str [97, 98])), (StackEntry.cls PicklerClass.INTLIST)], (some TorchPickle.OpCode.TUPLE), [demoTensor]⟩ : UState), OpCode.REDUCE) := rfl
    rw [runLoop_succ]; simp only [runLoopBody]; rw [s]; rfl
  have e17 : runLoop (120 + 1) (⟨[113, 2, 93, 113, 3, 40, 75, 7, 101, 125, 113, 4, 40, 75, 1, 75, 2, 117, 99, 116, 111, 114, 99, 104, 46, 106, 105, 116, 46, 95, 112, 105, 99, 107, 108, 101, 10, 98, 117, 105, 108, 100, 95, 116, 101, 110, 115, 111, 114, 95, 102, 114, 111, 109, 95, 105, 100, 10, 113, 5, 40, 75, 0, 116, 82, 116, 113, 6, 116, 46], [(StackEntry.ival (DValue.bool true)), (StackEntry.ival (DValue.int 5)), (StackEntry.ival (DValue.double 4607182418800017408)), (StackEntry.ival (DValue.str [97, 98])), (StackEntry.ival (DValue.intlist [1, 2]))], [0, 0], [(StackEntry.ival (DValue.str [97, 98])), (StackEntry.cls PicklerClass.INTLIST)], (some TorchPickle.OpCode.REDUCE), [demoTensor]⟩ : UState) = runLoop 120 (⟨[93, 113, 3, 40, 75, 7, 101, 125, 113, 4, 40, 75, 1, 75, 2, 117, 99, 116, 111, 114, 99, 104, 46, 106, 105, 116, 46, 95, 112, 105, 99, 107, 108, 101, 10, 98, 117, 105, 108, 100, 95, 116, 101, 110, 115, 111, 114, 95, 102, 114, 111, 109, 95, 105, 100, 10, 113, 5, 40, 75, 0, 116, 82, 116, 113, 6, 116, 46], [(StackEntry.ival (DValue.bool true)), (StackEntry.ival (DValue.int 5)), (StackEntry.ival (DValue.double 4607182418800017408)), (StackEntry.ival (DValue.str [97, 98])), (StackEntry.ival (DValue.intlist [1, 2]))], [0, 0], [(StackEntry.ival (DValue.str [97, 98])), (StackEntry.cls PicklerClass.INTLIST), (StackEntry.ival (DValue.intlist [1, 2]))], (some TorchPickle.OpCode.BINPUT), [demoTensor]⟩ : UState) := by
    have s : readInstruction (⟨[113, 2, 93, 113, 3, 40, 75, 7, 101, 125, 113, 4, 40, 75, 1, 75, 2, 117, 99, 116, 111, 114, 99, 104, 46, 106, 105, 116, 46, 95, 112, 105, 99, 107, 108, 101, 10, 98, 117, 105, 108, 100, 95, 116, 101, 110, 115, 111, 114, 95, 102, 114, 111, 109, 95, 105, 100, 10, 113, 5, 40, 75, 0, 116, 82, 116, 113, 6, 116, 46], [(StackEntry.ival (DValue.bool true)), (StackEntry.ival (DValue.int 5)), (StackEntry.ival (DValue.double 4607182418800017408)), (StackEntry.ival (DValue.str [97, 98])), (StackEntry.ival (DValue.intlist [1, 2]))], [0, 0], [(StackEntry.ival (DValue.str [97, 98])), (StackEntry.cls PicklerClass.INTLIST)], (some TorchPickle.OpCode.REDUCE), [demoTensor]⟩ : UState) = .ok ((⟨[93, 113, 3, 40, 75, 7, 101, 125, 113, 4, 40, 75, 1, 75, 2, 117, 99, 116, 111, 114, 99, 104, 46, 106, 105, 116, 46, 95, 112, 105, 99, 107, 108, 101, 10, 98, 117, 105, 108, 100, 95, 116, 101, 110, 115, 111, 114, 95, 102, 114, 111, 109, 95, 105, 100, 10, 113, 5, 40, 75, 0, 116, 82, 116, 113, 6, 116, 46], [(StackEntry.ival (DValue.bool true)), (StackEntry.ival (DValue.int 5)), (StackEntry.ival (DValue.double 4607182418800017408)), (StackEntry.ival (DValue.str [97, 98])), (StackEntry.ival (DValue.intlist [1, 2]))], [0, 0], [(StackEntry.ival (DValue.str [97, 98])), (StackEntry.cls PicklerClass.INTLIST), (StackEntry.ival (DValue.intlist [1, 2]))], (some TorchPickle.OpCode.REDUCE), [demoTensor]⟩ : UState), OpCode.BINPUT) := rfl
    rw [runLoop_succ]; simp only [runLoopBody]; rw [s]; rfl
  have e18 : runLoop (119 + 1) (⟨[93, 113, 3, 40, 75, 7, 101, 125, 113, 4, 40, 75, 1, 75, 2, 117, 99, 116, 111, 114, 99, 104, 46, 106, 105, 116, 46, 95, 112, 105, 99, 107, 108, 101, 10, 98, 117, 105, 108, 100, 95, 116, 101, 110, 115, 111, 114, 95, 102, 114, 111, 109, 95, 105, 100, 10, 113, 5, 40, 75, 0, 116, 82, 116, 113, 6, 116, 46], [(StackEntry.ival (DValue.bool true)), (StackEntry.ival (DValue.int 5)), (StackEntry.ival (DValue.double 4607182418800017408)), (StackEntry.ival (DValue.str [97, 98])), (StackEntry.ival (DValue.intlist [1, 2]))], [0, 0], [(StackEntry.ival (DValue.str [97, 98])), (StackEntry.cls PicklerClass.INTLIST), (StackEntry.ival (DValue.intlist [1, 2]))], (some TorchPickle.OpCode.BINPUT), [demoTensor]⟩ : UState) = runLoop 119 (⟨[113, 3, 40, 75, 7, 101, 125, 113, 4, 40, 75, 1, 75, 2, 117, 99, 116, 111, 114, 99, 104, 46, 106, 105, 116, 46, 95, 112, 105, 99, 107, 108, 101, 10, 98, 117, 105, 108, 100, 95, 116, 101, 110, 115, 111, 114, 95, 102, 114, 111, 109, 95, 105, 100, 10, 113, 5, 40, 75, 0, 116, 82, 116, 113, 6, 116, 46], [(StackEntry.ival (DValue.bool true)), (StackEntry.ival (DValue.int 5)), (StackEntry.ival (DValue.double 4607182418800017408)), (StackEntry.ival (DValue.str [97, 98])), (StackEntry.ival (DValue.intlist [1, 2])), (StackEntry.ival (DValue.list DVList.nil))], [0, 0], [(StackEntry.ival (DValue.str [97, 98])), (StackEntry.cls PicklerClass.INTLIST), (StackEntry.ival (DValue.intlist [1, 2]))], (some TorchPickle.OpCode.EMPTY_LIST), [demoTensor]⟩ : UState) := by
    have s : readInstruction (⟨[93, 113, 3, 40, 75, 7, 101, 125, 113, 4, 40, 75, 1, 75, 2, 117, 99, 116, 111, 114, 99, 104, 46, 106, 105, 116, 46, 95, 112, 105, 99, 107, 108, 101, 10, 98, 117, 105, 108, 100, 95, 116, 101, 110, 115, 111, 114, 95, 102, 114, 111, 109, 95, 105, 100, 10, 113, 5, 40, 75, 0, 116, 82, 116, 113, 6, 116, 46], [(StackEntry.ival (DValue.bool true)), (StackEntry.ival (DValue.int 5)), (StackEntry.ival (DValue.double 4607182418800017408)), (StackEntry.ival (DValue.str [97, 98])), (StackEntry.ival (DValue.intlist [1, 2]))], [0, 0], [(StackEntry.ival (DValue.str [97, 98])), (StackEntry.cls PicklerClass.INTLIST), (StackEntry.ival (DValue.intlist [1, 2]))], (some TorchPickle.OpCode.BINPUT), [demoTensor]⟩ : UState) = .ok ((⟨[113, 3, 40, 75, 7, 101, 125, 113, 4, 40, 75, 1, 75, 2, 117, 99, 116, 111, 114, 99, 104, 46, 106, 105, 116, 46, 95, 112, 105, 99, 107, 108, 101, 10, 98, 117, 105, 108, 100, 95, 116, 101, 110, 115, 111, 114, 95, 102, 114, 111, 109, 95, 105, 100, 10, 113, 5, 40, 75, 0, 116, 82, 116, 113, 6, 116, 46], [(StackEntry.ival (DValue.bool true)), (StackEntry.ival (DValue.int 5)), (StackEntry.ival (DValue.double 4607182418800017408)), (StackEntry.ival (DValue.str [97, 98])), (StackEntry.ival (DValue.intlist [1, 2])), (StackEntry.ival (DValue.list DVList.nil))], [0, 0], [(StackEntry.ival (DValue.str [97, 98])), (StackEntry.cls PicklerClass.INTLIST), (StackEntry.ival (DValue.intlist [1, 2]))], (some TorchPickle.OpCode.BINPUT), [demoTensor]⟩ : UState), OpCode.EMPTY_LIST) := rfl
    rw [runLoop_succ]; simp only [runLoopBody]; rw [s]; rfl
  have e19 : runLoop (118 + 1) (⟨[113, 3, 40, 75, 7, 101, 125, 113, 4, 40, 75, 1, 75, 2, 117, 99, 116, 111, 114, 99, 104, 46, 106, 105, 116, 46, 95, 112, 105, 99, 107, 108, 101, 10, 98, 117, 105, 108, 100, 95, 116, 101, 110, 115, 111, 114, 95, 102, 114, 111, 109, 95, 105, 100, 10, 113, 5, 40, 75, 0, 116, 82, 116, 113, 6, 116, 46], [(StackEntry.ival (DValue.bool true)), (StackEntry.ival (DValue.int 5)), (StackEntry.ival (DValue.double 4607182418800017408)), (StackEntry.ival (DValue.str [97, 98])), (StackEntry.ival (DValue.intlist [1, 2])), (StackEntry.ival (DValue.list DVList.nil))], [0, 0], [(StackEntry.ival (DValue.str [97, 98])), (StackEntry.cls PicklerClass.INTLIST), (StackEntry.ival (DValue.intlist [1, 2]))], (some TorchPickle.OpCode.EMPTY_LIST), [demoTensor]⟩ : UState) = runLoop 118 (⟨[40, 75, 7, 101, 125, 113, 4, 40, 75, 1, 75, 2, 117, 99, 116, 111, 114, 99, 104, 46, 106, 105, 116, 46, 95, 112, 105, 99, 107, 108, 101, 10, 98, 117, 105, 108, 100, 95, 116, 101, 110, 115, 111, 114, 95, 102, 114, 111, 109, 95, 105, 100, 10, 113, 5, 40, 75, 0, 116, 82, 116, 113, 6, 116, 46], [(StackEntry.ival (DValue.bool true)), (StackEntry.ival (DValue.int 5)), (StackEntry.ival (DValue.double 4607182418800017408)), (StackEntry.ival (DValue.str [97, 98])), (StackEntry.ival (DValue.intlist [1, 2])), (StackEntry.ival (DValue.list DVList.nil))], [0, 0], [(StackEntry.ival (DValue.str [97, 98])), (StackEntry.cls PicklerClass.INTLIST), (StackEntry.ival (DValue.intlist [1, 2])), (StackEntry.ival (DValue.list DVList.nil))], (some TorchPickle.OpCode.BINPUT), [demoTensor]⟩ : UState) := by
    have s : readInstruction (⟨[113, 3, 40, 75, 7, 101, 125, 113, 4, 40, 75, 1, 75, 2, 117, 99, 116, 111, 114, 99, 104, 46, 106, 105, 116, 46, 95, 112, 105, 99, 107, 108, 101, 10, 98, 117, 105, 108, 100, 95, 116, 101, 110, 115, 111, 114, 95, 102, 114, 111, 109, 95, 105, 100, 10, 113, 5, 40, 75, 0, 116, 82, 116, 113, 6, 116, 46], [(StackEntry.ival (DValue.bool true)), (StackEntry.ival (DValue.int 5)), (StackEntry.ival (DValue.double 4607182418800017408)), (StackEntry.ival (DValue.str [97, 98])), (StackEntry.ival (DValue.intlist [1, 2])), (StackEntry.ival (DValue.list DVList.nil))], [0, 0], [(StackEntry.ival (DValue.str [97, 98])), (StackEntry.cls PicklerClass.INTLIST), (StackEntry.ival (DValue.intlist [1, 2]))], (some TorchPickle.OpCode.EMPTY_LIST), [demoTensor]⟩ : UState) = .ok ((⟨[40, 75, 7, 101, 125, 113, 4, 40, 75, 1, 75, 2, 117, 99, 116, 111, 114, 99, 104, 46, 106, 105, 116, 46, 95, 112, 105, 99, 107, 108, 101, 10, 98, 117, 105, 108, 100, 95, 116, 101, 110, 115, 111, 114, 95, 102, 114, 111, 109, 95, 105, 100, 10, 113, 5, 40, 75, 0, 116, 82, 116, 113, 6, 116, 46], [(StackEntry.ival (DValue.bool true)), (StackEntry.ival (DValue.int 5)), (StackEntry.ival (DValue.double 4607182418800017408)), (StackEntry.ival (DValue.str [97, 98])), (StackEntry.ival (DValue.intlist [1, 2])), (StackEntry.ival (DValue.list DVList.nil))], [0, 0], [(StackEntry.ival (DValue.str [97, 98])), (StackEntry.cls PicklerClass.INTLIST), (StackEntry.ival (DValue.intlist [1, 2])), (StackEntry.ival (DValue.list DVList.nil))], (some TorchPickle.OpCode.EMPTY_LIST), [demoTensor]⟩ : UState), OpCode.BINPUT) := rfl
    rw [runLoop_succ]; simp only [runLoopBody]; rw [s]; rfl
  have e20 : runLoop (117 + 1) (⟨[40, 75, 7, 101, 125, 113, 4, 40, 75, 1, 75, 2, 117, 99, 116, 111, 114, 99, 104, 46, 106, 105, 116, 46, 95, 112, 105, 99, 107, 108, 101, 10, 98, 117, 105, 108, 100, 95, 116, 101, 110, 115, 111, 114, 95, 102, 114, 111, 109, 95, 105, 100, 10, 113, 5, 40, 75, 0, 116, 82, 116, 113, 6, 116, 46], [(StackEntry.ival (DValue.bool true)), (StackEntry.ival (DValue.int 5)), (StackEntry.ival (DValue.double 4607182418800017408)), (StackEntry.ival (DValue.str [97, 98])), (StackEntry.ival (DValue.intlist [1, 2])), (StackEntry.ival (DValue.list DVList.nil))], [0, 0], [(StackEntry.ival (DValue.str [97, 98])), (StackEntry.cls PicklerClass.INTLIST), (StackEntry.ival (DValue.intlist [1, 2])), (StackEntry.ival (DValue.list DVList.nil))], (some TorchPickle.OpCode.BINPUT), [demoTensor]⟩ : UState) = runLoop 117 (⟨[75, 7, 101, 125, 113, 4, 40, 75, 1, 75, 2, 117, 99, 116, 111, 114, 99, 104, 46, 106, 105, 116, 46, 95, 112, 105, 99, 107, 108, 101, 10, 98, 117, 105, 108, 100, 95, 116, 101, 110, 115, 111, 114, 95, 102, 114, 111, 109, 95, 105, 100, 10, 113, 5, 40, 75, 0, 116, 82, 116, 113, 6, 116, 46], [(StackEntry.ival (DValue.bool true)), (StackEntry.ival (DValue.int 5)), (StackEntry.ival (DValue.double 4607182418800017408)), (StackEntry.ival (DValue.str [97, 98])), (StackEntry.ival (DValue.intlist [1, 2])), (StackEntry.ival (DValue.list DVList.nil))], [0, 0, 6], [(StackEntry.ival (DValue.str [97, 98])), (StackEntry.cls PicklerClass.INTLIST), (StackEntry.ival (DValue.intlist [1, 2])), (StackEntry.ival (DValue.list DVList.nil))], (some TorchPickle.OpCode.MARK), [demoTensor]⟩ : UState) := by
    have s : readInstruction (⟨[40, 75, 7, 101, 125, 113, 4, 40, 75, 1, 75, 2, 117, 99, 116, 111, 114, 99, 104, 46, 106, 105, 116, 46, 95, 112, 105, 99, 107, 108, 101, 10, 98, 117, 105, 108, 100, 95, 116, 101, 110, 115, 111, 114, 95, 102, 114, 111, 109, 95, 105, 100, 10, 113, 5, 40, 75, 0, 116, 82, 116, 113, 6, 116, 46], [(StackEntry.ival (DValue.bool true)), (StackEntry.ival (DValue.int 5)), (StackEntry.ival (DValue.double 4607182418800017408)), (StackEntry.ival (DValue.str [97, 98])), (StackEntry.ival (DValue.intlist [1, 2])), (StackEntry.ival (DValue.list DVList.nil))], [0, 0], [(StackEntry.ival (DValue.str [97, 98])), (StackEntry.cls PicklerClass.INTLIST), (StackEntry.ival (DValue.intlist [1, 2])), (StackEntry.ival (DValue.list DVList.nil))], (some TorchPickle.OpCode.BINPUT), [demoTensor]⟩ : UState) = .ok ((⟨[75, 7, 101, 125, 113, 4, 40, 75, 1, 75, 2, 117, 99, 116, 111, 114, 99, 104, 46, 106, 105, 116, 46, 95, 112, 105, 99, 107, 108, 101, 10, 98, 117, 105, 108, 100, 95, 116, 101, 110, 115, 111, 114, 95, 102, 114, 111, 109, 95, 105, 100, 10, 113, 5, 40, 75, 0, 116, 82, 116, 113, 6, 116, 46], [(StackEntry.ival (DValue.bool true)), (StackEntry.ival (DValue.int 5)), (StackEntry.ival (DValue.double 4607182418800017408)), (StackEntry.ival (DValue.str [97, 98])), (StackEntry.ival (DValue.intlist [1, 2])), (StackEntry.ival (DValue.list DVList.nil))], [0, 0, 6], [(StackEntry.ival (DValue.str [97, 98])), (StackEntry.cls PicklerClass.INTLIST), (StackEntry.ival (DValue.intlist [1, 2])), (StackEntry.ival (DValue.list DVList.nil))], (some TorchPickle.OpCode.BINPUT), [demoTensor]⟩ : UState), OpCode.MARK) := rfl
    rw [runLoop_succ]; simp only [runLoopBody]; rw [s]; rfl
  have e21 : runLoop (116 + 1) (⟨[75, 7, 101, 125, 113, 4, 40, 75, 1, 75, 2, 117, 99, 116, 111, 114, 99, 104, 46, 106, 105, 116, 46, 95, 112, 105, 99, 107, 108, 101, 10, 98, 117, 105, 108, 100, 95, 116, 101, 110, 115, 111, 114, 95, 102, 114, 111, 109, 95, 105, 100, 10, 113, 5, 40, 75, 0, 116, 82, 116, 113, 6, 116, 46], [(StackEntry.ival (DValue.bool true)), (StackEntry.ival (DValue.int 5)), (StackEntry.ival (DValue.double 4607182418800017408)), (StackEntry.ival (DValue.str [97, 98])), (StackEntry.ival (DValue.intlist [1, 2])), (StackEntry.ival (DValue.list DVList.nil))], [0, 0, 6], [(StackEntry.ival (DValue.str [97, 98])), (StackEntry.cls PicklerClass.INTLIST), (StackEntry.ival (DValue.intlist [1, 2])), (StackEntry.ival (DValue.list DVList.nil))], (some TorchPickle.OpCode.MARK), [demoTensor]⟩ : UState) = runLoop 116 (⟨[101, 125, 113, 4, 40, 75, 1, 75, 2, 117, 99, 116, 111, 114, 99, 104, 46, 106, 105, 116, 46, 95, 112, 105, 99, 107, 108, 101, 10, 98, 117, 105, 108, 100, 95, 116, 101, 110, 115, 111, 114, 95, 102, 114, 111, 109, 95, 105, 100, 10, 113, 5, 40, 75, 0, 116, 82, 116, 113, 6, 116, 46], [(StackEntry.ival (DValue.bool true)), (StackEntry.ival (DValue.int 5)), (StackEntry.ival (DValue.double 4607182418800017408)), (StackEntry.ival (DValue.str [97, 98])), (StackEntry.ival (DValue.intlist [1, 2])), (StackEntry.ival (DValue.list DVList.nil)), (StackEntry.ival (DValue.int 7))], [0, 0, 6], [(StackEntry.ival (DValue.str [97, 98])), (StackEntry.cls PicklerClass.INTLIST), (StackEntry.ival (DValue.intlist [1, 2])), (StackEntry.ival (DValue.list DVList.nil))], (some TorchPickle.OpCode.BININT1), [demoTensor]⟩ : UState) := by
    have s : readInstruction (⟨[75, 7, 101, 125, 113, 4, 40, 75, 1, 75, 2, 117, 99, 116, 111, 114, 99, 104, 46, 106, 105, 116, 46, 95, 112, 105, 99, 107, 108, 101, 10, 98, 117, 105, 108, 100, 95, 116, 101, 110, 115, 111, 114, 95, 102, 114, 111, 109, 95, 105, 100, 10, 113, 5, 40, 75, 0, 116, 82, 116, 113, 6, 116, 46], [(StackEntry.ival (DValue.bool true)), (StackEntry.ival (DValue.int 5)), (StackEntry.ival (DValue.double 4607182418800017408)), (StackEntry.ival (DValue.str [97, 98])), (StackEntry.ival (DValue.intlist [1, 2])), (StackEntry.ival (DValue.list DVList.nil))], [0, 0, 6], [(StackEntry.ival (DValue.str [97, 98])), (StackEntry.cls PicklerClass.INTLIST), (StackEntry.ival (DValue.intlist [1, 2])), (StackEntry.ival (DValue.list DVList.nil))], (some TorchPickle.OpCode.MARK), [demoTensor]⟩ : UState) = .ok ((⟨[101, 125, 113, 4, 40, 75, 1, 75, 2, 117, 99, 116, 111, 114, 99, 104, 46, 106, 105, 116, 46, 95, 112, 105, 99, 107, 108, 101, 10, 98, 117, 105, 108, 100, 95, 116, 101, 110, 115, 111, 114, 95, 102, 114, 111, 109, 95, 105, 100, 10, 113, 5, 40, 75, 0, 116, 82, 116, 113, 6, 116, 46], [(StackEntry.ival (DValue.bool true)), (StackEntry.ival (DValue.int 5)), (StackEntry.ival (DValue.double 4607182418800017408)), (StackEntry.ival (DValue.str [97, 98])), (StackEntry.ival (DValue.intlist [1, 2])), (StackEntry.ival (DValue.list DVList.nil)), (StackEntry.ival (DValue.int 7))], [0, 0, 6], [(StackEntry.ival (DValue.str [97, 98])), (StackEntry.cls PicklerClass.INTLIST), (StackEntry.ival (DValue.intlist [1, 2])), (StackEntry.ival (DValue.list DVList.nil))], (some TorchPickle.OpCode.MARK), [demoTensor]⟩ : UState), OpCode.BININT1) := rfl
    rw [runLoop_succ]; simp only [runLoopBody]; rw [s]; rfl
  have e22 : runLoop (115 + 1) (⟨[101, 125, 113, 4, 40, 75, 1, 75, 2, 117, 99, 116, 111, 114, 99, 104, 46, 106, 105, 116, 46, 95, 112, 105, 99, 107, 108, 101, 10, 98, 117, 105, 108, 100, 95, 116, 101, 110, 115, 111, 114, 95, 102, 114, 111, 109, 95, 105, 100, 10, 113, 5, 40, 75, 0, 116, 82, 116, 113, 6, 116, 46], [(StackEntry.ival (DValue.bool true)), (StackEntry.ival (DValue.int 5)), (StackEntry.ival (DValue.double 4607182418800017408)), (StackEntry.ival (DValue.str [97, 98])), (StackEntry.ival (DValue.intlist [1, 2])), (StackEntry.ival (DValue.list DVList.nil)), (StackEntry.ival (DValue.int 7))], [0, 0, 6], [(StackEntry.ival (DValue.str [97, 98])), (StackEntry.cls PicklerClass.INTLIST), (StackEntry.ival (DValue.intlist [1, 2])), (StackEntry.ival (DValue.list DVList.nil))], (some TorchPickle.OpCode.BININT1), [demoTensor]⟩ : UState) = runLoop 115 (⟨[125, 113, 4, 40, 75, 1, 75, 2, 117, 99, 116, 111, 114, 99, 104, 46, 106, 105, 116, 46, 95, 112, 105, 99, 107, 108, 101, 10, 98, 117, 105, 108, 100, 95, 116, 101, 110, 115, 111, 114, 95, 102, 114, 111, 109, 95, 105, 100, 10, 113, 5, 40, 75, 0, 116, 82, 116, 113, 6, 116, 46], [(StackEntry.ival (DValue.bool true)), (StackEntry.ival (DValue.int 5)), (StackEntry.ival (DValue.double 4607182418800017408)), (StackEntry.ival (DValue.str [97, 98])), (StackEntry.ival (DValue.intlist [1, 2])), (StackEntry.ival (DValue.list (DVList.cons (DValue.int 7) DVList.nil)))], [0, 0], [(StackEntry.ival (DValue.str [97, 98])), (StackEntry.cls PicklerClass.INTLIST), (StackEntry.ival (DValue.intlist [1, 2])), (StackEntry.ival (DValue.list DVList.nil))], (some TorchPickle.OpCode.APPENDS), [demoTensor]⟩ : UState) := by
    have s : readInstruction (⟨[101, 125, 113, 4, 40, 75, 1, 75, 2, 117, 99, 116, 111, 114, 99, 104, 46, 106, 105, 116, 46, 95, 112, 105, 99, 107, 108, 101, 10, 98, 117, 105, 108, 100, 95, 116, 101, 110, 115, 111, 114, 95, 102, 114, 111, 109, 95, 105, 100, 10, 113, 5, 40, 75, 0, 116, 82, 116, 113, 6, 116, 46], [(StackEntry.ival (DValue.bool true)), (StackEntry.ival (DValue.int 5)), (StackEntry.ival (DValue.double 4607182418800017408)), (StackEntry.ival (DValue.str [97, 98])), (StackEntry.ival (DValue.intlist [1, 2])), (StackEntry.ival (DValue.list DVList.nil)), (StackEntry.ival (DValue.int 7))], [0, 0, 6], [(StackEntry.ival (DValue.str [97, 98])), (StackEntry.cls PicklerClass.INTLIST), (StackEntry.ival (DValue.intlist [1, 2])), (StackEntry.ival (DValue.list DVList.nil))], (some TorchPickle.OpCode.BININT1), [demoTensor]⟩ : UState) = .ok ((⟨[125, 113, 4, 40, 75, 1, 75, 2, 117, 99, 116, 111, 114, 99, 104, 46, 106, 105, 116, 46, 95, 112, 105, 99, 107, 108, 101, 10, 98, 117, 105, 108, 100, 95, 116, 101, 110, 115, 111, 114, 95, 102, 114, 111, 109, 95, 105, 100, 10, 113, 5, 40, 75, 0, 116, 82, 116, 113, 6, 116, 46], [(StackEntry.ival (DValue.bool true)), (StackEntry.ival (DValue.int 5)), (StackEntry.ival (DValue.double 4607182418800017408)), (StackEntry.ival (DValue.str [97, 98])), (StackEntry.ival (DValue.intlist [1, 2])), (StackEntry.ival (DValue.list (DVList.cons (DValue.int 7) DVList.nil)))], [0, 0], [(StackEntry.ival (DValue.str [97, 98])), (StackEntry.cls PicklerClass.INTLIST), (StackEntry.ival (DValue.intlist [1, 2])), (StackEntry.ival (DValue.list DVList.nil))], (some TorchPickle.OpCode.BININT1), [demoTensor]⟩ : UState), OpCode.APPENDS) := rfl
    rw [runLoop_succ]; simp only [runLoopBody]; rw [s]; rfl
  have e23 : runLoop (114 + 1) (⟨[125, 113, 4, 40, 75, 1, 75, 2, 117, 99, 116, 111, 114, 99, 104, 46, 106, 105, 116, 46, 95, 112, 105, 99, 107, 108, 101, 10, 98, 117, 105, 108, 100, 95, 116, 101, 110, 115, 111, 114, 95, 102, 114, 111, 109, 95, 105, 100, 10, 113, 5, 40, 75, 0, 116, 82, 116, 113, 6, 116, 46], [(StackEntry.ival (DValue.bool true)), (StackEntry.ival (DValue.int 5)), (StackEntry.ival (DValue.double 4607182418800017408)), (StackEntry.ival (DValue.str [97, 98])), (StackEntry.ival (DValue.intlist [1, 2])), (StackEntry.ival (DValue.list (DVList.cons (DValue.int 7) DVList.nil)))], [0, 0], [(StackEntry.ival (DValue.str [97, 98])), (StackEntry.cls PicklerClass.INTLIST), (StackEntry.ival (DValue.intlist [1, 2])), (StackEntry.ival (DValue.list DVList.nil))], (some TorchPickle.OpCode.APPENDS), [demoTensor]⟩ : UState) = runLoop 114 (⟨[113, 4, 40, 75, 1, 75, 2, 117, 99, 116, 111, 114, 99, 104, 46, 106, 105, 116, 46, 95, 112, 105, 99, 107, 108, 101, 10, 98, 117, 105, 108, 100, 95, 116, 101, 110, 115, 111, 114, 95, 102, 114, 111, 109, 95, 105, 100, 10, 113, 5, 40, 75, 0, 116, 82, 116, 113, 6, 116, 46], [(StackEntry.ival (DValue.bool true)), (StackEntry.ival (DValue.int 5)), (StackEntry.ival (DValue.double 4607182418800017408)), (StackEntry.ival (DValue.str [97, 98])), (StackEntry.ival (DValue.intlist [1, 2])), (StackEntry.ival (DValue.list (DVList.cons (DValue.int 7) DVList.nil))), (StackEntry.ival (DValue.dict DVPairs.nil))], [0, 0], [(StackEntry.ival (DValue.str [97, 98])), (StackEntry.cls PicklerClass.INTLIST), (StackEntry.ival (DValue.intlist [1, 2])), (StackEntry.ival (DValue.list DVList.nil))], (some TorchPickle.OpCode.EMPTY_DICT), [demoTensor]⟩ : UState) := by
    have s : readInstruction (⟨[125, 113, 4, 40, 75, 1, 75, 2, 117, 99, 116, 111, 114, 99, 104, 46, 106, 105, 116, 46, 95, 112, 105, 99, 107, 108, 101, 10, 98, 117, 105, 108, 100, 95, 116, 101, 110, 115, 111, 114, 95, 102, 114, 111, 109, 95, 105, 100, 10, 113, 5, 40, 75, 0, 116, 82, 116, 113, 6, 116, 46], [(StackEntry.ival (DValue.bool true)), (StackEntry.ival (DValue.int 5)), (StackEntry.ival (DValue.double 4607182418800017408)), (StackEntry.ival (DValue.str [97, 98])), (StackEntry.ival (DValue.intlist [1, 2])), (StackEntry.ival (DValue.list (DVList.cons (DValue.int 7) DVList.nil)))], [0, 0], [(StackEntry.ival (DValue.str [97, 98])), (StackEntry.cls PicklerClass.INTLIST), (StackEntry.ival (DValue.intlist [1, 2])), (StackEntry.ival (DValue.list DVList.nil))], (some TorchPickle.OpCode.APPENDS), [demoTensor]⟩ : UState) = .ok ((⟨[113, 4, 40, 75, 1, 75, 2, 117, 99, 116, 111, 114, 99, 104, 46, 106, 105, 116, 46, 95, 112, 105, 99, 107, 108, 101, 10, 98, 117, 105, 108, 100, 95, 116, 101, 110, 115, 111, 114, 95, 102, 114, 111, 109, 95, 105, 100, 10, 113, 5, 40, 75, 0, 116, 82, 116, 113, 6, 116, 46], [(StackEntry.ival (DValue.bool true)), (StackEntry.ival (DValue.int 5)), (StackEntry.ival (DValue.double 4607182418800017408)), (StackEntry.ival (DValue.str [97, 98])), (StackEntry.ival (DValue.intlist [1, 2])), (StackEntry.ival (DValue.list (DVList.cons (DValue.int 7) DVList.nil))), (StackEntry.ival (DValue.dict DVPairs.nil))], [0, 0], [(StackEntry.ival (DValue.str [97, 98])), (StackEntry.cls PicklerClass.INTLIST), (StackEntry.ival (DValue.intlist [1, 2])), (StackEntry.ival (DValue.list DVList.nil))], (some TorchPickle.OpCode.APPENDS), [demoTensor]⟩ : UState), OpCode.EMPTY_DICT) := rfl
    rw [runLoop_succ]; simp only [runLoopBody]; rw [s]; rfl
  have e24 : runLoop (113 + 1) (⟨[113, 4, 40, 75, 1, 75, 2, 117, 99, 116, 111, 114, 99, 104, 46, 106, 105, 116, 46, 95, 112, 105, 99, 107, 108, 101, 10, 98, 117, 105, 108, 100, 95, 116, 101, 110, 115, 111, 114, 95, 102, 114, 111, 109, 95, 105, 100, 10, 113, 5, 40, 75, 0, 116, 82, 116, 113, 6, 116, 46], [(StackEntry.ival (DValue.bool true)), (StackEntry.ival (DValue.int 5)), (StackEntry.ival (DValue.double 4607182418800017408)), (StackEntry.ival (DValue.str [97, 98])), (StackEntry.ival (DValue.intlist [1, 2])), (StackEntry.ival (DValue.list (DVList.cons (DValue.int 7) DVList.nil))), (StackEntry.ival (DValue.dict DVPairs.nil))], [0, 0], [(StackEntry.ival (DValue.str [97, 98])), (StackEntry.cls PicklerClass.INTLIST), (StackEntry.ival (DValue.intlist [1, 2])), (StackEntry.ival (DValue.list DVList.nil))], (some TorchPickle.OpCode.EMPTY_DICT), [demoTensor]⟩ : UState) = runLoop 113 (⟨[40, 75, 1, 75, 2, 117, 99, 116, 111, 114, 99, 104, 46, 106, 105, 116, 46, 95, 112, 105, 99, 107, 108, 101, 10, 98, 117, 105, 108, 100, 95, 116, 101, 110, 115, 111, 114, 95, 102, 114, 111, 109, 95, 105, 100, 10, 113, 5, 40, 75, 0, 116, 82, 116, 113, 6, 116, 46], [(StackEntry.ival (DValue.bool true)), (StackEntry.ival (DValue.int 5)), (StackEntry.ival (DValue.double 4607182418800017408)), (StackEntry.ival (DValue.str [97, 98])), (StackEntry.ival (DValue.intlist [1, 2])), (StackEntry.ival (DValue.list (DVList.cons (DValue.int 7) DVList.nil))), (StackEntry.ival (DValue.dict DVPairs.nil))], [0, 0], [(StackEntry.ival (DValue.str [97, 98])), (StackEntry.cls PicklerClass.INTLIST), (StackEntry.ival (DValue.intlist [1, 2])), (StackEntry.ival (DValue.list DVList.nil)), (StackEntry.ival (DValue.dict DVPairs.nil))], (some TorchPickle.OpCode.BINPUT), [demoTensor]⟩ : UState) := by
    have s : readInstruction (⟨[113, 4, 40, 75, 1, 75, 2, 117, 99, 116, 111, 114, 99, 104, 46, 106, 105, 116, 46, 95, 112, 105, 99, 107, 108, 101, 10, 98, 117, 105, 108, 100, 95, 116, 101, 110, 115, 111, 114, 95, 102, 114, 111, 109, 95, 105, 100, 10, 113, 5, 40, 75, 0, 116, 82, 116, 113, 6, 116, 46], [(StackEntry.ival (DValue.bool true)), (StackEntry.ival (DValue.int 5)), (StackEntry.ival (DValue.double 4607182418800017408)), (StackEntry.ival (DValue.str [97, 98])), (StackEntry.ival (DValue.intlist [1, 2])), (StackEntry.ival (DValue.list (DVList.cons (DValue.int 7) DVList.nil))), (StackEntry.ival (DValue.dict DVPairs.nil))], [0, 0], [(StackEntry.ival (DValue.str [97, 98])), (StackEntry.cls PicklerClass.INTLIST), (StackEntry.ival (DValue.intlist [1, 2])), (StackEntry.ival (DValue.list DVList.nil))], (some TorchPickle.OpCode.EMPTY_DICT), [demoTensor]⟩ : UState) = .ok ((⟨[40, 75, 1, 75, 2, 117, 99, 116, 111, 114, 99, 104, 46, 106, 105, 116, 46, 95, 112, 105, 99, 107, 108, 101, 10, 98, 117, 105, 108, 100, 95, 116, 101, 110, 115, 111, 114, 95, 102, 114, 111, 109, 95, 105, 100, 10, 113, 5, 40, 75, 0, 116, 82, 116, 113, 6, 116, 46], [(StackEntry.ival (DValue.bool true)), (StackEntry.ival (DValue.int 5)), (StackEntry.ival (DValue.double 4607182418800017408)), (StackEntry.ival (DValue.str [97, 98])), (StackEntry.ival (DValue.intlist [1, 2])), (StackEntry.ival (DValue.list (DVList.cons (DValue.int 7) DVList.nil))), (StackEntry.ival (DValue.dict DVPairs.nil))], [0, 0], [(StackEntry.ival (DValue.str [97, 98])), (StackEntry.cls PicklerClass.INTLIST), (StackEntry.ival (DValue.intlist [1, 2])), (StackEntry.ival (DValue.list DVList.nil)), (StackEntry.ival (DValue.dict DVPairs.nil))], (some TorchPickle.OpCode.EMPTY_DICT), [demoTensor]⟩ : UState), OpCode.BINPUT) := rfl
    rw [runLoop_succ]; simp only [runLoopBody]; rw [s]; rfl
  have e25 : runLoop (112 + 1) (⟨[40, 75, 1, 75, 2, 117, 99, 116, 111, 114, 99, 104, 46, 106, 105, 116, 46, 95, 112, 105, 99, 107, 108, 101, 10, 98, 117, 105, 108, 100, 95, 116, 101, 110, 115, 111, 114, 95, 102, 114, 111, 109, 95, 105, 100, 10, 113, 5, 40, 75, 0, 116, 82, 116, 113, 6, 116, 46], [(StackEntry.ival (DValue.bool true)), (StackEntry.ival (DValue.int 5)), (StackEntry.ival (DValue.double 4607182418800017408)), (StackEntry.ival (DValue.str [97, 98])), (StackEntry.ival (DValue.intlist [1, 2])), (StackEntry.ival (DValue.list (DVList.cons (DValue.int 7) DVList.nil))), (StackEntry.ival (DValue.dict DVPairs.nil))], [0, 0], [(StackEntry.ival (DValue.str [97, 98])), (StackEntry.cls PicklerClass.INTLIST), (StackEntry.ival (DValue.intlist [1, 2])), (StackEntry.ival (DValue.list DVList.nil)), (StackEntry.ival (DValue.dict DVPairs.nil))], (some TorchPickle.OpCode.BINPUT), [demoTensor]⟩ : UState) = runLoop 112 (⟨[75, 1, 75, 2, 117, 99, 116, 111, 114, 99, 104, 46, 106, 105, 116, 46, 95, 112, 105, 99, 107, 108, 101, 10, 98, 117, 105, 108, 100, 95, 116, 101, 110, 115, 111, 114, 95, 102, 114, 111, 109, 95, 105, 100, 10, 113, 5, 40, 75, 0, 116, 82, 116, 113, 6, 116, 46], [(StackEntry.ival (DValue.bool true)), (StackEntry.ival (DValue.int 5)), (StackEntry.ival (DValue.double 4607182418800017408)), (StackEntry.ival (DValue.str [97, 98])), (StackEntry.ival (DValue.intlist [1, 2])), (StackEntry.ival (DValue.list (DVList.cons (DValue.int 7) DVList.nil))), (StackEntry.ival (DValue.dict DVPairs.nil))], [0, 0, 7], [(StackEntry.ival (DValue.str [97, 98])), (StackEntry.cls PicklerClass.INTLIST), (StackEntry.ival (DValue.intlist [1, 2])), (StackEntry.ival (DValue.list DVList.nil)), (StackEntry.ival (DValue.dict DVPairs.nil))], (some TorchPickle.OpCode.MARK), [demoTensor]⟩ : UState) := by
    have s : readInstruction (⟨[40, 75, 1, 75, 2, 117, 99, 116, 111, 114, 99, 104, 46, 106, 105, 116, 46, 95, 112, 105, 99, 107, 108, 101, 10, 98, 117, 105, 108, 100, 95, 116, 101, 110, 115, 111, 114, 95, 102, 114, 111, 109, 95, 105, 100, 10, 113, 5, 40, 75, 0, 116, 82, 116, 113, 6, 116, 46], [(StackEntry.ival (DValue.bool true)), (StackEntry.ival (DValue.int 5)), (StackEntry.ival (DValue.double 4607182418800017408)), (StackEntry.ival (DValue.str [97, 98])), (StackEntry.ival (DValue.intlist [1, 2])), (StackEntry.ival (DValue.list (DVList.cons (DValue.int 7) DVList.nil))), (StackEntry.ival (DValue.dict DVPairs.nil))], [0, 0], [(StackEntry.ival (DValue.str [97, 98])), (StackEntry.cls PicklerClass.INTLIST), (StackEntry.ival (DValue.intlist [1, 2])), (StackEntry.ival (DValue.list DVList.nil)), (StackEntry.ival (DValue.dict DVPairs.nil))], (some TorchPickle.OpCode.BINPUT), [demoTensor]⟩ : UState) = .ok ((⟨[75, 1, 75, 2, 117, 99, 116, 111, 114, 99, 104, 46, 106, 105, 116, 46, 95, 112, 105, 99, 107, 108, 101, 10, 98, 117, 105, 108, 100, 95, 116, 101, 110, 115, 111, 114, 95, 102, 114, 111, 109, 95, 105, 100, 10, 113, 5, 40, 75, 0, 116, 82, 116, 113, 6, 116, 46], [(StackEntry.ival (DValue.bool true)), (StackEntry.ival (DValue.int 5)), (StackEntry.ival (DValue.double 4607182418800017408)), (StackEntry.ival (DValue.str [97, 98])), (StackEntry.ival (DValue.intlist [1, 2])), (StackEntry.ival (DValue.list (DVList.cons (DValue.int 7) DVList.nil))), (StackEntry.ival (DValue.dict DVPairs.nil))], [0, 0, 7], [(StackEntry.ival (DValue.str [97, 98])), (StackEntry.cls PicklerClass.INTLIST), (StackEntry.ival (DValue.intlist [1, 2])), (StackEntry.ival (DValue.list DVList.nil)), (StackEntry.ival (DValue.dict DVPairs.nil))], (some TorchPickle.OpCode.BINPUT), [demoTensor]⟩ : UState), OpCode.MARK) := rfl
    rw [runLoop_succ]; simp only [runLoopBody]; rw [s]; rfl
  have e26 : runLoop (111 + 1) (⟨[75, 1, 75, 2, 117, 99, 116, 111, 114, 99, 104, 46, 106, 105, 116, 46, 95, 112, 105, 99, 107, 108, 101, 10, 98, 117, 105, 108, 100, 95, 116, 101, 110, 115, 111, 114, 95, 102, 114, 111, 109, 95, 105, 100, 10, 113, 5, 40, 75, 0, 116, 82, 116, 113, 6, 116, 46], [(StackEntry.ival (DValue.bool true)), (StackEntry.ival (DValue.int 5)), (StackEntry.ival (DValue.double 4607182418800017408)), (StackEntry.ival (DValue.str [97, 98])), (StackEntry.ival (DValue.intlist [1, 2])), (StackEntry.ival (DValue.list (DVList.cons (DValue.int 7) DVList.nil))), (StackEntry.ival (DValue.dict DVPairs.nil))], [0, 0, 7], [(StackEntry.ival (DValue.str [97, 98])), (StackEntry.cls PicklerClass.INTLIST), (StackEntry.ival (DValue.intlist [1, 2])), (StackEntry.ival (DValue.list DVList.nil)), (StackEntry.ival (DValue.dict DVPairs.nil))], (some TorchPickle.OpCode.MARK), [demoTensor]⟩ : UState) = runLoop 111 (⟨[75, 2, 117, 99, 116, 111, 114, 99, 104, 46, 106, 105, 116, 46, 95, 112, 105, 99, 107, 108, 101, 10, 98, 117, 105, 108, 100, 95, 116, 101, 110, 115, 111, 114, 95, 102, 114, 111, 109, 95, 105, 100, 10, 113, 5, 40, 75, 0, 116, 82, 116, 113, 6, 116, 46], [(StackEntry.ival (DValue.bool true)), (StackEntry.ival (DValue.int 5)), (StackEntry.ival (DValue.double 4607182418800017408)), (StackEntry.ival (DValue.str [97, 98])), (StackEntry.ival (DValue.intlist [1, 2])), (StackEntry.ival (DValue.list (DVList.cons (DValue.int 7) DVList.nil))), (StackEntry.ival (DValue.dict DVPairs.nil)), (StackEntry.ival (DValue.int 1))], [0, 0, 7], [(StackEntry.ival (DValue.str [97, 98])), (StackEntry.cls PicklerClass.INTLIST), (StackEntry.ival (DValue.intlist [1, 2])), (StackEntry.ival (DValue.list DVList.nil)), (StackEntry.ival (DValue.dict DVPairs.nil))], (some TorchPickle.OpCode.BININT1), [demoTensor]⟩ : UState) := by
    have s : readInstruction (⟨[75, 1, 75, 2, 117, 99, 116, 111, 114, 99, 104, 46, 106, 105, 116, 46, 95, 112, 105, 99, 107, 108, 101, 10, 98, 117, 105, 108, 100, 95, 116, 101, 110, 115, 111, 114, 95, 102, 114, 111, 109, 95, 105, 100, 10, 113, 5, 40, 75, 0, 116, 82, 116, 113, 6, 116, 46], [(StackEntry.ival (DValue.bool true)), (StackEntry.ival (DValue.int 5)), (StackEntry.ival (DValue.double 4607182418800017408)), (StackEntry.ival (DValue.str [97, 98])), (StackEntry.ival (DValue.intlist [1, 2])), (StackEntry.ival (DValue.list (DVList.cons (DValue.int 7) DVList.nil))), (StackEntry.ival (DValue.dict DVPairs.nil))], [0, 0, 7], [(StackEntry.ival (DValue.str [97, 98])), (StackEntry.cls PicklerClass.INTLIST), (StackEntry.ival (DValue.intlist [1, 2])), (StackEntry.ival (DValue.list DVList.nil)), (StackEntry.ival (DValue.dict DVPairs.nil))], (some TorchPickle.OpCode.MARK), [demoTensor]⟩ : UState) = .ok ((⟨[75, 2, 117, 99, 116, 111, 114, 99, 104, 46, 106, 105, 116, 46, 95, 112, 105, 99, 107, 108, 101, 10, 98, 117, 105, 108, 100, 95, 116, 101, 110, 115, 111, 114, 95, 102, 114, 111, 109, 95, 105, 100, 10, 113, 5, 40, 75, 0, 116, 82, 116, 113, 6, 116, 46], [(StackEntry.ival (DValue.bool true)), (StackEntry.ival (DValue.int 5)), (StackEntry.ival (DValue.double 4607182418800017408)), (StackEntry.ival (DValue.str [97, 98])), (StackEntry.ival (DValue.intlist [1, 2])), (StackEntry.ival (DValue.list (DVList.cons (DValue.int 7) DVList.nil))), (StackEntry.ival (DValue.dict DVPairs.nil)), (StackEntry.ival (DValue.int 1))], [0, 0, 7], [(StackEntry.ival (DValue.str [97, 98])), (StackEntry.cls PicklerClass.INTLIST), (StackEntry.ival (DValue.intlist [1, 2])), (StackEntry.ival (DValue.list DVList.nil)), (StackEntry.ival (DValue.dict DVPairs.nil))], (some TorchPickle.OpCode.MARK), [demoTensor]⟩ : UState), OpCode.BININT1) := rfl
    rw [runLoop_succ]; simp only [runLoopBody]; rw [s]; rfl
  have e27 : runLoop (110 + 1) (⟨[75, 2, 117, 99, 116, 111, 114, 99, 104, 46, 106, 105, 116, 46, 95, 112, 105, 99, 107, 108, 101, 10, 98, 117, 105, 108, 100, 95, 116, 101, 110, 115, 111, 114, 95, 102, 114, 111, 109, 95, 105, 100, 10, 113, 5, 40, 75, 0, 116, 82, 116, 113, 6, 116, 46], [(StackEntry.ival (DValue.bool true)), (StackEntry.ival (DValue.int 5)), (StackEntry.ival (DValue.double 4607182418800017408)), (StackEntry.ival (DValue.str [97, 98])), (StackEntry.ival (DValue.intlist [1, 2])), (StackEntry.ival (DValue.list (DVList.cons (DValue.int 7) DVList.nil))), (StackEntry.ival (DValue.dict DVPairs.nil)), (StackEntry.ival (DValue.int 1))], [0, 0, 7], [(StackEntry.ival (DValue.str [97, 98])), (StackEntry.cls PicklerClass.INTLIST), (StackEntry.ival (DValue.intlist [1, 2])), (StackEntry.ival (DValue.list DVList.nil)), (StackEntry.ival (DValue.dict DVPairs.nil))], (some TorchPickle.OpCode.BININT1), [demoTensor]⟩ : UState) = runLoop 110 (⟨[117, 99, 116, 111, 114, 99, 104, 46, 106, 105, 116, 46, 95, 112, 105, 99, 107, 108, 101, 10, 98, 117, 105, 108, 100, 95, 116, 101, 110, 115, 111, 114, 95, 102, 114, 111, 109, 95, 105, 100, 10, 113, 5, 40, 75, 0, 116, 82, 116, 113, 6, 116, 46], [(StackEntry.ival (DValue.bool true)), (StackEntry.ival (DValue.int 5)), (StackEntry.ival (DValue.double 4607182418800017408)), (StackEntry.ival (DValue.str [97, 98])), (StackEntry.ival (DValue.intlist [1, 2])), (StackEntry.ival (DValue.list (DVList.cons (DValue.int 7) DVList.nil))), (StackEntry.ival (DValue.dict DVPairs.nil)), (StackEntry.ival (DValue.int 1)), (StackEntry.ival (DValue.int 2))], [0, 0, 7], [(StackEntry.ival (DValue.str [97, 98])), (StackEntry.cls PicklerClass.INTLIST), (StackEntry.ival (DValue.intlist [1, 2])), (StackEntry.ival (DValue.list DVList.nil)), (StackEntry.ival (DValue.dict DVPairs.nil))], (some TorchPickle.OpCode.BININT1), [demoTensor]⟩ : UState) := by
    have s : readInstruction (⟨[75, 2, 117, 99, 116, 111, 114, 99, 104, 46, 106, 105, 116, 46, 95, 112, 105, 99, 107, 108, 101, 10, 98, 117, 105, 108, 100, 95, 116, 101, 110, 115, 111, 114, 95, 102, 114, 111, 109, 95, 105, 100, 10, 113, 5, 40, 75, 0, 116, 82, 116, 113, 6, 116, 46], [(StackEntry.ival (DValue.bool true)), (StackEntry.ival (DValue.int 5)), (StackEntry.ival (DValue.double 4607182418800017408)), (StackEntry.ival (DValue.str [97, 98])), (StackEntry.ival (DValue.intlist [1, 2])), (StackEntry.ival (DValue.list (DVList.cons (DValue.int 7) DVList.nil))), (StackEntry.ival (DValue.dict DVPairs.nil)), (StackEntry.ival (DValue.int 1))], [0, 0, 7], [(StackEntry.ival (DValue.str [97, 98])), (StackEntry.cls PicklerClass.INTLIST), (StackEntry.ival (DValue.intlist [1, 2])), (StackEntry.ival (DValue.list DVList.nil)), (StackEntry.ival (DValue.dict DVPairs.nil))], (some TorchPickle.OpCode.BININT1), [demoTensor]⟩ : UState) = .ok ((⟨[117, 99, 116, 111, 114, 99, 104, 46, 106, 105, 116, 46, 95, 112, 105, 99, 107, 108, 101, 10, 98, 117, 105, 108, 100, 95, 116, 101, 110, 115, 111, 114, 95, 102, 114, 111, 109, 95, 105, 100, 10, 113, 5, 40, 75, 0, 116, 82, 116, 113, 6, 116, 46], [(StackEntry.ival (DValue.bool true)), (StackEntry.ival (DValue.int 5)), (StackEntry.ival (DValue.double 4607182418800017408)), (StackEntry.ival (DValue.str [97, 98])), (StackEntry.ival (DValue.intlist [1, 2])), (StackEntry.ival (DValue.list (DVList.cons (DValue.int 7) DVList.nil))), (StackEntry.ival (DValue.dict DVPairs.nil)), (StackEntry.ival (DValue.int 1)), (StackEntry.ival (DValue.int 2))], [0, 0, 7], [(StackEntry.ival (DValue.str [97, 98])), (StackEntry.cls PicklerClass.INTLIST), (StackEntry.ival (DValue.intlist [1, 2])), (StackEntry.ival (DValue.list DVList.nil)), (StackEntry.ival (DValue.dict DVPairs.nil))], (some TorchPickle.OpCode.BININT1), [demoTensor]⟩ : UState), OpCode.BININT1) := rfl
    rw [runLoop_succ]; simp only [runLoopBody]; rw [s]; rfl
  have e28 : runLoop (109 + 1) (⟨[117, 99, 116, 111, 114, 99, 104, 46, 106, 105, 116, 46, 95, 112, 105, 99, 107, 108, 101, 10, 98, 117, 105, 108, 100, 95, 116, 101, 110, 115, 111, 114, 95, 102, 114, 111, 109, 95, 105, 100, 10, 113, 5, 40, 75, 0, 116, 82, 116, 113, 6, 116, 46], [(StackEntry.ival (DValue.bool true)), (StackEntry.ival (DValue.int 5)), (StackEntry.ival (DValue.double 4607182418800017408)), (StackEntry.ival (DValue.str [97, 98])), (StackEntry.ival (DValue.intlist [1, 2])), (StackEntry.ival (DValue.list (DVList.cons (DValue.int 7) DVList.nil))), (StackEntry.ival (DValue.dict DVPairs.nil)), (StackEntry.ival (DValue.int 1)), (StackEntry.ival (DValue.int 2))], [0, 0, 7], [(StackEntry.ival (DValue.str [97, 98])), (StackEntry.cls PicklerClass.INTLIST), (StackEntry.ival (DValue.intlist [1, 2])), (StackEntry.ival (DValue.list DVList.nil)), (StackEntry.ival (DValue.dict DVPairs.nil))], (some TorchPickle.OpCode.BININT1), [demoTensor]⟩ : UState) = runLoop 109 (⟨[99, 116, 111, 114, 99, 104, 46, 106, 105, 116, 46, 95, 112, 105, 99, 107, 108, 101, 10, 98, 117, 105, 108, 100, 95, 116, 101, 110, 115, 111, 114, 95, 102, 114, 111, 109, 95, 105, 100, 10, 113, 5, 40, 75, 0, 116, 82, 116, 113, 6, 116, 46], [(StackEntry.ival (DValue.bool true)), (StackEntry.ival (DValue.int 5)), (StackEntry.ival (DValue.double 4607182418800017408)), (StackEntry.ival (DValue.str [97, 98])), (StackEntry.ival (DValue.intlist [1, 2])), (StackEntry.ival (DValue.list (DVList.cons (DValue.int 7) DVList.nil))), (StackEntry.ival (DValue.dict (DVPairs.cons (DValue.int 1) (DValue.int 2) DVPairs.nil)))], [0, 0], [(StackEntry.ival (DValue.str [97, 98])), (StackEntry.cls PicklerClass.INTLIST), (StackEntry.ival (DValue.intlist [1, 2])), (StackEntry.ival (DValue.list DVList.nil)), (StackEntry.ival (DValue.dict DVPairs.nil))], (some TorchPickle.OpCode.SETITEMS), [demoTensor]⟩ : UState) := by
    have s : readInstruction (⟨[117, 99, 116, 111, 114, 99, 104, 46, 106, 105, 116, 46, 95, 112, 105, 99, 107, 108, 101, 10, 98, 117, 105, 108, 100, 95, 116, 101, 110, 115, 111, 114, 95, 102, 114, 111, 109, 95, 105, 100, 10, 113, 5, 40, 75, 0, 116, 82, 116, 113, 6, 116, 46], [(StackEntry.ival (DValue.bool true)), (StackEntry.ival (DValue.int 5)), (StackEntry.ival (DValue.double 4607182418800017408)), (StackEntry.ival (DValue.str [97, 98])), (StackEntry.ival (DValue.intlist [1, 2])), (StackEntry.ival (DValue.list (DVList.cons (DValue.int 7) DVList.nil))), (StackEntry.ival (DValue.dict DVPairs.nil)), (StackEntry.ival (DValue.int 1)), (StackEntry.ival (DValue.int 2))], [0, 0, 7], [(StackEntry.ival (DValue.str [97, 98])), (StackEntry.cls PicklerClass.INTLIST), (StackEntry.ival (DValue.intlist [1, 2])), (StackEntry.ival (DValue.list DVList.nil)), (StackEntry.ival (DValue.dict DVPairs.nil))], (some TorchPickle.OpCode.BININT1), [demoTensor]⟩ : UState) = .ok ((⟨[99, 116, 111, 114, 99, 104, 46, 106, 105, 116, 46, 95, 112, 105, 99, 107, 108, 101, 10, 98, 117, 105, 108, 100, 95, 116, 101, 110, 115, 111, 114, 95, 102, 114, 111, 109, 95, 105, 100, 10, 113, 5, 40, 75, 0, 116, 82, 116, 113, 6, 116, 46], [(StackEntry.ival (DValue.bool true)), (StackEntry.ival (DValue.int 5)), (StackEntry.ival (DValue.double 4607182418800017408)), (StackEntry.ival (DValue.str [97, 98])), (StackEntry.ival (DValue.intlist [1, 2])), (StackEntry.ival (DValue.list (DVList.cons (DValue.int 7) DVList.nil))), (StackEntry.ival (DValue.dict (DVPairs.cons (DValue.int 1) (DValue.int 2) DVPairs.nil)))], [0, 0], [(StackEntry.ival (DValue.str [97, 98])), (StackEntry.cls PicklerClass.INTLIST), (StackEntry.ival (DValue.intlist [1, 2])), (StackEntry.ival (DValue.list DVList.nil)), (StackEntry.ival (DValue.dict DVPairs.nil))], (some TorchPickle.OpCode.BININT1), [demoTensor]⟩ : UState), OpCode.SETITEMS) := rfl
    rw [runLoop_succ]; simp only [runLoopBody]; rw [s]; rfl
  have e29 : runLoop (108 + 1) (⟨[99, 116, 111, 114, 99, 104, 46, 106, 105, 116, 46, 95, 112, 105, 99, 107, 108, 101, 10, 98, 117, 105, 108, 100, 95, 116, 101, 110, 115, 111, 114, 95, 102, 114, 111, 109, 95, 105, 100, 10, 113, 5, 40, 75, 0, 116, 82, 116, 113, 6, 116, 46], [(StackEntry.ival (DValue.bool true)), (StackEntry.ival (DValue.int 5)), (StackEntry.ival (DValue.double 4607182418800017408)), (StackEntry.ival (DValue.str [97, 98])), (StackEntry.ival (DValue.intlist [1, 2])), (StackEntry.ival (DValue.list (DVList.cons (DValue.int 7) DVList.nil))), (StackEntry.ival (DValue.dict (DVPairs.cons (DValue.int 1) (DValue.int 2) DVPairs.nil)))], [0, 0], [(StackEntry.ival (DValue.str [97, 98])), (StackEntry.cls PicklerClass.INTLIST), (StackEntry.ival (DValue.intlist [1, 2])), (StackEntry.ival (DValue.list DVList.nil)), (StackEntry.ival (DValue.dict DVPairs.nil))], (some TorchPickle.OpCode.SETITEMS), [demoTensor]⟩ : UState) = runLoop 108 (⟨[113, 5, 40, 75, 0, 116, 82, 116, 113, 6, 116, 46], [(StackEntry.ival (DValue.bool true)), (StackEntry.ival (DValue.int 5)), (StackEntry.ival (DValue.double 4607182418800017408)), (StackEntry.ival (DValue.str [97, 98])), (StackEntry.ival (DValue.intlist [1, 2])), (StackEntry.ival (DValue.list (DVList.cons (DValue.int 7) DVList.nil))), (StackEntry.ival (DValue.dict (DVPairs.cons (DValue.int 1) (DValue.int 2) DVPairs.nil))), (StackEntry.cls PicklerClass.TENSOR)], [0, 0], [(StackEntry.ival (DValue.str [97, 98])), (StackEntry.cls PicklerClass.INTLIST), (StackEntry.ival (DValue.intlist [1, 2])), (StackEntry.ival (DValue.list DVList.nil)), (StackEntry.ival (DValue.dict DVPairs.nil))], (some TorchPickle.OpCode.GLOBAL), [demoTensor]⟩ : UState) := by
    have s : readInstruction (⟨[99, 116, 111, 114, 99, 104, 46, 106, 105, 116, 46, 95, 112, 105, 99, 107, 108, 101, 10, 98, 117, 105, 108, 100, 95, 116, 101, 110, 115, 111, 114, 95, 102, 114, 111, 109, 95, 105, 100, 10, 113, 5, 40, 75, 0, 116, 82, 116, 113, 6, 116, 46], [(StackEntry.ival (DValue.bool true)), (StackEntry.ival (DValue.int 5)), (StackEntry.ival (DValue.double 4607182418800017408)), (StackEntry.ival (DValue.str [97, 98])), (StackEntry.ival (DValue.intlist [1, 2])), (StackEntry.ival (DValue.list (DVList.cons (DValue.int 7) DVList.nil))), (StackEntry.ival (DValue.dict (DVPairs.cons (DValue.int 1) (DValue.int 2) DVPairs.nil)))], [0, 0], [(StackEntry.ival (DValue.str [97, 98])), (StackEntry.cls PicklerClass.INTLIST), (StackEntry.ival (DValue.intlist [1, 2])), (StackEntry.ival (DValue.list DVList.nil)), (StackEntry.ival (DValue.dict DVPairs.nil))], (some TorchPickle.OpCode.SETITEMS), [demoTensor]⟩ : UState) = .ok ((⟨[113, 5, 40, 75, 0, 116, 82, 116, 113, 6, 116, 46], [(StackEntry.ival (DValue.bool true)), (StackEntry.ival (DValue.int 5)), (StackEntry.ival (DValue.double 4607182418800017408)), (StackEntry.ival (DValue.str [97, 98])), (StackEntry.ival (DValue.intlist [1, 2])), (StackEntry.ival (DValue.list (DVList.cons (DValue.int 7) DVList.nil))), (StackEntry.ival (DValue.dict (DVPairs.cons (DValue.int 1) (DValue.int 2) DVPairs.nil))), (StackEntry.cls PicklerClass.TENSOR)], [0, 0], [(StackEntry.ival (DValue.str [97, 98])), (StackEntry.cls PicklerClass.INTLIST), (StackEntry.ival (DValue.intlist [1, 2])), (StackEntry.ival (DValue.list DVList.nil)), (StackEntry.ival (DValue.dict DVPairs.nil))], (some TorchPickle.OpCode.SETITEMS), [demoTensor]⟩ : UState), OpCode.GLOBAL) := rfl
    rw [runLoop_succ]; simp only [runLoopBody]; rw [s]; rfl
  have e30 : runLoop (107 + 1) (⟨[113, 5, 40, 75, 0, 116, 82, 116, 113, 6, 116, 46], [(StackEntry.ival (DValue.bool true)), (StackEntry.ival (DValue.int 5)), (StackEntry.ival (DValue.double 4607182418800017408)), (StackEntry.ival (DValue.str [97, 98])), (StackEntry.ival (DValue.intlist [1, 2])), (StackEntry.ival (DValue.list (DVList.cons (DValue.int 7) DVList.nil))), (StackEntry.ival (DValue.dict (DVPairs.cons (DValue.int 1) (DValue.int 2) DVPairs.nil))), (StackEntry.cls PicklerClass.TENSOR)], [0, 0], [(StackEntry.ival (DValue.str [97, 98])), (StackEntry.cls PicklerClass.INTLIST), (StackEntry.ival (DValue.intlist [1, 2])), (StackEntry.ival (DValue.list DVList.nil)), (StackEntry.ival (DValue.dict DVPairs.nil))], (some TorchPickle.OpCode.GLOBAL), [demoTensor]⟩ : UState) = runLoop 107 (⟨[40, 75, 0, 116, 82, 116, 113, 6, 116, 46], [(StackEntry.ival (DValue.bool true)), (StackEntry.ival (DValue.int 5)), (StackEntry.ival (DValue.double 4607182418800017408)), (StackEntry.ival (DValue.str [97, 98])), (StackEntry.ival (DValue.intlist [1, 2])), (StackEntry.ival (DValue.list (DVList.cons (DValue.int 7) DVList.nil))), (StackEntry.ival (DValue.dict (DVPairs.cons (DValue.int 1) (DValue.int 2) DVPairs.nil))), (StackEntry.cls PicklerClass.TENSOR)], [0, 0], [(StackEntry.ival (DValue.str [97, 98])), (StackEntry.cls PicklerClass.INTLIST), (StackEntry.ival (DValue.intlist [1, 2])), (StackEntry.ival (DValue.list DVList.nil)), (StackEntry.ival (DValue.dict DVPairs.nil)), (StackEntry.cls PicklerClass.TENSOR)], (some TorchPickle.OpCode.BINPUT), [demoTensor]⟩ : UState) := by
    have s : readInstruction (⟨[113, 5, 40, 75, 0, 116, 82, 116, 113, 6, 116, 46], [(StackEntry.ival (DValue.bool true)), (StackEntry.ival (DValue.int 5)), (StackEntry.ival (DValue.double 4607182418800017408)), (StackEntry.ival (DValue.str [97, 98])), (StackEntry.ival (DValue.intlist [1, 2])), (StackEntry.ival (DValue.list (DVList.cons (DValue.int 7) DVList.nil))), (StackEntry.ival (DValue.dict (DVPairs.cons (DValue.int 1) (DValue.int 2) DVPairs.nil))), (StackEntry.cls PicklerClass.TENSOR)], [0, 0], [(StackEntry.ival (DValue.str [97, 98])), (StackEntry.cls PicklerClass.INTLIST), (StackEntry.ival (DValue.intlist [1, 2])), (StackEntry.ival (DValue.list DVList.nil)), (StackEntry.ival (DValue.dict DVPairs.nil))], (some TorchPickle.OpCode.GLOBAL), [demoTensor]⟩ : UState) = .ok ((⟨[40, 75, 0, 116, 82, 116, 113, 6, 116, 46], [(StackEntry.ival (DValue.bool true)), (StackEntry.ival (DValue.int 5)), (StackEntry.ival (DValue.double 4607182418800017408)), (StackEntry.ival (DValue.str [97, 98])), (StackEntry.ival (DValue.intlist [1, 2])), (StackEntry.ival (DValue.list (DVList.cons (DValue.int 7) DVList.nil))), (StackEntry.ival (DValue.dict (DVPairs.cons (DValue.int 1) (DValue.int 2) DVPairs.nil))), (StackEntry.cls PicklerClass.TENSOR)], [0, 0], [(StackEntry.ival (DValue.str [97, 98])), (StackEntry.cls PicklerClass.INTLIST), (StackEntry.ival (DValue.intlist [1, 2])), (StackEntry.ival (DValue.list DVList.nil)), (StackEntry.ival (DValue.dict DVPairs.nil)), (StackEntry.cls PicklerClass.TENSOR)], (some TorchPickle.OpCode.GLOBAL), [demoTensor]⟩ : UState), OpCode.BINPUT) := rfl
    rw [runLoop_succ]; simp only [runLoopBody]; rw [s]; rfl
  have e31 : runLoop (106 + 1) (⟨[40, 75, 0, 116, 82, 116, 113, 6, 116, 46], [(StackEntry.ival (DValue.bool true)), (StackEntry.ival (DValue.int 5)), (StackEntry.ival (DValue.double 4607182418800017408)), (StackEntry.ival (DValue.str [97, 98])), (StackEntry.ival (DValue.intlist [1, 2])), (StackEntry.ival (DValue.list (DVList.cons (DValue.int 7) DVList.nil))), (StackEntry.ival (DValue.dict (DVPairs.cons (DValue.int 1) (DValue.int 2) DVPairs.nil))), (StackEntry.cls PicklerClass.TENSOR)], [0, 0], [(StackEntry.ival (DValue.str [97, 98])), (StackEntry.cls PicklerClass.INTLIST), (StackEntry.ival (DValue.intlist [1, 2])), (StackEntry.ival (DValue.list DVList.nil)), (StackEntry.ival (DValue.dict DVPairs.nil)), (StackEntry.cls PicklerClass.TENSOR)], (some TorchPickle.OpCode.BINPUT), [demoTensor]⟩ : UState) = runLoop 106 (⟨[75, 0, 116, 82, 116, 113, 6, 116, 46], [(StackEntry.ival (DValue.bool true)), (StackEntry.ival (DValue.int 5)), (StackEntry.ival (DValue.double 4607182418800017408)), (StackEntry.ival (DValue.str [97, 98])), (StackEntry.ival (DValue.intlist [1, 2])), (StackEntry.ival (DValue.list (DVList.cons (DValue.int 7) DVList.nil))), (StackEntry.ival (DValue.dict (DVPairs.cons (DValue.int 1) (DValue.int 2) DVPairs.nil))), (StackEntry.cls PicklerClass.TENSOR)], [0, 0, 8], [(StackEntry.ival (DValue.str [97, 98])), (StackEntry.cls PicklerClass.INTLIST), (StackEntry.ival (DValue.intlist [1, 2])), (StackEntry.ival (DValue.list DVList.nil)), (StackEntry.ival (DValue.dict DVPairs.nil)), (StackEntry.cls PicklerClass.TENSOR)], (some TorchPickle.OpCode.MARK), [demoTensor]⟩ : UState) := by
    have s : readInstruction (⟨[40, 75, 0, 116, 82, 116, 113, 6, 116, 46], [(StackEntry.ival (DValue.bool true)), (StackEntry.ival (DValue.int 5)), (StackEntry.ival (DValue.double 4607182418800017408)), (StackEntry.ival (DValue.str [97, 98])), (StackEntry.ival (DValue.intlist [1, 2])), (StackEntry.ival (DValue.list (DVList.cons (DValue.int 7) DVList.nil))), (StackEntry.ival (DValue.dict (DVPairs.cons (DValue.int 1) (DValue.int 2) DVPairs.nil))), (StackEntry.cls PicklerClass.TENSOR)], [0, 0], [(StackEntry.ival (DValue.str [97, 98])), (StackEntry.cls PicklerClass.INTLIST), (StackEntry.ival (DValue.intlist [1, 2])), (StackEntry.ival (DValue.list DVList.nil)), (StackEntry.ival (DValue.dict DVPairs.nil)), (StackEntry.cls PicklerClass.TENSOR)], (some TorchPickle.OpCode.BINPUT), [demoTensor]⟩ : UState) = .ok ((⟨[75, 0, 116, 82, 116, 113, 6, 116, 46], [(StackEntry.ival (DValue.bool true)), (StackEntry.ival (DValue.int 5)), (StackEntry.ival (DValue.double 4607182418800017408)), (StackEntry.ival (DValue.str [97, 98])), (StackEntry.ival (DValue.intlist [1, 2])), (StackEntry.ival (DValue.list (DVList.cons (DValue.int 7) DVList.nil))), (StackEntry.ival (DValue.dict (DVPairs.cons (DValue.int 1) (DValue.int 2) DVPairs.nil))), (StackEntry.cls PicklerClass.TENSOR)], [0, 0, 8], [(StackEntry.ival (DValue.str [97, 98])), (StackEntry.cls PicklerClass.INTLIST), (StackEntry.ival (DValue.intlist [1, 2])), (StackEntry.ival (DValue.list DVList.nil)), (StackEntry.ival (DValue.dict DVPairs.nil)), (StackEntry.cls PicklerClass.TENSOR)], (some TorchPickle.OpCode.BINPUT), [demoTensor]⟩ : UState), OpCode.MARK) := rfl
    rw [runLoop_succ]; simp only [runLoopBody]; rw [s]; rfl
  have e32 : runLoop (105 + 1) (⟨[75, 0, 116, 82, 116, 113, 6, 116, 46], [(StackEntry.ival (DValue.bool true)), (StackEntry.ival (DValue.int 5)), (StackEntry.ival (DValue.double 4607182418800017408)), (StackEntry.ival (DValue.str [97, 98])), (StackEntry.ival (DValue.intlist [1, 2])), (StackEntry.ival (DValue.list (DVList.cons (DValue.int 7) DVList.nil))), (StackEntry.ival (DValue.dict (DVPairs.cons (DValue.int 1) (DValue.int 2) DVPairs.nil))), (StackEntry.cls PicklerClass.TENSOR)], [0, 0, 8], [(StackEntry.ival (DValue.str [97, 98])), (StackEntry.cls PicklerClass.INTLIST), (StackEntry.ival (DValue.intlist [1, 2])), (StackEntry.ival (DValue.list DVList.nil)), (StackEntry.ival (DValue.dict DVPairs.nil)), (StackEntry.cls PicklerClass.TENSOR)], (some TorchPickle.OpCode.MARK), [demoTensor]⟩ : UState) = runLoop 105 (⟨[116, 82, 116, 113, 6, 116, 46], [(StackEntry.ival (DValue.bool true)), (StackEntry.ival (DValue.int 5)), (StackEntry.ival (DValue.double 4607182418800017408)), (StackEntry.ival (DValue.str [97, 98])), (StackEntry.ival (DValue.intlist [1, 2])), (StackEntry.ival (DValue.list (DVList.cons (DValue.int 7) DVList.nil))), (StackEntry.ival (DValue.dict (DVPairs.cons (DValue.int 1) (DValue.int 2) DVPairs.nil))), (StackEntry.cls PicklerClass.TENSOR), (StackEntry.ival (DValue.int 0))], [0, 0, 8], [(StackEntry.ival (DValue.str [97, 98])), (StackEntry.cls PicklerClass.INTLIST), (StackEntry.ival (DValue.intlist [1, 2])), (StackEntry.ival (DValue.list DVList.nil)), (StackEntry.ival (DValue.dict DVPairs.nil)), (StackEntry.cls PicklerClass.TENSOR)], (some TorchPickle.OpCode.BININT1), [demoTensor]⟩ : UState) := by
    have s : readInstruction (⟨[75, 0, 116, 82, 116, 113, 6, 116, 46], [(StackEntry.ival (DValue.bool true)), (StackEntry.ival (DValue.int 5)), (StackEntry.ival (DValue.double 4607182418800017408)), (StackEntry.ival (DValue.str [97, 98])), (StackEntry.ival (DValue.intlist [1, 2])), (StackEntry.ival (DValue.list (DVList.cons (DValue.int 7) DVList.nil))), (StackEntry.ival (DValue.dict (DVPairs.cons (DValue.int 1) (DValue.int 2) DVPairs.nil))), (StackEntry.cls PicklerClass.TENSOR)], [0, 0, 8], [(StackEntry.ival (DValue.str [97, 98])), (StackEntry.cls PicklerClass.INTLIST), (StackEntry.ival (DValue.intlist [1, 2])), (StackEntry.ival (DValue.list DVList.nil)), (StackEntry.ival (DValue.dict DVPairs.nil)), (StackEntry.cls PicklerClass.TENSOR)], (some TorchPickle.OpCode.MARK), [demoTensor]⟩ : UState) = .ok ((⟨[116, 82, 116, 113, 6, 116, 46], [(StackEntry.ival (DValue.bool true)), (StackEntry.ival (DValue.int 5)), (StackEntry.ival (DValue.double 4607182418800017408)), (StackEntry.ival (DValue.str [97, 98])), (StackEntry.ival (DValue.intlist [1, 2])), (StackEntry.ival (DValue.list (DVList.cons (DValue.int 7) DVList.nil))), (StackEntry.ival (DValue.dict (DVPairs.cons (DValue.int 1) (DValue.int 2) DVPairs.nil))), (StackEntry.cls PicklerClass.TENSOR), (StackEntry.ival (DValue.int 0))], [0, 0, 8], [(StackEntry.ival (DValue.str [97, 98])), (StackEntry.cls PicklerClass.INTLIST), (StackEntry.ival (DValue.intlist [1, 2])), (StackEntry.ival (DValue.list DVList.nil)), (StackEntry.ival (DValue.dict DVPairs.nil)), (StackEntry.cls PicklerClass.TENSOR)], (some TorchPickle.OpCode.MARK), [demoTensor]⟩ : UState), OpCode.BININT1) := rfl
    rw [runLoop_succ]; simp only [runLoopBody]; rw [s]; rfl
  have e33 : runLoop (104 + 1) (⟨[116, 82, 116, 113, 6, 116, 46], [(StackEntry.ival (DValue.bool true)), (StackEntry.ival (DValue.int 5)), (StackEntry.ival (DValue.double 4607182418800017408)), (StackEntry.ival (DValue.str [97, 98])), (StackEntry.ival (DValue.intlist [1, 2])), (StackEntry.ival (DValue.list (DVList.cons (DValue.int 7) DVList.nil))), (StackEntry.ival (DValue.dict (DVPairs.cons (DValue.int 1) (DValue.int 2) DVPairs.nil))), (StackEntry.cls PicklerClass.TENSOR), (StackEntry.ival (DValue.int 0))], [0, 0, 8], [(StackEntry.ival (DValue.str [97, 98])), (StackEntry.cls PicklerClass.INTLIST), (StackEntry.ival (DValue.intlist [1, 2])), (StackEntry.ival (DValue.list DVList.nil)), (StackEntry.ival (DValue.dict DVPairs.nil)), (StackEntry.cls PicklerClass.TENSOR)], (some TorchPickle.OpCode.BININT1), [demoTensor]⟩ : UState) = runLoop 104 (⟨[82, 116, 113, 6, 116, 46], [(StackEntry.ival (DValue.bool true)), (StackEntry.ival (DValue.int 5)), (StackEntry.ival (DValue.double 4607182418800017408)), (StackEntry.ival (DValue.str [97, 98])), (StackEntry.ival (DValue.intlist [1, 2])), (StackEntry.ival (DValue.list (DVList.cons (DValue.int 7) DVList.nil))), (StackEntry.ival (DValue.dict (DVPairs.cons (DValue.int 1) (DValue.int 2) DVPairs.nil))), (StackEntry.cls PicklerClass.TENSOR), (StackEntry.ival (DValue.tuple (DVList.cons (DValue.int 0) DVList.nil)))], [0, 0], [(StackEntry.ival (DValue.str [97, 98])), (StackEntry.cls PicklerClass.INTLIST), (StackEntry.ival (DValue.intlist [1, 2])), (StackEntry.ival (DValue.list DVList.nil)), (StackEntry.ival (DValue.dict DVPairs.nil)), (StackEntry.cls PicklerClass.TENSOR)], (some TorchPickle.OpCode.TUPLE), [demoTensor]⟩ : UState) := by
    have s : readInstruction (⟨[116, 82, 116, 113, 6, 116, 46], [(StackEntry.ival (DValue.bool true)), (StackEntry.ival (DValue.int 5)), (StackEntry.ival (DValue.double 4607182418800017408)), (StackEntry.ival (DValue.str [97, 98])), (StackEntry.ival (DValue.intlist [1, 2])), (StackEntry.ival (DValue.list (DVList.cons (DValue.int 7) DVList.nil))), (StackEntry.ival (DValue.dict (DVPairs.cons (DValue.int 1) (DValue.int 2) DVPairs.nil))), (StackEntry.cls PicklerClass.TENSOR), (StackEntry.ival (DValue.int 0))], [0, 0, 8], [(StackEntry.ival (DValue.str [97, 98])), (StackEntry.cls PicklerClass.INTLIST), (StackEntry.ival (DValue.intlist [1, 2])), (StackEntry.ival (DValue.list DVList.nil)), (StackEntry.ival (DValue.dict DVPairs.nil)), (StackEntry.cls PicklerClass.TENSOR)], (some TorchPickle.OpCode.BININT1), [demoTensor]⟩ : UState) = .ok ((⟨[82, 116, 113, 6, 116, 46], [(StackEntry.ival (DValue.bool true)), (StackEntry.ival (DValue.int 5)), (StackEntry.ival (DValue.double 4607182418800017408)), (StackEntry.ival (DValue.str [97, 98])), (StackEntry.ival (DValue.intlist [1, 2])), (StackEntry.ival (DValue.list (DVList.cons (DValue.int 7) DVList.nil))), (StackEntry.ival (DValue.dict (DVPairs.cons (DValue.int 1) (DValue.int 2) DVPairs.nil))), (StackEntry.cls PicklerClass.TENSOR), (StackEntry.ival (DValue.tuple (DVList.cons (DValue.int 0) DVList.nil)))], [0, 0], [(StackEntry.ival (DValue.str [97, 98])), (StackEntry.cls PicklerClass.INTLIST), (StackEntry.ival (DValue.intlist [1, 2])), (StackEntry.ival (DValue.list DVList.nil)), (StackEntry.ival (DValue.dict DVPairs.nil)), (StackEntry.cls PicklerClass.TENSOR)], (some TorchPickle.OpCode.BININT1), [demoTensor]⟩ : UState), OpCode.TUPLE) := rfl
    rw [runLoop_succ]; simp only [runLoopBody]; rw [s]; rfl
  have e34 : runLoop (103 + 1) (⟨[82, 116, 113, 6, 116, 46], [(StackEntry.ival (DValue.bool true)), (StackEntry.ival (DValue.int 5)), (StackEntry.ival (DValue.double 4607182418800017408)), (StackEntry.ival (DValue.str [97, 98])), (StackEntry.ival (DValue.intlist [1, 2])), (StackEntry.ival (DValue.list (DVList.cons (DValue.int 7) DVList.nil))), (StackEntry.ival (DValue.dict (DVPairs.cons (DValue.int 1) (DValue.int 2) DVPairs.nil))), (StackEntry.cls PicklerClass.TENSOR), (StackEntry.ival (DValue.tuple (DVList.cons (DValue.int 0) DVList.nil)))], [0, 0], [(StackEntry.ival (DValue.str [97, 98])), (StackEntry.cls PicklerClass.INTLIST), (StackEntry.ival (DValue.intlist [1, 2])), (StackEntry.ival (DValue.list DVList.nil)), (StackEntry.ival (DValue.dict DVPairs.nil)), (StackEntry.cls PicklerClass.TENSOR)], (some TorchPickle.OpCode.TUPLE), [demoTensor]⟩ : UState) = runLoop 103 (⟨[116, 113, 6, 116, 46], [(StackEntry.ival (DValue.bool true)), (StackEntry.ival (DValue.int 5)), (StackEntry.ival (DValue.double 4607182418800017408)), (StackEntry.ival (DValue.str [97, 98])), (StackEntry.ival (DValue.intlist [1, 2])), (StackEntry.ival (DValue.list (DVList.cons (DValue.int 7) DVList.nil))), (StackEntry.ival (DValue.dict (DVPairs.cons (DValue.int 1) (DValue.int 2) DVPairs.nil))), (StackEntry.ival (DValue.tensor demoTensor))], [0, 0], [(StackEntry.ival (DValue.str [97, 98])), (StackEntry.cls PicklerClass.INTLIST), (StackEntry.ival (DValue.intlist [1, 2])), (StackEntry.ival (DValue.list DVList.nil)), (StackEntry.ival (DValue.dict DVPairs.nil)), (StackEntry.cls PicklerClass.TENSOR)], (some TorchPickle.OpCode.REDUCE), [demoTensor]⟩ : UState) := by
    have s : readInstruction (⟨[82, 116, 113, 6, 116, 46], [(StackEntry.ival (DValue.bool true)), (StackEntry.ival (DValue.int 5)), (StackEntry.ival (DValue.double 4607182418800017408)), (StackEntry.ival (DValue.str [97, 98])), (StackEntry.ival (DValue.intlist [1, 2])), (StackEntry.ival (DValue.list (DVList.cons (DValue.int 7) DVList.nil))), (StackEntry.ival (DValue.dict (DVPairs.cons (DValue.int 1) (DValue.int 2) DVPairs.nil))), (StackEntry.cls PicklerClass.TENSOR), (StackEntry.ival (DValue.tuple (DVList.cons (DValue.int 0) DVList.nil)))], [0, 0], [(StackEntry.ival (DValue.str [97, 98])), (StackEntry.cls PicklerClass.INTLIST), (StackEntry.ival (DValue.intlist [1, 2])), (StackEntry.ival (DValue.list DVList.nil)), (StackEntry.ival (DValue.dict DVPairs.nil)), (StackEntry.cls PicklerClass.TENSOR)], (some TorchPickle.OpCode.TUPLE), [demoTensor]⟩ : UState) = .ok ((⟨[116, 113, 6, 116, 46], [(StackEntry.ival (DValue.bool true)), (StackEntry.ival (DValue.int 5)), (StackEntry.ival (DValue.double 4607182418800017408)), (StackEntry.ival (DValue.str [97, 98])), (StackEntry.ival (DValue.intlist [1, 2])), (StackEntry.ival (DValue.list (DVList.cons (DValue.int 7) DVList.nil))), (StackEntry.ival (DValue.dict (DVPairs.cons (DValue.int 1) (DValue.int 2) DVPairs.nil))), (StackEntry.ival (DValue.tensor demoTensor))], [0, 0], [(StackEntry.ival (DValue.str [97, 98])), (StackEntry.cls PicklerClass.INTLIST), (StackEntry.ival (DValue.intlist [1, 2])), (StackEntry.ival (DValue.list DVList.nil)), (StackEntry.ival (DValue.dict DVPairs.nil)), (StackEntry.cls PicklerClass.TENSOR)], (some TorchPickle.OpCode.TUPLE), [demoTensor]⟩ : UState), OpCode.REDUCE) := rfl
    rw [runLoop_succ]; simp only [runLoopBody]; rw [s]; rfl
  have e35 : runLoop (102 + 1) (⟨[116, 113, 6, 116, 46], [(StackEntry.ival (DValue.bool true)), (StackEntry.ival (DValue.int 5)), (StackEntry.ival (DValue.double 4607182418800017408)), (StackEntry.ival (DValue.str [97, 98])), (StackEntry.ival (DValue.intlist [1, 2])), (StackEntry.ival (DValue.list (DVList.cons (DValue.int 7) DVList.nil))), (StackEntry.ival (DValue.dict (DVPairs.cons (DValue.int 1) (DValue.int 2) DVPairs.nil))), (StackEntry.ival (DValue.tensor demoTensor))], [0, 0], [(StackEntry.ival (DValue.str [97, 98])), (StackEntry.cls PicklerClass.INTLIST), (StackEntry.ival (DValue.intlist [1, 2])), (StackEntry.ival (DValue.list DVList.nil)), (StackEntry.ival (DValue.dict DVPairs.nil)), (StackEntry.cls PicklerClass.TENSOR)], (some TorchPickle.OpCode.REDUCE), [demoTensor]⟩ : UState) = runLoop 102 (⟨[113, 6, 116, 46], [(StackEntry.ival (DValue.tuple (DVList.cons (DValue.bool true) (DVList.cons (DValue.int 5) (DVList.cons (DValue.double 4607182418800017408) (DVList.cons (DValue.str [97, 98]) (DVList.cons (DValue.intlist [1, 2]) (DVList.cons (DValue.list (DVList.cons (DValue.int 7) DVList.nil)) (DVList.cons (DValue.dict (DVPairs.cons (DValue.int 1) (DValue.int 2) DVPairs.nil)) (DVList.cons (DValue.tensor demoTensor) DVList.nil))))))))))], [0], [(StackEntry.ival (DValue.str [97, 98])), (StackEntry.cls PicklerClass.INTLIST), (StackEntry.ival (DValue.intlist [1, 2])), (StackEntry.ival (DValue.list DVList.nil)), (StackEntry.ival (DValue.dict DVPairs.nil)), (StackEntry.cls PicklerClass.TENSOR)], (some TorchPickle.OpCode.TUPLE), [demoTensor]⟩ : UState) := by
    have s : readInstruction (⟨[116, 113, 6, 116, 46], [(StackEntry.ival (DValue.bool true)), (StackEntry.ival (DValue.int 5)), (StackEntry.ival (DValue.double 4607182418800017408)), (StackEntry.ival (DValue.str [97, 98])), (StackEntry.ival (DValue.intlist [1, 2])), (StackEntry.ival (DValue.list (DVList.cons (DValue.int 7) DVList.nil))), (StackEntry.ival (DValue.dict (DVPairs.cons (DValue.int 1) (DValue.int 2) DVPairs.nil))), (StackEntry.ival (DValue.tensor demoTensor))], [0, 0], [(StackEntry.ival (DValue.str [97, 98])), (StackEntry.cls PicklerClass.INTLIST), (StackEntry.ival (DValue.intlist [1, 2])), (StackEntry.ival (DValue.list DVList.nil)), (StackEntry.ival (DValue.dict DVPairs.nil)), (StackEntry.cls PicklerClass.TENSOR)], (some TorchPickle.OpCode.REDUCE), [demoTensor]⟩ : UState) = .ok ((⟨[113, 6, 116, 46], [(StackEntry.ival (DValue.tuple (DVList.cons (DValue.bool true) (DVList.cons (DValue.int 5) (DVList.cons (DValue.double 4607182418800017408) (DVList.cons (DValue.str [97, 98]) (DVList.cons (DValue.intlist [1, 2]) (DVList.cons (DValue.list (DVList.cons (DValue.int 7) DVList.nil)) (DVList.cons (DValue.dict (DVPairs.cons (DValue.int 1) (DValue.int 2) DVPairs.nil)) (DVList.cons (DValue.tensor demoTensor) DVList.nil))))))))))], [0], [(StackEntry.ival (DValue.str [97, 98])), (StackEntry.cls PicklerClass.INTLIST), (StackEntry.ival (DValue.intlist [1, 2])), (StackEntry.ival (DValue.list DVList.nil)), (StackEntry.ival (DValue.dict DVPairs.nil)), (StackEntry.cls PicklerClass.TENSOR)], (some TorchPickle.OpCode.REDUCE), [demoTensor]⟩ : UState), OpCode.TUPLE) := rfl
    rw [runLoop_succ]; simp only [runLoopBody]; rw [s]; rfl
  have e36 : runLoop (101 + 1) (⟨[113, 6, 116, 46], [(StackEntry.ival (DValue.tuple (DVList.cons (DValue.bool true) (DVList.cons (DValue.int 5) (DVList.cons (DValue.double 4607182418800017408) (DVList.cons (DValue.str [97, 98]) (DVList.cons (DValue.intlist [1, 2]) (DVList.cons (DValue.list (DVList.cons (DValue.int 7) DVList.nil)) (DVList.cons (DValue.dict (DVPairs.cons (DValue.int 1) (DValue.int 2) DVPairs.nil)) (DVList.cons (DValue.tensor demoTensor) DVList.nil))))))))))], [0], [(StackEntry.ival (DValue.str [97, 98])), (StackEntry.cls PicklerClass.INTLIST), (StackEntry.ival (DValue.intlist [1, 2])), (StackEntry.ival (DValue.list DVList.nil)), (StackEntry.ival (DValue.dict DVPairs.nil)), (StackEntry.cls PicklerClass.TENSOR)], (some TorchPickle.OpCode.TUPLE), [demoTensor]⟩ : UState) = runLoop 101 (⟨[116, 46], [(StackEntry.ival (DValue.tuple (DVList.cons (DValue.bool true) (DVList.cons (DValue.int 5) (DVList.cons (DValue.double 4607182418800017408) (DVList.cons (DValue.str [97, 98]) (DVList.cons (DValue.intlist [1, 2]) (DVList.cons (DValue.list (DVList.cons (DValue.int 7) DVList.nil)) (DVList.cons (DValue.dict (DVPairs.cons (DValue.int 1) (DValue.int 2) DVPairs.nil)) (DVList.cons (DValue.tensor demoTensor) DVList.nil))))))))))], [0], [(StackEntry.ival (DValue.str [97, 98])), (StackEntry.cls PicklerClass.INTLIST), (StackEntry.ival (DValue.intlist [1, 2])), (StackEntry.ival (DValue.list DVList.nil)), (StackEntry.ival (DValue.dict DVPairs.nil)), (StackEntry.cls PicklerClass.TENSOR), (StackEntry.ival (DValue.tuple (DVList.cons (DValue.bool true) (DVList.cons (DValue.int 5) (DVList.cons (DValue.double 4607182418800017408) (DVList.cons (DValue.str [97, 98]) (DVList.cons (DValue.intlist [1, 2]) (DVList.cons (DValue.list (DVList.cons (DValue.int 7) DVList.nil)) (DVList.cons (DValue.dict (DVPairs.cons (DValue.int 1) (DValue.int 2) DVPairs.nil)) (DVList.cons (DValue.tensor demoTensor) DVList.nil))))))))))], (some TorchPickle.OpCode.BINPUT), [demoTensor]⟩ : UState) := by
    have s : readInstruction (⟨[113, 6, 116, 46], [(StackEntry.ival (DValue.tuple (DVList.cons (DValue.bool true) (DVList.cons (DValue.int 5) (DVList.cons (DValue.double 4607182418800017408) (DVList.cons (DValue.str [97, 98]) (DVList.cons (DValue.intlist [1, 2]) (DVList.cons (DValue.list (DVList.cons (DValue.int 7) DVList.nil)) (DVList.cons (DValue.dict (DVPairs.cons (DValue.int 1) (DValue.int 2) DVPairs.nil)) (DVList.cons (DValue.tensor demoTensor) DVList.nil))))))))))], [0], [(StackEntry.ival (DValue.str [97, 98])), (StackEntry.cls PicklerClass.INTLIST), (StackEntry.ival (DValue.intlist [1, 2])), (StackEntry.ival (DValue.list DVList.nil)), (StackEntry.ival (DValue.dict DVPairs.nil)), (StackEntry.cls PicklerClass.TENSOR)], (some TorchPickle.OpCode.TUPLE), [demoTensor]⟩ : UState) = .ok ((⟨[116, 46], [(StackEntry.ival (DValue.tuple (DVList.cons (DValue.bool true) (DVList.cons (DValue.int 5) (DVList.cons (DValue.double 4607182418800017408) (DVList.cons (DValue.str [97, 98]) (DVList.cons (DValue.intlist [1, 2]) (DVList.cons (DValue.list (DVList.cons (DValue.int 7) DVList.nil)) (DVList.cons (DValue.dict (DVPairs.cons (DValue.int 1) (DValue.int 2) DVPairs.nil)) (DVList.cons (DValue.tensor demoTensor) DVList.nil))))))))))], [0], [(StackEntry.ival (DValue.str [97, 98])), (StackEntry.cls PicklerClass.INTLIST), (StackEntry.ival (DValue.intlist [1, 2])), (StackEntry.ival (DValue.list DVList.nil)), (StackEntry.ival (DValue.dict DVPairs.nil)), (StackEntry.cls PicklerClass.TENSOR), (StackEntry.ival (DValue.tuple (DVList.cons (DValue.bool true) (DVList.cons (DValue.int 5) (DVList.cons (DValue.double 4607182418800017408) (DVList.cons (DValue.str [97, 98]) (DVList.cons (DValue.intlist [1, 2]) (DVList.cons (DValue.list (DVList.cons (DValue.int 7) DVList.nil)) (DVList.cons (DValue.dict (DVPairs.cons (DValue.int 1) (DValue.int 2) DVPairs.nil)) (DVList.cons (DValue.tensor demoTensor) DVList.nil))))))))))], (some TorchPickle.OpCode.TUPLE), [demoTensor]⟩ : UState), OpCode.BINPUT) := rfl
    rw [runLoop_succ]; simp only [runLoopBody]; rw [s]; rfl
  have e37 : runLoop (100 + 1) (⟨[116, 46], [(StackEntry.ival (DValue.tuple (DVList.cons (DValue.bool true) (DVList.cons (DValue.int 5) (DVList.cons (DValue.double 4607182418800017408) (DVList.cons (DValue.str [97, 98]) (DVList.cons (DValue.intlist [1, 2]) (DVList.cons (DValue.list (DVList.cons (DValue.int 7) DVList.nil)) (DVList.cons (DValue.dict (DVPairs.cons (DValue.int 1) (DValue.int 2) DVPairs.nil)) (DVList.cons (DValue.tensor demoTensor) DVList.nil))))))))))], [0], [(StackEntry.ival (DValue.str [97, 98])), (StackEntry.cls PicklerClass.INTLIST), (StackEntry.ival (DValue.intlist [1, 2])), (StackEntry.ival (DValue.list DVList.nil)), (StackEntry.ival (DValue.dict DVPairs.nil)), (StackEntry.cls PicklerClass.TENSOR), (StackEntry.ival (DValue.tuple (DVList.cons (DValue.bool true) (DVList.cons (DValue.int 5) (DVList.cons (DValue.double 4607182418800017408) (DVList.cons (DValue.str [97, 98]) (DVList.cons (DValue.intlist [1, 2]) (DVList.cons (DValue.list (DVList.cons (DValue.int 7) DVList.nil)) (DVList.cons (DValue.dict (DVPairs.cons (DValue.int 1) (DValue.int 2) DVPairs.nil)) (DVList.cons (DValue.tensor demoTensor) DVList.nil))))))))))], (some TorchPickle.OpCode.BINPUT), [demoTensor]⟩ : UState) = runLoop 100 (⟨[46], [(StackEntry.ival (DValue.tuple (DVList.cons (DValue.tuple (DVList.cons (DValue.bool true) (DVList.cons (DValue.int 5) (DVList.cons (DValue.double 4607182418800017408) (DVList.cons (DValue.str [97, 98]) (DVList.cons (DValue.intlist [1, 2]) (DVList.cons (DValue.list (DVList.cons (DValue.int 7) DVList.nil)) (DVList.cons (DValue.dict (DVPairs.cons (DValue.int 1) (DValue.int 2) DVPairs.nil)) (DVList.cons (DValue.tensor demoTensor) DVList.nil))))))))) DVList.nil)))], [], [(StackEntry.ival (DValue.str [97, 98])), (StackEntry.cls PicklerClass.INTLIST), (StackEntry.ival (DValue.intlist [1, 2])), (StackEntry.ival (DValue.list DVList.nil)), (StackEntry.ival (DValue.dict DVPairs.nil)), (StackEntry.cls PicklerClass.TENSOR), (StackEntry.ival (DValue.tuple (DVList.cons (DValue.bool true) (DVList.cons (DValue.int 5) (DVList.cons (DValue.double 4607182418800017408) (DVList.cons (DValue.str [97, 98]) (DVList.cons (DValue.intlist [1, 2]) (DVList.cons (DValue.list (DVList.cons (DValue.int 7) DVList.nil)) (DVList.cons (DValue.dict (DVPairs.cons (DValue.int 1) (DValue.int 2) DVPairs.nil)) (DVList.cons (DValue.tensor demoTensor) DVList.nil))))))))))], (some TorchPickle.OpCode.TUPLE), [demoTensor]⟩ : UState) := by
    have s : readInstruction (⟨[116, 46], [(StackEntry.ival (DValue.tuple (DVList.cons (DValue.bool true) (DVList.cons (DValue.int 5) (DVList.cons (DValue.double 4607182418800017408) (DVList.cons (DValue.str [97, 98]) (DVList.cons (DValue.intlist [1, 2]) (DVList.cons (DValue.list (DVList.cons (DValue.int 7) DVList.nil)) (DVList.cons (DValue.dict (DVPairs.cons (DValue.int 1) (DValue.int 2) DVPairs.nil)) (DVList.cons (DValue.tensor demoTensor) DVList.nil))))))))))], [0], [(StackEntry.ival (DValue.str [97, 98])), (StackEntry.cls PicklerClass.INTLIST), (StackEntry.ival (DValue.intlist [1, 2])), (StackEntry.ival (DValue.list DVList.nil)), (StackEntry.ival (DValue.dict DVPairs.nil)), (StackEntry.cls PicklerClass.TENSOR), (StackEntry.ival (DValue.tuple (DVList.cons (DValue.bool true) (DVList.cons (DValue.int 5) (DVList.cons (DValue.double 4607182418800017408) (DVList.cons (DValue.str [97, 98]) (DVList.cons (DValue.intlist [1, 2]) (DVList.cons (DValue.list (DVList.cons (DValue.int 7) DVList.nil)) (DVList.cons (DValue.dict (DVPairs.cons (DValue.int 1) (DValue.int 2) DVPairs.nil)) (DVList.cons (DValue.tensor demoTensor) DVList.nil))))))))))], (some TorchPickle.OpCode.BINPUT), [demoTensor]⟩ : UState) = .ok ((⟨[46], [(StackEntry.ival (DValue.tuple (DVList.cons (DValue.tuple (DVList.cons (DValue.bool true) (DVList.cons (DValue.int 5) (DVList.cons (DValue.double 4607182418800017408) (DVList.cons (DValue.str [97, 98]) (DVList.cons (DValue.intlist [1, 2]) (DVList.cons (DValue.list (DVList.cons (DValue.int 7) DVList.nil)) (DVList.cons (DValue.dict (DVPairs.cons (DValue.int 1) (DValue.int 2) DVPairs.nil)) (DVList.cons (DValue.tensor demoTensor) DVList.nil))))))))) DVList.nil)))], [], [(StackEntry.ival (DValue.str [97, 98])), (StackEntry.cls PicklerClass.INTLIST), (StackEntry.ival (DValue.intlist [1, 2])), (StackEntry.ival (DValue.list DVList.nil)), (StackEntry.ival (DValue.dict DVPairs.nil)), (StackEntry.cls PicklerClass.TENSOR), (StackEntry.ival (DValue.tuple (DVList.cons (DValue.bool true) (DVList.cons (DValue.int 5) (DVList.cons (DValue.double 4607182418800017408) (DVList.cons (DValue.str [97, 98]) (DVList.cons (DValue.intlist [1, 2]) (DVList.cons (DValue.list (DVList.cons (DValue.int 7) DVList.nil)) (DVList.cons (DValue.dict (DVPairs.cons (DValue.int 1) (DValue.int 2) DVPairs.nil)) (DVList.cons (DValue.tensor demoTensor) DVList.nil))))))))))], (some TorchPickle.OpCode.BINPUT), [demoTensor]⟩ : UState), OpCode.TUPLE) := rfl
    rw [runLoop_succ]; simp only [runLoopBody]; rw [s]; rfl
  have e38 : runLoop (99 + 1) (⟨[46], [(StackEntry.ival (DValue.tuple (DVList.cons (DValue.tuple (DVList.cons (DValue.bool true) (DVList.cons (DValue.int 5) (DVList.cons (DValue.double 4607182418800017408) (DVList.cons (DValue.str [97, 98]) (DVList.cons (DValue.intlist [1, 2]) (DVList.cons (DValue.list (DVList.cons (DValue.int 7) DVList.nil)) (DVList.cons (DValue.dict (DVPairs.cons (DValue.int 1) (DValue.int 2) DVPairs.nil)) (DVList.cons (DValue.tensor demoTensor) DVList.nil))))))))) DVList.nil)))], [], [(StackEntry.ival (DValue.str [97, 98])), (StackEntry.cls PicklerClass.INTLIST), (StackEntry.ival (DValue.intlist [1, 2])), (StackEntry.ival (DValue.list DVList.nil)), (StackEntry.ival (DValue.dict DVPairs.nil)), (StackEntry.cls PicklerClass.TENSOR), (StackEntry.ival (DValue.tuple (DVList.cons (DValue.bool true) (DVList.cons (DValue.int 5) (DVList.cons (DValue.double 4607182418800017408) (DVList.cons (DValue.str [97, 98]) (DVList.cons (DValue.intlist [1, 2]) (DVList.cons (DValue.list (DVList.cons (DValue.int 7) DVList.nil)) (DVList.cons (DValue.dict (DVPairs.cons (DValue.int 1) (DValue.int 2) DVPairs.nil)) (DVList.cons (DValue.tensor demoTensor) DVList.nil))))))))))], (some TorchPickle.OpCode.TUPLE), [demoTensor]⟩ : UState) = .ok (⟨[], [(StackEntry.ival (DValue.tuple (DVList.cons (DValue.tuple (DVList.cons (DValue.bool true) (DVList.cons (DValue.int 5) (DVList.cons (DValue.double 4607182418800017408) (DVList.cons (DValue.str [97, 98]) (DVList.cons (DValue.intlist [1, 2]) (DVList.cons (DValue.list (DVList.cons (DValue.int 7) DVList.nil)) (DVList.cons (DValue.dict (DVPairs.cons (DValue.int 1) (DValue.int 2) DVPairs.nil)) (DVList.cons (DValue.tensor demoTensor) DVList.nil))))))))) DVList.nil)))], [], [(StackEntry.ival (DValue.str [97, 98])), (StackEntry.cls PicklerClass.INTLIST), (StackEntry.ival (DValue.intlist [1, 2])), (StackEntry.ival (DValue.list DVList.nil)), (StackEntry.ival (DValue.dict DVPairs.nil)), (StackEntry.cls PicklerClass.TENSOR), (StackEntry.ival (DValue.tuple (DVList.cons (DValue.bool true) (DVList.cons (DValue.int 5) (DVList.cons (DValue.double 4607182418800017408) (DVList.cons (DValue.str [97, 98]) (DVList.cons (DValue.intlist [1, 2]) (DVList.cons (DValue.list (DVList.cons (DValue.int 7) DVList.nil)) (DVList.cons (DValue.dict (DVPairs.cons (DValue.int 1) (DValue.int 2) DVPairs.nil)) (DVList.cons (DValue.tensor demoTensor) DVList.nil))))))))))], (some TorchPickle.OpCode.TUPLE), [demoTensor]⟩ : UState) := by
    have s : readInstruction (⟨[46], [(StackEntry.ival (DValue.tuple (DVList.cons (DValue.tuple (DVList.cons (DValue.bool true) (DVList.cons (DValue.int 5) (DVList.cons (DValue.double 4607182418800017408) (DVList.cons (DValue.str [97, 98]) (DVList.cons (DValue.intlist [1, 2]) (DVList.cons (DValue.list (DVList.cons (DValue.int 7) DVList.nil)) (DVList.cons (DValue.dict (DVPairs.cons (DValue.int 1) (DValue.int 2) DVPairs.nil)) (DVList.cons (DValue.tensor demoTensor) DVList.nil))))))))) DVList.nil)))], [], [(StackEntry.ival (DValue.str [97, 98])), (StackEntry.cls PicklerClass.INTLIST), (StackEntry.ival (DValue.intlist [1, 2])), (StackEntry.ival (DValue.list DVList.nil)), (StackEntry.ival (DValue.dict DVPairs.nil)), (StackEntry.cls PicklerClass.TENSOR), (StackEntry.ival (DValue.tuple (DVList.cons (DValue.bool true) (DVList.cons (DValue.int 5) (DVList.cons (DValue.double 4607182418800017408) (DVList.cons (DValue.str [97, 98]) (DVList.cons (DValue.intlist [1, 2]) (DVList.cons (DValue.list (DVList.cons (DValue.int 7) DVList.nil)) (DVList.cons (DValue.dict (DVPairs.cons (DValue.int 1) (DValue.int 2) DVPairs.nil)) (DVList.cons (DValue.tensor demoTensor) DVList.nil))))))))))], (some TorchPickle.OpCode.TUPLE), [demoTensor]⟩ : UState) = .ok ((⟨[], [(StackEntry.ival (DValue.tuple (DVList.cons (DValue.tuple (DVList.cons (DValue.bool true) (DVList.cons (DValue.int 5) (DVList.cons (DValue.double 4607182418800017408) (DVList.cons (DValue.str [97, 98]) (DVList.cons (DValue.intlist [1, 2]) (DVList.cons (DValue.list (DVList.cons (DValue.int 7) DVList.nil)) (DVList.cons (DValue.dict (DVPairs.cons (DValue.int 1) (DValue.int 2) DVPairs.nil)) (DVList.cons (DValue.tensor demoTensor) DVList.nil))))))))) DVList.nil)))], [], [(StackEntry.ival (DValue.str [97, 98])), (StackEntry.cls PicklerClass.INTLIST), (StackEntry.ival (DValue.intlist [1, 2])), (StackEntry.ival (DValue.list DVList.nil)), (StackEntry.ival (DValue.dict DVPairs.nil)), (StackEntry.cls PicklerClass.TENSOR), (StackEntry.ival (DValue.tuple (DVList.cons (DValue.bool true) (DVList.cons (DValue.int 5) (DVList.cons (DValue.double 4607182418800017408) (DVList.cons (DValue.str [97, 98]) (DVList.cons (DValue.intlist [1, 2]) (DVList.cons (DValue.list (DVList.cons (DValue.int 7) DVList.nil)) (DVList.cons (DValue.dict (DVPairs.cons (DValue.int 1) (DValue.int 2) DVPairs.nil)) (DVList.cons (DValue.tensor demoTensor) DVList.nil))))))))))], (some TorchPickle.OpCode.TUPLE), [demoTensor]⟩ : UState), OpCode.STOP) := rfl
    rw [runLoop_succ]; simp only [runLoopBody]; rw [s]; rfl
  have hrun : run (⟨[128, 2, 40, 40, 136, 75, 5, 71, 63, 240, 0, 0, 0, 0, 0, 0, 88, 2, 0, 0, 0, 97, 98, 113, 0, 99, 116, 111, 114, 99, 104, 46, 106, 105, 116, 46, 95, 112, 105, 99, 107, 108, 101, 10, 98, 117, 105, 108, 100, 95, 105, 110, 116, 108, 105, 115, 116, 10, 113, 1, 40, 93, 40, 75, 1, 75, 2, 101, 116, 82, 113, 2, 93, 113, 3, 40, 75, 7, 101, 125, 113, 4, 40, 75, 1, 75, 2, 117, 99, 116, 111, 114, 99, 104, 46, 106, 105, 116, 46, 95, 112, 105, 99, 107, 108, 101, 10, 98, 117, 105, 108, 100, 95, 116, 101, 110, 115, 111, 114, 95, 102, 114, 111, 109, 95, 105, 100, 10, 113, 5, 40, 75, 0, 116, 82, 116, 113, 6, 116, 46], [], [], [], Option.none, [demoTensor]⟩ : UState) = .ok (⟨[], [(StackEntry.ival (DValue.tuple (DVList.cons (DValue.tuple (DVList.cons (DValue.bool true) (DVList.cons (DValue.int 5) (DVList.cons (DValue.double 4607182418800017408) (DVList.cons (DValue.str [97, 98]) (DVList.cons (DValue.intlist [1, 2]) (DVList.cons (DValue.list (DVList.cons (DValue.int 7) DVList.nil)) (DVList.cons (DValue.dict (DVPairs.cons (DValue.int 1) (DValue.int 2) DVPairs.nil)) (DVList.cons (DValue.tensor demoTensor) DVList.nil))))))))) DVList.nil)))], [], [(StackEntry.ival (DValue.str [97, 98])), (StackEntry.cls PicklerClass.INTLIST), (StackEntry.ival (DValue.intlist [1, 2])), (StackEntry.ival (DValue.list DVList.nil)), (StackEntry.ival (DValue.dict DVPairs.nil)), (StackEntry.cls PicklerClass.TENSOR), (StackEntry.ival (DValue.tuple (DVList.cons (DValue.bool true) (DVList.cons (DValue.int 5) (DVList.cons (DValue.double 4607182418800017408) (DVList.cons (DValue.str [97, 98]) (DVList.cons (DValue.intlist [1, 2]) (DVList.cons (DValue.list (DVList.cons (DValue.int 7) DVList.nil)) (DVList.cons (DValue.dict (DVPairs.cons (DValue.int 1) (DValue.int 2) DVPairs.nil)) (DVList.cons (DValue.tensor demoTensor) DVList.nil))))))))))], (some TorchPickle.OpCode.TUPLE), [demoTensor]⟩ : UState) := p0.trans (e0.trans (e1.trans (e2.trans (e3.trans (e4.trans (e5.trans (e6.trans (e7.trans (e8.trans (e9.trans (e10.trans (e11.trans (e12.trans (e13.trans (e14.trans (e15.trans (e16.trans (e17.trans (e18.trans (e19.trans (e20.trans (e21.trans (e22.trans (e23.trans (e24.trans (e25.trans (e26.trans (e27.trans (e28.trans (e29.trans (e30.trans (e31.trans (e32.trans (e33.trans (e34.trans (e35.trans (e36.trans (e37.trans (e38)))))))))))))))))))))))))))))))))))))))
  simp only [TorchPickle.unpickle, parse_ivalue_list]
  rw [hrun]
  rfl

set_option maxRecDepth 4000 in
/-- C1.  The claimed round-trip fails on the code for `v = None`: the
encoder emits the `NONE` opcode (bytes `80 02 28 4e 74 2e`), but
`Unpickler::readInstruction` has no `case OpCode::NONE`, so decoding
aborts in the `default:` branch with the unknown-opcode error instead
of returning `[None]`.  The last conjunct shows the rest of the
claimed subset round-tripping on a representative value covering every
other variant (with the tensor resolved to the same handle through
the shared side table), so `None` is the precise failure. -/
theorem C1_roundtrip_none_fails :
    unpickle (encodeBytes (some []) (IVList.cons IValue.none IVList.nil)) [] =
      .error DErr.unknownOpcode ∧
    encodeBytes (some []) (IVList.cons IValue.none IVList.nil) =
      [0x80, 0x02, 0x28, 0x4E, 0x74, 0x2E] ∧
    unpickle (flatten demoSession.out) (demoSession.tensor_table.getD []) =
      .ok [demoDecoded] := by
  refine ⟨?_, none_encode_eval, demo_roundtrip_eval⟩
  rw [none_encode_eval]
  rfl

/-- C2.  Evaluation at the failing input `80 02 88 71 05 68 05 2e`
(NEWTRUE; BINPUT 5; BINGET 5; STOP): `BINPUT` only `reserve`s capacity
and then `push_back`s, so the topmost element is bound at index 0 (the
current memo-table size), not at id 5; the following `BINGET 5` throws
out-of-range instead of pushing the element.  The second conjunct
decodes the same stream with `BINGET 0` instead: it succeeds with two
stack entries and a single memo entry, showing where the clone
actually went. -/
theorem C2_binput_binds_at_size_not_id :
    runBytes [0x80, 0x02, 0x88, 0x71, 0x05, 0x68, 0x05, 0x2E] [] =
      .error DErr.rangeError ∧
    (runBytes [0x80, 0x02, 0x88, 0x71, 0x05, 0x68, 0x00, 0x2E] []).map
        (fun st => (st.stack.length, st.memo_table.length)) =
      .ok (2, 1) := by
  refine ⟨rfl, rfl⟩

/-- C4.  Evaluation at the failing input `80 02 63`, a buffer ending
immediately after the `GLOBAL` opcode: `readString` dereferences
`chars[0]` at `end_ptr_` before any bounds check (the overrun
`AT_CHECK` only guards positions from the second byte on), so the
decoder reads past its supplied end pointer. -/
theorem C4_readString_reads_past_end :
    runBytes [0x80, 0x02, 0x63] [] = .error DErr.ubReadPastEnd := rfl

set_option maxRecDepth 4000 in
/-- Byte stream of the session encoding `[Dict({None: 2})]`. -/
theorem dictNone_encode_eval :
    encodeBytes (some [])
      (IVList.cons (IValue.dict 0 (IVPairs.cons IValue.none (IValue.int 2) IVPairs.nil))
        IVList.nil) =
      [128, 2, 40, 125, 113, 0, 40, 78, 75, 2, 117, 116, 46] := rfl

set_option maxRecDepth 4000 in
/-- Byte stream of the session encoding `[Dict({3: 4, 1: 2})]`. -/
theorem dictOrder_encode_eval :
    encodeBytes (some [])
      (IVList.cons (IValue.dict 0 (IVPairs.cons (IValue.int 3) (IValue.int 4)
        (IVPairs.cons (IValue.int 1) (IValue.int 2) IVPairs.nil))) IVList.nil) =
      [128, 2, 40, 125, 113, 0, 40, 75, 3, 75, 4, 75, 1, 75, 2, 117, 116, 46] := rfl

set_option maxRecDepth 4000 in
set_option maxHeartbeats 2000000 in
/-- Decoding the `{3: 4, 1: 2}` dict stream, executed one instruction
at a time: the decoded key sequence is `3, 1`, the supplied order. -/
theorem dict_order_roundtrip_eval :
    unpickle [128, 2, 40, 125, 113, 0, 40, 75, 3, 75, 4, 75, 1, 75, 2, 117, 116, 46] [] =
      .ok [DValue.dict (DVPairs.cons (DValue.int 3) (DValue.int 4)
        (DVPairs.cons (DValue.int 1) (DValue.int 2) DVPairs.nil))] := by
  have p0 : run (⟨[128, 2, 40, 125, 113, 0, 40, 75, 3, 75, 4, 75, 1, 75, 2, 117, 116, 46], [], [], [], Option.none, []⟩ : UState) = runLoop 16 (⟨[40, 125, 113, 0, 40, 75, 3, 75, 4, 75, 1, 75, 2, 117, 116, 46], [], [], [], Option.none, []⟩ : UState) := rfl
  have e0 : runLoop (15 + 1) (⟨[40, 125, 113, 0, 40, 75, 3, 75, 4, 75, 1, 75, 2, 117, 116, 46], [], [], [], Option.none, []⟩ : UState) = runLoop 15 (⟨[125, 113, 0, 40, 75, 3, 75, 4, 75, 1, 75, 2, 117, 116, 46], [], [0], [], (some TorchPickle.OpCode.MARK), []⟩ : UState) := by
    have s : readInstruction (⟨[40, 125, 113, 0, 40, 75, 3, 75, 4, 75, 1, 75, 2, 117, 116, 46], [], [], [], Option.none, []⟩ : UState) = .ok ((⟨[125, 113, 0, 40, 75, 3, 75, 4, 75, 1, 75, 2, 117, 116, 46], [], [0], [], Option.none, []⟩ : UState), OpCode.MARK) := rfl
    rw [runLoop_succ]; simp only [runLoopBody]; rw [s]; rfl
  have e1 : runLoop (14 + 1) (⟨[125, 113, 0, 40, 75, 3, 75, 4, 75, 1, 75, 2, 117, 116, 46], [], [0], [], (some TorchPickle.OpCode.MARK), []⟩ : UState) = runLoop 14 (⟨[113, 0, 40, 75, 3, 75, 4, 75, 1, 75, 2, 117, 116, 46], [(StackEntry.ival (DValue.dict DVPairs.nil))], [0], [], (some TorchPickle.OpCode.EMPTY_DICT), []⟩ : UState) := by
    have s : readInstruction (⟨[125, 113, 0, 40, 75, 3, 75, 4, 75, 1, 75, 2, 117, 116, 46], [], [0], [], (some TorchPickle.OpCode.MARK), []⟩ : UState) = .ok ((⟨[113, 0, 40, 75, 3, 75, 4, 75, 1, 75, 2, 117, 116, 46], [(StackEntry.ival (DValue.dict DVPairs.nil))], [0], [], (some TorchPickle.OpCode.MARK), []⟩ : UState), OpCode.EMPTY_DICT) := rfl
    rw [runLoop_succ]; simp only [runLoopBody]; rw [s]; rfl
  have e2 : runLoop (13 + 1) (⟨[113, 0, 40, 75, 3, 75, 4, 75, 1, 75, 2, 117, 116, 46], [(StackEntry.ival (DValue.dict DVPairs.nil))], [0], [], (some TorchPickle.OpCode.EMPTY_DICT), []⟩ : UState) = runLoop 13 (⟨[40, 75, 3, 75, 4, 75, 1, 75, 2, 117, 116, 46], [(StackEntry.ival (DValue.dict DVPairs.nil))], [0], [(StackEntry.ival (DValue.dict DVPairs.nil))], (some TorchPickle.OpCode.BINPUT), []⟩ : UState) := by
    have s : readInstruction (⟨[113, 0, 40, 75, 3, 75, 4, 75, 1, 75, 2, 117, 116, 46], [(StackEntry.ival (DValue.dict DVPairs.nil))], [0], [], (some TorchPickle.OpCode.EMPTY_DICT), []⟩ : UState) = .ok ((⟨[40, 75, 3, 75, 4, 75, 1, 75, 2, 117, 116, 46], [(StackEntry.ival (DValue.dict DVPairs.nil))], [0], [(StackEntry.ival (DValue.dict DVPairs.nil))], (some TorchPickle.OpCode.EMPTY_DICT), []⟩ : UState), OpCode.BINPUT) := rfl
    rw [runLoop_succ]; simp only [runLoopBody]; rw [s]; rfl
  have e3 : runLoop (12 + 1) (⟨[40, 75, 3, 75, 4, 75, 1, 75, 2, 117, 116, 46], [(StackEntry.ival (DValue.dict DVPairs.nil))], [0], [(StackEntry.ival (DValue.dict DVPairs.nil))], (some TorchPickle.OpCode.BINPUT), []⟩ : UState) = runLoop 12 (⟨[75, 3, 75, 4, 75, 1, 75, 2, 117, 116, 46], [(StackEntry.ival (DValue.dict DVPairs.nil))], [0, 1], [(StackEntry.ival (DValue.dict DVPairs.nil))], (some TorchPickle.OpCode.MARK), []⟩ : UState) := by
    have s : readInstruction (⟨[40, 75, 3, 75, 4, 75, 1, 75, 2, 117, 116, 46], [(StackEntry.ival (DValue.dict DVPairs.nil))], [0], [(StackEntry.ival (DValue.dict DVPairs.nil))], (some TorchPickle.OpCode.BINPUT), []⟩ : UState) = .ok ((⟨[75, 3, 75, 4, 75, 1, 75, 2, 117, 116, 46], [(StackEntry.ival (DValue.dict DVPairs.nil))], [0, 1], [(StackEntry.ival (DValue.dict DVPairs.nil))], (some TorchPickle.OpCode.BINPUT), []⟩ : UState), OpCode.MARK) := rfl
    rw [runLoop_succ]; simp only [runLoopBody]; rw [s]; rfl
  have e4 : runLoop (11 + 1) (⟨[75, 3, 75, 4, 75, 1, 75, 2, 117, 116, 46], [(StackEntry.ival (DValue.dict DVPairs.nil))], [0, 1], [(StackEntry.ival (DValue.dict DVPairs.nil))], (some TorchPickle.OpCode.MARK), []⟩ : UState) = runLoop 11 (⟨[75, 4, 75, 1, 75, 2, 117, 116, 46], [(StackEntry.ival (DValue.dict DVPairs.nil)), (StackEntry.ival (DValue.int 3))], [0, 1], [(StackEntry.ival (DValue.dict DVPairs.nil))], (some TorchPickle.OpCode.BININT1), []⟩ : UState) := by
    have s : readInstruction (⟨[75, 3, 75, 4, 75, 1, 75, 2, 117, 116, 46], [(StackEntry.ival (DValue.dict DVPairs.nil))], [0, 1], [(StackEntry.ival (DValue.dict DVPairs.nil))], (some TorchPickle.OpCode.MARK), []⟩ : UState) = .ok ((⟨[75, 4, 75, 1, 75, 2, 117, 116, 46], [(StackEntry.ival (DValue.dict DVPairs.nil)), (StackEntry.ival (DValue.int 3))], [0, 1], [(StackEntry.ival (DValue.dict DVPairs.nil))], (some TorchPickle.OpCode.MARK), []⟩ : UState), OpCode.BININT1) := rfl
    rw [runLoop_succ]; simp only [runLoopBody]; rw [s]; rfl
  have e5 : runLoop (10 + 1) (⟨[75, 4, 75, 1, 75, 2, 117, 116, 46], [(StackEntry.ival (DValue.dict DVPairs.nil)), (StackEntry.ival (DValue.int 3))], [0, 1], [(StackEntry.ival (DValue.dict DVPairs.nil))], (some TorchPickle.OpCode.BININT1), []⟩ : UState) = runLoop 10 (⟨[75, 1, 75, 2, 117, 116, 46], [(StackEntry.ival (DValue.dict DVPairs.nil)), (StackEntry.ival (DValue.int 3)), (StackEntry.ival (DValue.int 4))], [0, 1], [(StackEntry.ival (DValue.dict DVPairs.nil))], (some TorchPickle.OpCode.BININT1), []⟩ : UState) := by
    have s : readInstruction (⟨[75, 4, 75, 1, 75, 2, 117, 116, 46], [(StackEntry.ival (DValue.dict DVPairs.nil)), (StackEntry.ival (DValue.int 3))], [0, 1], [(StackEntry.ival (DValue.dict DVPairs.nil))], (some TorchPickle.OpCode.BININT1), []⟩ : UState) = .ok ((⟨[75, 1, 75, 2, 117, 116, 46], [(StackEntry.ival (DValue.dict DVPairs.nil)), (StackEntry.ival (DValue.int 3)), (StackEntry.ival (DValue.int 4))], [0, 1], [(StackEntry.ival (DValue.dict DVPairs.nil))], (some TorchPickle.OpCode.BININT1), []⟩ : UState), OpCode.BININT1) := rfl
    rw [runLoop_succ]; simp only [runLoopBody]; rw [s]; rfl
  have e6 : runLoop (9 + 1) (⟨[75, 1, 75, 2, 117, 116, 46], [(StackEntry.ival (DValue.dict DVPairs.nil)), (StackEntry.ival (DValue.int 3)), (StackEntry.ival (DValue.int 4))], [0, 1], [(StackEntry.ival (DValue.dict DVPairs.nil))], (some TorchPickle.OpCode.BININT1), []⟩ : UState) = runLoop 9 (⟨[75, 2, 117, 116, 46], [(StackEntry.ival (DValue.dict DVPairs.nil)), (StackEntry.ival (DValue.int 3)), (StackEntry.ival (DValue.int 4)), (StackEntry.ival (DValue.int 1))], [0, 1], [(StackEntry.ival (DValue.dict DVPairs.nil))], (some TorchPickle.OpCode.BININT1), []⟩ : UState) := by
    have s : readInstruction (⟨[75, 1, 75, 2, 117, 116, 46], [(StackEntry.ival (DValue.dict DVPairs.nil)), (StackEntry.ival (DValue.int 3)), (StackEntry.ival (DValue.int 4))], [0, 1], [(StackEntry.ival (DValue.dict DVPairs.nil))], (some TorchPickle.OpCode.BININT1), []⟩ : UState) = .ok ((⟨[75, 2, 117, 116, 46], [(StackEntry.ival (DValue.dict DVPairs.nil)), (StackEntry.ival (DValue.int 3)), (StackEntry.ival (DValue.int 4)), (StackEntry.ival (DValue.int 1))], [0, 1], [(StackEntry.ival (DValue.dict DVPairs.nil))], (some TorchPickle.OpCode.BININT1), []⟩ : UState), OpCode.BININT1) := rfl
    rw [runLoop_succ]; simp only [runLoopBody]; rw [s]; rfl
  have e7 : runLoop (8 + 1) (⟨[75, 2, 117, 116, 46], [(StackEntry.ival (DValue.dict DVPairs.nil)), (StackEntry.ival (DValue.int 3)), (StackEntry.ival (DValue.int 4)), (StackEntry.ival (DValue.int 1))], [0, 1], [(StackEntry.ival (DValue.dict DVPairs.nil))], (some TorchPickle.OpCode.BININT1), []⟩ : UState) = runLoop 8 (⟨[117, 116, 46], [(StackEntry.ival (DValue.dict DVPairs.nil)), (StackEntry.ival (DValue.int 3)), (StackEntry.ival (DValue.int 4)), (StackEntry.ival (DValue.int 1)), (StackEntry.ival (DValue.int 2))], [0, 1], [(StackEntry.ival (DValue.dict DVPairs.nil))], (some TorchPickle.OpCode.BININT1), []⟩ : UState) := by
    have s : readInstruction (⟨[75, 2, 117, 116, 46], [(StackEntry.ival (DValue.dict DVPairs.nil)), (StackEntry.ival (DValue.int 3)), (StackEntry.ival (DValue.int 4)), (StackEntry.ival (DValue.int 1))], [0, 1], [(StackEntry.ival (DValue.dict DVPairs.nil))], (some TorchPickle.OpCode.BININT1), []⟩ : UState) = .ok ((⟨[117, 116, 46], [(StackEntry.ival (DValue.dict DVPairs.nil)), (StackEntry.ival (DValue.int 3)), (StackEntry.ival (DValue.int 4)), (StackEntry.ival (DValue.int 1)), (StackEntry.ival (DValue.int 2))], [0, 1], [(StackEntry.ival (DValue.dict DVPairs.nil))], (some TorchPickle.OpCode.BININT1), []⟩ : UState), OpCode.BININT1) := rfl
    rw [runLoop_succ]; simp only [runLoopBody]; rw [s]; rfl
  have e8 : runLoop (7 + 1) (⟨[117, 116, 46], [(StackEntry.ival (DValue.dict DVPairs.nil)), (StackEntry.ival (DValue.int 3)), (StackEntry.ival (DValue.int 4)), (StackEntry.ival (DValue.int 1)), (StackEntry.ival (DValue.int 2))], [0, 1], [(StackEntry.ival (DValue.dict DVPairs.nil))], (some TorchPickle.OpCode.BININT1), []⟩ : UState) = runLoop 7 (⟨[116, 46], [(StackEntry.ival (DValue.dict (DVPairs.cons (DValue.int 3) (DValue.int 4) (DVPairs.cons (DValue.int 1) (DValue.int 2) DVPairs.nil))))], [0], [(StackEntry.ival (DValue.dict DVPairs.nil))], (some TorchPickle.OpCode.SETITEMS), []⟩ : UState) := by
    have s : readInstruction (⟨[117, 116, 46], [(StackEntry.ival (DValue.dict DVPairs.nil)), (StackEntry.ival (DValue.int 3)), (StackEntry.ival (DValue.int 4)), (StackEntry.ival (DValue.int 1)), (StackEntry.ival (DValue.int 2))], [0, 1], [(StackEntry.ival (DValue.dict DVPairs.nil))], (some TorchPickle.OpCode.BININT1), []⟩ : UState) = .ok ((⟨[116, 46], [(StackEntry.ival (DValue.dict (DVPairs.cons (DValue.int 3) (DValue.int 4) (DVPairs.cons (DValue.int 1) (DValue.int 2) DVPairs.nil))))], [0], [(StackEntry.ival (DValue.dict DVPairs.nil))], (some TorchPickle.OpCode.BININT1), []⟩ : UState), OpCode.SETITEMS) := rfl
    rw [runLoop_succ]; simp only [runLoopBody]; rw [s]; rfl
  have e9 : runLoop (6 + 1) (⟨[116, 46], [(StackEntry.ival (DValue.dict (DVPairs.cons (DValue.int 3) (DValue.int 4) (DVPairs.cons (DValue.int 1) (DValue.int 2) DVPairs.nil))))], [0], [(StackEntry.ival (DValue.dict DVPairs.nil))], (some TorchPickle.OpCode.SETITEMS), []⟩ : UState) = runLoop 6 (⟨[46], [(StackEntry.ival (DValue.tuple (DVList.cons (DValue.dict (DVPairs.cons (DValue.int 3) (DValue.int 4) (DVPairs.cons (DValue.int 1) (DValue.int 2) DVPairs.nil))) DVList.nil)))], [], [(StackEntry.ival (DValue.dict DVPairs.nil))], (some TorchPickle.OpCode.TUPLE), []⟩ : UState) := by
    have s : readInstruction (⟨[116, 46], [(StackEntry.ival (DValue.dict (DVPairs.cons (DValue.int 3) (DValue.int 4) (DVPairs.cons (DValue.int 1) (DValue.int 2) DVPairs.nil))))], [0], [(StackEntry.ival (DValue.dict DVPairs.nil))], (some TorchPickle.OpCode.SETITEMS), []⟩ : UState) = .ok ((⟨[46], [(StackEntry.ival (DValue.tuple (DVList.cons (DValue.dict (DVPairs.cons (DValue.int 3) (DValue.int 4) (DVPairs.cons (DValue.int 1) (DValue.int 2) DVPairs.nil))) DVList.nil)))], [], [(StackEntry.ival (DValue.dict DVPairs.nil))], (some TorchPickle.OpCode.SETITEMS), []⟩ : UState), OpCode.TUPLE) := rfl
    rw [runLoop_succ]; simp only [runLoopBody]; rw [s]; rfl
  have e10 : runLoop (5 + 1) (⟨[46], [(StackEntry.ival (DValue.tuple (DVList.cons (DValue.dict (DVPairs.cons (DValue.int 3) (DValue.int 4) (DVPairs.cons (DValue.int 1) (DValue.int 2) DVPairs.nil))) DVList.nil)))], [], [(StackEntry.ival (DValue.dict DVPairs.nil))], (some TorchPickle.OpCode.TUPLE), []⟩ : UState) = .ok (⟨[], [(StackEntry.ival (DValue.tuple (DVList.cons (DValue.dict (DVPairs.cons (DValue.int 3) (DValue.int 4) (DVPairs.cons (DValue.int 1) (DValue.int 2) DVPairs.nil))) DVList.nil)))], [], [(StackEntry.ival (DValue.dict DVPairs.nil))], (some TorchPickle.OpCode.TUPLE), []⟩ : UState) := by
    have s : readInstruction (⟨[46], [(StackEntry.ival (DValue.tuple (DVList.cons (DValue.dict (DVPairs.cons (DValue.int 3) (DValue.int 4) (DVPairs.cons (DValue.int 1) (DValue.int 2) DVPairs.nil))) DVList.nil)))], [], [(StackEntry.ival (DValue.dict DVPairs.nil))], (some TorchPickle.OpCode.TUPLE), []⟩ : UState) = .ok ((⟨[], [(StackEntry.ival (DValue.tuple (DVList.cons (DValue.dict (DVPairs.cons (DValue.int 3) (DValue.int 4) (DVPairs.cons (DValue.int 1) (DValue.int 2) DVPairs.nil))) DVList.nil)))], [], [(StackEntry.ival (DValue.dict DVPairs.nil))], (some TorchPickle.OpCode.TUPLE), []⟩ : UState), OpCode.STOP) := rfl
    rw [runLoop_succ]; simp only [runLoopBody]; rw [s]; rfl
  have hrun : run (⟨[128, 2, 40, 125, 113, 0, 40, 75, 3, 75, 4, 75, 1, 75, 2, 117, 116, 46], [], [], [], Option.none, []⟩ : UState) = .ok (⟨[], [(StackEntry.ival (DValue.tuple (DVList.cons (DValue.dict (DVPairs.cons (DValue.int 3) (DValue.int 4) (DVPairs.cons (DValue.int 1) (DValue.int 2) DVPairs.nil))) DVList.nil)))], [], [(StackEntry.ival (DValue.dict DVPairs.nil))], (some TorchPickle.OpCode.TUPLE), []⟩ : UState) := p0.trans (e0.trans (e1.trans (e2.trans (e3.trans (e4.trans (e5.trans (e6.trans (e7.trans (e8.trans (e9.trans (e10)))))))))))
  simp only [TorchPickle.unpickle, parse_ivalue_list]
  rw [hrun]
  rfl

set_option maxRecDepth 4000 in
/-- C5.  Evaluation at the failing input `[Dict({None: 2})]`: the
encoder does write the pairs in the dict's declared iteration order,
but the decoder has no case for the `NONE` opcode, so decoding aborts
with the unknown-opcode error instead of yielding any Dict.  The
second conjunct shows the claim holding for a None-free dict supplied
in non-sorted order `{3: 4, 1: 2}`: the decoded key sequence equals
the supplied order (under the insertion-ordered dict model). -/
theorem C5_dict_order_eval :
    unpickle (encodeBytes (some [])
        (IVList.cons (IValue.dict 0 (IVPairs.cons IValue.none (IValue.int 2) IVPairs.nil))
          IVList.nil)) [] =
      .error DErr.unknownOpcode ∧
    unpickle (encodeBytes (some [])
        (IVList.cons (IValue.dict 0 (IVPairs.cons (IValue.int 3) (IValue.int 4)
          (IVPairs.cons (IValue.int 1) (IValue.int 2) IVPairs.nil))) IVList.nil)) [] =
      .ok [DValue.dict (DVPairs.cons (DValue.int 3) (DValue.int 4)
        (DVPairs.cons (DValue.int 1) (DValue.int 2) DVPairs.nil))] := by
  constructor
  · rw [dictNone_encode_eval]
    rfl
  · rw [dictOrder_encode_eval]
    exact dict_order_roundtrip_eval

/-- C3, counterexample.  The stream `80 02 28 28 88 74 2e` pushes two
MARKs, closes only one of them, and reaches STOP: the claim says such
a stream is rejected as UnbalancedContainer, but the decoder accepts
it and returns `[Bool true]` — `Unpickler::run` never checks that the
mark stack is empty at STOP. -/
theorem C3_unclosed_mark_accepted :
    unpickle [0x80, 0x02, 0x28, 0x28, 0x88, 0x74, 0x2E] [] = .ok [DValue.bool true] := rfl

/-- C6, counterexample.  State with `last_opcode_ = NEWOBJ` and an
integer class tag `0` (`TENSOR`) on top of the stack, about to execute
`EMPTY_LIST`: the claim says an empty generic List is pushed, but the
code's NEWOBJ branch has no `else` after its INTLIST test and pushes
nothing — the resulting stack is unchanged (still the single integer
tag). -/
theorem C6_newobj_other_tag_pushes_nothing :
    readInstruction ⟨[0x5D], [StackEntry.ival (DValue.int 0)], [], [],
        some OpCode.NEWOBJ, []⟩ =
      .ok (⟨[], [StackEntry.ival (DValue.int 0)], [], [], some OpCode.NEWOBJ, []⟩,
        OpCode.EMPTY_LIST) := rfl

/-- C3, amended.  The decoder performs no UnbalancedContainer check:
executing TUPLE, APPENDS or SETITEMS with an empty mark stack calls
`back()` on the empty mark vector — undefined behaviour, modelled as
the `ubVector` crash, not a reported UnbalancedContainer error — and a
stream whose MARK is never closed before STOP is not rejected:
`run` terminates successfully with the mark still recorded. -/
theorem C3_no_unbalanced_check :
    (∀ (st : UState) (r : List Nat), st.marks = [] → st.rem = 0x74 :: r →
        readInstruction st = .error DErr.ubVector) ∧
    (∀ (st : UState) (r : List Nat), st.marks = [] → st.rem = 0x65 :: r →
        readInstruction st = .error DErr.ubVector) ∧
    (∀ (st : UState) (r : List Nat), st.marks = [] → st.rem = 0x75 :: r →
        readInstruction st = .error DErr.ubVector) ∧
    (runBytes [0x80, 0x02, 0x28, 0x28, 0x88, 0x74, 0x2E] []).map (fun st => st.marks) =
      .ok [0] := by
  refine ⟨?_, ?_, ?_, rfl⟩ <;>
  · intro st r h1 h2
    simp [readInstruction, readU8, readLE, byteToOp, h2, h1, leNat, readList,
          Except.bind, bind]

/-- C3, witness: the three crash cases at concrete states. -/
theorem C3_no_unbalanced_check_witness :
    readInstruction ⟨[0x74], [], [], [], Option.none, []⟩ = .error DErr.ubVector ∧
    readInstruction ⟨[0x65], [], [], [], Option.none, []⟩ = .error DErr.ubVector ∧
    readInstruction ⟨[0x75], [], [], [], Option.none, []⟩ = .error DErr.ubVector :=
  ⟨C3_no_unbalanced_check.1 ⟨[0x74], [], [], [], Option.none, []⟩ [] rfl rfl,
   C3_no_unbalanced_check.2.1 ⟨[0x65], [], [], [], Option.none, []⟩ [] rfl rfl,
   C3_no_unbalanced_check.2.2.1 ⟨[0x75], [], [], [], Option.none, []⟩ [] rfl rfl⟩

/-- C6, amended.  `EMPTY_LIST` dispatch as the code implements it:
(a) with `last_opcode == NEWOBJ` and an integer tag on top of the
stack, a tag equal to INTLIST pushes an empty IntList, while any other
tag in `[0, 255]` pushes *nothing* (the branch has no `else`; the
stack is unchanged), a tag outside `[0, 255]` is an error, and an
empty stack is an error; (b) without NEWOBJ, a class marker on top
pushes an empty IntList if it is INTLIST and is an "unknown list
specialization" error otherwise; only when the stack is empty or
holds a value on top is one empty generic List pushed. -/
theorem C6_empty_list_cases :
    (∀ (st : UState) (r : List Nat) (s : List StackEntry),
        st.rem = 0x5D :: r → st.last_opcode = some OpCode.NEWOBJ →
        st.stack = s ++ [StackEntry.ival
          (DValue.int (Int.ofNat (picklerClassTag PicklerClass.INTLIST)))] →
        readInstruction st =
          .ok ({ st with
                 rem := r,
                 stack := st.stack ++ [StackEntry.ival (DValue.intlist [])] },
               OpCode.EMPTY_LIST)) ∧
    (∀ (st : UState) (r : List Nat) (s : List StackEntry) (t : Int),
        st.rem = 0x5D :: r → st.last_opcode = some OpCode.NEWOBJ →
        st.stack = s ++ [StackEntry.ival (DValue.int t)] →
        0 ≤ t → t ≤ 255 → t ≠ Int.ofNat (picklerClassTag PicklerClass.INTLIST) →
        readInstruction st = .ok ({ st with rem := r }, OpCode.EMPTY_LIST)) ∧
    (∀ (st : UState) (r : List Nat),
        st.rem = 0x5D :: r → st.last_opcode = some OpCode.NEWOBJ → st.stack = [] →
        readInstruction st = .error DErr.emptyStack) ∧
    (∀ (st : UState) (r : List Nat) (s : List StackEntry),
        st.rem = 0x5D :: r → st.last_opcode ≠ some OpCode.NEWOBJ →
        st.stack = s ++ [StackEntry.cls PicklerClass.INTLIST] →
        readInstruction st =
          .ok ({ st with
                 rem := r,
                 stack := st.stack ++ [StackEntry.ival (DValue.intlist [])] },
               OpCode.EMPTY_LIST)) ∧
    (∀ (st : UState) (r : List Nat) (s : List StackEntry),
        st.rem = 0x5D :: r → st.last_opcode ≠ some OpCode.NEWOBJ →
        st.stack = s ++ [StackEntry.cls PicklerClass.TENSOR] →
        readInstruction st = .error DErr.listSpecialization) ∧
    (∀ (st : UState) (r : List Nat),
        st.rem = 0x5D :: r → st.last_opcode ≠ some OpCode.NEWOBJ → st.stack = [] →
        readInstruction st =
          .ok ({ st with
                 rem := r,
                 stack := st.stack ++ [StackEntry.ival (DValue.list DVList.nil)] },
               OpCode.EMPTY_LIST)) ∧
    (∀ (st : UState) (r : List Nat) (s : List StackEntry) (v : DValue),
        st.rem = 0x5D :: r → st.last_opcode ≠ some OpCode.NEWOBJ →
        st.stack = s ++ [StackEntry.ival v] →
        readInstruction st =
          .ok ({ st with
                 rem := r,
                 stack := st.stack ++ [StackEntry.ival (DValue.list DVList.nil)] },
               OpCode.EMPTY_LIST)) := by
  refine ⟨?_, ?_, ?_, ?_, ?_, ?_, ?_⟩
  · intro st r s h1 h2 h3
    simp [readInstruction, readU8, readLE, byteToOp, h1, h2, h3, leNat,
          entryIValue, toIntE, entryClassOpt, picklerClassTag, Except.bind, bind]
  · intro st r s t h1 h2 h3 h4 h5 h6
    have h6' : ¬t = 1 := by simpa [picklerClassTag] using h6
    simp [readInstruction, readU8, readLE, byteToOp, h1, h2, h3, h4, h5, h6', leNat,
          entryIValue, toIntE, entryClassOpt, picklerClassTag, Except.bind, bind]
  · intro st r h1 h2 h3
    simp [readInstruction, readU8, readLE, byteToOp, h1, h2, h3, leNat,
          Except.bind, bind]
  · intro st r s h1 h2 h3
    simp [readInstruction, readU8, readLE, byteToOp, h1, h2, h3, leNat,
          entryClassOpt, Except.bind, bind]
  · intro st r s h1 h2 h3
    simp [readInstruction, readU8, readLE, byteToOp, h1, h2, h3, leNat,
          entryClassOpt, Except.bind, bind]
  · intro st r h1 h2 h3
    simp [readInstruction, readU8, readLE, byteToOp, h1, h2, h3, leNat,
          Except.bind, bind]
  · intro st r s v h1 h2 h3
    simp [readInstruction, readU8, readLE, byteToOp, h1, h2, h3, leNat,
          entryClassOpt, Except.bind, bind]

/-- C6, witness: each case applied at a concrete state. -/
theorem C6_empty_list_cases_witness :
    readInstruction ⟨[0x5D], [StackEntry.ival (DValue.int 1)], [], [],
        some OpCode.NEWOBJ, []⟩ =
      .ok (⟨[], [StackEntry.ival (DValue.int 1), StackEntry.ival (DValue.intlist [])],
        [], [], some OpCode.NEWOBJ, []⟩, OpCode.EMPTY_LIST) ∧
    readInstruction ⟨[0x5D], [StackEntry.ival (DValue.int 0)], [], [],
        some OpCode.NEWOBJ, []⟩ =
      .ok (⟨[], [StackEntry.ival (DValue.int 0)], [], [], some OpCode.NEWOBJ, []⟩,
        OpCode.EMPTY_LIST) ∧
    readInstruction ⟨[0x5D], [], [], [], some OpCode.NEWOBJ, []⟩ =
      .error DErr.emptyStack ∧
    readInstruction ⟨[0x5D], [StackEntry.cls PicklerClass.INTLIST], [], [],
        Option.none, []⟩ =
      .ok (⟨[], [StackEntry.cls PicklerClass.INTLIST,
        StackEntry.ival (DValue.intlist [])], [], [], Option.none, []⟩,
        OpCode.EMPTY_LIST) ∧
    readInstruction ⟨[0x5D], [StackEntry.cls PicklerClass.TENSOR], [], [],
        Option.none, []⟩ =
      .error DErr.listSpecialization ∧
    readInstruction ⟨[0x5D], [], [], [], Option.none, []⟩ =
      .ok (⟨[], [StackEntry.ival (DValue.list DVList.nil)], [], [], Option.none, []⟩,
        OpCode.EMPTY_LIST) ∧
    readInstruction ⟨[0x5D], [StackEntry.ival (DValue.bool true)], [], [],
        Option.none, []⟩ =
      .ok (⟨[], [StackEntry.ival (DValue.bool true),
        StackEntry.ival (DValue.list DVList.nil)], [], [], Option.none, []⟩,
        OpCode.EMPTY_LIST) :=
  ⟨C6_empty_list_cases.1 _ [] [] rfl rfl rfl,
   C6_empty_list_cases.2.1 _ [] [] 0 rfl rfl rfl (by decide) (by decide) (by decide),
   C6_empty_list_cases.2.2.1 _ [] rfl rfl rfl,
   C6_empty_list_cases.2.2.2.1 _ [] [] rfl (by simp) rfl,
   C6_empty_list_cases.2.2.2.2.1 _ [] [] rfl (by simp) rfl,
   C6_empty_list_cases.2.2.2.2.2.1 _ [] rfl (by simp) rfl,
   C6_empty_list_cases.2.2.2.2.2.2 _ [] [] (DValue.bool true) rfl (by simp) rfl⟩

/-- C7.  `pushInt` selects the opcode strictly by range: `BININT1`
with one signed byte iff the value fits `int8_t`; `BININT` with a
4-byte little-endian signed operand iff it fits `int32_t` but not
`int8_t`; `LONG1` with length prefix 8 and an 8-byte little-endian
signed operand otherwise; the four boundary values produce the
expected opcode. -/
theorem C7_pushInt_ranges :
    (∀ (st : PState) (n : Int),
      ((pushInt st n).out = st.out ++ [Token.op OpCode.BININT1, Token.i8 n] ↔
        -128 ≤ n ∧ n ≤ 127) ∧
      ((pushInt st n).out = st.out ++ [Token.op OpCode.BININT, Token.i32 n] ↔
        (-(2 ^ 31) ≤ n ∧ n < 2 ^ 31) ∧ ¬(-128 ≤ n ∧ n ≤ 127)) ∧
      ((pushInt st n).out = st.out ++ [Token.op OpCode.LONG1, Token.u8 8, Token.i64 n] ↔
        (n < -(2 ^ 31) ∨ 2 ^ 31 ≤ n))) ∧
    (pushInt (freshPickler Option.none) (-128)).out =
      [Token.op OpCode.BININT1, Token.i8 (-128)] ∧
    (pushInt (freshPickler Option.none) 127).out =
      [Token.op OpCode.BININT1, Token.i8 127] ∧
    (pushInt (freshPickler Option.none) (-(2 ^ 31))).out =
      [Token.op OpCode.BININT, Token.i32 (-(2 ^ 31))] ∧
    (pushInt (freshPickler Option.none) (2 ^ 31 - 1)).out =
      [Token.op OpCode.BININT, Token.i32 (2 ^ 31 - 1)] ∧
    (pushInt (freshPickler Option.none) (-(2 ^ 31) - 1)).out =
      [Token.op OpCode.LONG1, Token.u8 8, Token.i64 (-(2 ^ 31) - 1)] ∧
    (pushInt (freshPickler Option.none) (2 ^ 31)).out =
      [Token.op OpCode.LONG1, Token.u8 8, Token.i64 (2 ^ 31)] := by
  refine ⟨?_, by decide, by decide, by decide, by decide, by decide, by decide⟩
  intro st n
  unfold pushInt emit
  refine ⟨?_, ?_, ?_⟩ <;>
  · split_ifs with hc1 hc2 <;> simp <;> omega

/-- Emission shape of `pushInt`. -/
theorem pushInt_out (st : PState) (n : Int) :
    (pushInt st n).out = st.out ++ intTokens n := by
  unfold pushInt intTokens emit
  split_ifs <;> rfl

/-- `pushInt` only appends output: every other field is unchanged. -/
theorem pushInt_fields (st : PState) (n : Int) :
    (pushInt st n).memo_map = st.memo_map ∧
    (pushInt st n).memoized_strings_map = st.memoized_strings_map ∧
    (pushInt st n).memo_id = st.memo_id ∧
    (pushInt st n).tensor_table = st.tensor_table ∧
    (pushInt st n).literal_tensors = st.literal_tensors ∧
    (pushInt st n).fresh_ptr = st.fresh_ptr := by
  unfold pushInt emit
  split_ifs <;> exact ⟨rfl, rfl, rfl, rfl, rfl, rfl⟩

/-- C9, counterexample.  Emitting the same tensor handle twice in one
reference-mode session: the second emission's token delta contains no
`GLOBAL` opcode and does contain a `BINGET` (of the memoised
reconstructor global), refuting "each emission emits a full
GLOBAL/MARK/Int/TUPLE/REDUCE program ... no BINGET is ever
emitted"; the side table still receives a second entry. -/
theorem C9_second_tensor_emission_uses_get :
    ((addIValue (addIValue (freshPickler (some [])) (IValue.tensor demoTensor))
        (IValue.tensor demoTensor)).out.drop
      (addIValue (freshPickler (some [])) (IValue.tensor demoTensor)).out.length).contains
        (Token.op OpCode.GLOBAL) = false ∧
    ((addIValue (addIValue (freshPickler (some [])) (IValue.tensor demoTensor))
        (IValue.tensor demoTensor)).out.drop
      (addIValue (freshPickler (some [])) (IValue.tensor demoTensor)).out.length).contains
        (Token.op OpCode.BINGET) = true ∧
    (addIValue (addIValue (freshPickler (some [])) (IValue.tensor demoTensor))
        (IValue.tensor demoTensor)).tensor_table = some [demoTensor, demoTensor] := by
  refine ⟨rfl, rfl, rfl⟩

/-- C9, amended.  In reference mode every tensor emission appends one
new entry to the shared side table (even for a handle already in the
table: tensors are never memoised, and `memo_map_` is untouched), and
emits the reconstructor global reference — `GLOBAL` plus a PUT on the
session's first use, a `BINGET` of that memo id afterwards — followed
by MARK, the Int operand equal to the new entry's zero-based position,
TUPLE, REDUCE. -/
theorem C9_tensor_reference_emission (st : PState) (tt : List TensorHandle)
    (h : TensorHandle) (htab : st.tensor_table = some tt) :
    (addIValue st (IValue.tensor h)).tensor_table = some (tt ++ [h]) ∧
    (addIValue st (IValue.tensor h)).out =
      st.out ++ globalEmission st (getModuleName ++ getClassName PicklerClass.TENSOR) ++
      [Token.op OpCode.MARK] ++ intTokens (Int.ofNat tt.length) ++
      [Token.op OpCode.TUPLE, Token.op OpCode.REDUCE] ∧
    (addIValue st (IValue.tensor h)).memo_map = st.memo_map ∧
    (addIValue st (IValue.tensor h)).literal_tensors = st.literal_tensors := by
  have hid : Int.ofNat (tt ++ [h]).length - 1 = Int.ofNat tt.length := by
    simp [List.length_append]
  show (pushTensor st h).tensor_table = _ ∧ (pushTensor st h).out = _ ∧
    (pushTensor st h).memo_map = _ ∧ (pushTensor st h).literal_tensors = _
  unfold pushTensor
  rw [htab]
  show (pushTensorReference st tt h).tensor_table = _ ∧ _ ∧ _ ∧ _
  unfold pushTensorReference pushClass pushGlobal globalEmission
  rw [hid]
  cases hl : alookup (getModuleName ++ getClassName PicklerClass.TENSOR)
      st.memoized_strings_map with
  | none =>
      by_cases hm : st.memo_id ≤ 255 <;>
        simp [pushNextBinPut, pushBinGet, emit, pushInt_out, putChunkT, hm,
              pushInt_fields, List.append_assoc]
  | some i =>
      by_cases hm : i ≤ 255 <;>
        simp [pushBinGet, getChunkT, emit, pushInt_out, hm, pushInt_fields,
              List.append_assoc]

/-- C9, witness: the amended statement at a concrete fresh session. -/
theorem C9_tensor_reference_emission_witness :
    (addIValue (freshPickler (some [])) (IValue.tensor demoTensor)).tensor_table =
      some [demoTensor] ∧
    (addIValue (freshPickler (some [])) (IValue.tensor demoTensor)).out =
      globalEmission (freshPickler (some []))
          (getModuleName ++ getClassName PicklerClass.TENSOR) ++
        [Token.op OpCode.MARK] ++ intTokens 0 ++
        [Token.op OpCode.TUPLE, Token.op OpCode.REDUCE] := by
  have := C9_tensor_reference_emission (freshPickler (some [])) [] demoTensor rfl
  exact ⟨this.1, this.2.1⟩

/-- `emit` does not touch the literal-tensor list. -/
theorem emit_literal_tensors (st : PState) (ts : List Token) :
    (emit st ts).literal_tensors = st.literal_tensors := rfl

/-- `pushInt` does not touch the literal-tensor list. -/
theorem pushInt_literal_tensors (st : PState) (n : Int) :
    (pushInt st n).literal_tensors = st.literal_tensors :=
  (pushInt_fields st n).2.2.2.2.1

/-- `addInts` does not touch the literal-tensor list. -/
theorem addInts_literal_tensors (st : PState) (xs : List Int) :
    (addInts st xs).literal_tensors = st.literal_tensors := by
  induction xs generalizing st with
  | nil => rfl
  | cons x rest ih => rw [addInts, ih, pushInt_literal_tensors]

/-- `pushNextBinPut` does not touch the literal-tensor list. -/
theorem pushNextBinPut_literal_tensors (st : PState) :
    (pushNextBinPut st).1.literal_tensors = st.literal_tensors := by
  unfold pushNextBinPut emit
  split_ifs <;> rfl

/-- `pushGlobal` does not touch the literal-tensor list. -/
theorem pushGlobal_literal_tensors (st : PState) (name : List Nat) :
    (pushGlobal st name).literal_tensors = st.literal_tensors := by
  unfold pushGlobal pushNextBinPut pushBinGet emit
  cases halookup : alookup name st.memoized_strings_map <;>
    simp only [halookup] <;> split_ifs <;> rfl

/-- `pushMemoizedString` does not touch the literal-tensor list. -/
theorem pushMemoizedString_literal_tensors (st : PState) (iv : IValue) :
    (pushMemoizedString st iv).literal_tensors = st.literal_tensors := by
  cases iv <;>
    simp only [pushMemoizedString, pushMemoizationIV, pushMemoizationPtr, getPointer] <;>
    try rfl
  show (pushNextBinPut _).1.literal_tensors = _
  rw [pushNextBinPut_literal_tensors]
  rfl

/-- C10.  Literal mode never deduplicates storages: every tensor
emission appends one entry to the literal-tensor list (first
conjunct), and `finish` on a session that collected two handles
sharing one storage writes, after `STOP`, the secondary key program
with two `BINUNICODE` key strings carrying the same decimal
storage-key value, then two trailing records containing the same
storage bytes, in emission order (remaining conjuncts). -/
theorem C10_literal_mode_no_dedup :
    (∀ (st : PState) (h : TensorHandle), st.tensor_table = Option.none →
        (addIValue st (IValue.tensor h)).literal_tensors =
          st.literal_tensors ++ [h]) ∧
    (∀ (st : PState) (t1 t2 : TensorHandle),
        st.literal_tensors = [t1, t2] → t1.storage = t2.storage →
        (finish st).out =
          st.out ++ [Token.op OpCode.STOP] ++
          ([Token.op OpCode.PROTO, Token.u8 2, Token.op OpCode.MARK] ++
            tensorKeyChunk t1 ++ tensorKeyChunk t2 ++
            [Token.op OpCode.TUPLE, Token.op OpCode.STOP]) ++
          (tensorRecordChunk t1 ++ tensorRecordChunk t2) ∧
        tensorKeyChunk t1 = tensorKeyChunk t2 ∧
        (getWriteableTensor t1).1.storage.data = (getWriteableTensor t2).1.storage.data) := by
  constructor
  · intro st h htab
    show (pushTensor st h).literal_tensors = _
    unfold pushTensor
    rw [htab]
    show (pushLiteralTensor st h).literal_tensors = _
    simp only [pushLiteralTensor, emit_literal_tensors, pushInt_literal_tensors,
      addInts_literal_tensors, pushGlobal_literal_tensors,
      pushMemoizedString_literal_tensors]
  · intro st t1 t2 hlits hstor
    refine ⟨?_, ?_, ?_⟩
    · unfold finish start pushTensorData emit tensorRecordChunk tensorKeyChunk
      rw [hlits]
      simp [List.append_assoc]
    · unfold tensorKeyChunk getStorageKey
      rw [hstor]
    · unfold getWriteableTensor
      rw [hstor]

/-- Instantiation of the literal-tensor claim at concrete states. -/
theorem C10_literal_mode_no_dedup_witness :
    (addIValue (freshPickler Option.none) (IValue.tensor demoTensor)).literal_tensors =
      (freshPickler Option.none).literal_tensors ++ [demoTensor] ∧
    (finish demoLitState).out =
      demoLitState.out ++ [Token.op OpCode.STOP] ++
      ([Token.op OpCode.PROTO, Token.u8 2, Token.op OpCode.MARK] ++
        tensorKeyChunk demoTensor ++ tensorKeyChunk demoTensorGrad ++
        [Token.op OpCode.TUPLE, Token.op OpCode.STOP]) ++
      (tensorRecordChunk demoTensor ++ tensorRecordChunk demoTensorGrad) ∧
    tensorKeyChunk demoTensor = tensorKeyChunk demoTensorGrad ∧
    (getWriteableTensor demoTensor).1.storage.data =
      (getWriteableTensor demoTensorGrad).1.storage.data :=
  ⟨C10_literal_mode_no_dedup.1 (freshPickler Option.none) demoTensor rfl,
   C10_literal_mode_no_dedup.2 demoLitState demoTensor demoTensorGrad rfl rfl⟩

/-- Bridging equation: the string branch of `addIValue` is
`pushMemoizedString`. -/
theorem addIValue_str (st : PState) (id : Nat) (bs : List Nat)
    (h : alookup (Ptr.user 3 id) st.memo_map = Option.none) :
    addIValue st (IValue.str id bs) = pushMemoizedString st (IValue.str id bs) := by
  simp [addIValue, getPointer, h]

/-- Bridging equation: the IntList branch of `addIValue` is
`pushIntList`. -/
theorem addIValue_intlist (st : PState) (id : Nat) (xs : List Int)
    (h : alookup (Ptr.user 4 id) st.memo_map = Option.none) :
    addIValue st (IValue.intlist id xs) = pushIntList st id xs := by
  simp [addIValue, getPointer, h]

/-- Source `addIValue`, memo-hit path: a value whose identity is
already in `memo_map_` emits only a GET of the recorded memo id. -/
theorem addIValue_memo_hit (st : PState) (v : IValue) (p : Ptr) (i : Nat)
    (h1 : getPointer v = some p) (h2 : alookup p st.memo_map = some i) :
    addIValue st v = pushBinGet st i := by
  cases v <;> simp_all [addIValue, getPointer]

/-- Tokens with no memo opcode compose with any memo-disciplined
continuation. -/
theorem memoSeq_neutral_prefix (n : Nat) (ts rest : List Token)
    (hts : ∀ t ∈ ts, isPG t = false) (hrest : MemoSeq n rest) :
    MemoSeq n (ts ++ rest) := by
  induction ts with
  | nil => simpa using hrest
  | cons t ts ih =>
      exact MemoSeq.neutral n t _ (hts t (List.mem_cons_self t ts))
        (ih fun u hu => hts u (List.mem_cons_of_mem t hu))

/-- `Step` is reflexive. -/
theorem step_refl (st : PState) : Step st st :=
  ⟨le_refl _, fun hinv => ⟨hinv, [], by simp, fun _ h => h⟩⟩

/-- `Step` composes. -/
theorem step_trans {a b c : PState} (h1 : Step a b) (h2 : Step b c) : Step a c := by
  refine ⟨le_trans h1.1 h2.1, fun hinv => ?_⟩
  obtain ⟨hinvb, d1, hout1, hseq1⟩ := h1.2 hinv
  obtain ⟨hinvc, d2, hout2, hseq2⟩ := h2.2 hinvb
  refine ⟨hinvc, d1 ++ d2, by rw [hout2, hout1, List.append_assoc], fun rest hrest => ?_⟩
  rw [List.append_assoc]
  exact hseq1 _ (hseq2 _ hrest)

/-- Emitting memo-free tokens is a `Step`. -/
theorem step_emit (st : PState) (ts : List Token) (hts : ∀ t ∈ ts, isPG t = false) :
    Step st (emit st ts) := by
  refine ⟨le_refl _, fun hinv => ⟨hinv, ts, rfl, fun rest hrest => ?_⟩⟩
  exact memoSeq_neutral_prefix _ _ _ hts hrest

/-- Field equations of `pushNextBinPut`. -/
theorem pushNextBinPut_fields (st : PState) :
    (pushNextBinPut st).1.memo_map = st.memo_map ∧
    (pushNextBinPut st).1.memoized_strings_map = st.memoized_strings_map ∧
    (pushNextBinPut st).1.memo_id = st.memo_id + 1 ∧
    (pushNextBinPut st).1.out = st.out ++ putChunkT st.memo_id ∧
    (pushNextBinPut st).2 = st.memo_id := by
  unfold pushNextBinPut emit putChunkT
  split_ifs <;> exact ⟨rfl, rfl, rfl, rfl, rfl⟩

/-- `pushNextBinPut` is a `Step` emitting exactly the next PUT. -/
theorem step_pushNextBinPut (st : PState) : Step st (pushNextBinPut st).1 := by
  obtain ⟨hmm, hsm, hid, hout, -⟩ := pushNextBinPut_fields st
  refine ⟨by rw [hid]; exact Nat.le_succ _, fun hinv => ?_⟩
  refine ⟨⟨fun p i hi => ?_, fun s i hi => ?_⟩,
    putChunkT st.memo_id, hout, fun rest hrest => ?_⟩
  · rw [hmm] at hi
    rw [hid]
    exact lt_trans (hinv.1 p i hi) (Nat.lt_succ_self _)
  · rw [hsm] at hi
    rw [hid]
    exact lt_trans (hinv.2 s i hi) (Nat.lt_succ_self _)
  · rw [hid] at hrest
    exact MemoSeq.put st.memo_id rest hrest

/-- A GET of a previously allocated id is a `Step`. -/
theorem step_pushBinGet (st : PState) (i : Nat) (hi : i < st.memo_id) :
    Step st (pushBinGet st i) := by
  refine ⟨?_, fun hinv => ⟨?_, getChunkT i, ?_, fun rest hrest => ?_⟩⟩
  · unfold pushBinGet emit; split_ifs <;> simp
  · unfold pushBinGet emit at *; split_ifs <;> exact hinv
  · unfold pushBinGet emit getChunkT; split_ifs <;> rfl
  · have hm : (pushBinGet st i).memo_id = st.memo_id := by
      unfold pushBinGet emit; split_ifs <;> rfl
    rw [hm] at hrest
    exact MemoSeq.get st.memo_id i rest hi hrest

/-- Updating the tensor table is a (trivial) `Step`. -/
theorem step_set_table (st : PState) (x : Option (List TensorHandle)) :
    Step st { st with tensor_table := x } :=
  ⟨le_refl _, fun hinv => ⟨hinv, [], by simp [emit], fun _ h => h⟩⟩

/-- Updating the fresh-pointer counter is a (trivial) `Step`. -/
theorem step_set_fresh (st : PState) (x : Nat) :
    Step st { st with fresh_ptr := x } :=
  ⟨le_refl _, fun hinv => ⟨hinv, [], by simp [emit], fun _ h => h⟩⟩

/-- Appending to the literal-tensor list is a (trivial) `Step`. -/
theorem step_set_lits (st : PState) (x : List TensorHandle) :
    Step st { st with literal_tensors := x } :=
  ⟨le_refl _, fun hinv => ⟨hinv, [], by simp [emit], fun _ h => h⟩⟩

/-- `pushMemoization` on a pointer is a `Step`: the PUT of
`pushNextBinPut` plus a map entry bound below the new counter. -/
theorem step_pushMemoizationPtr (st : PState) (p : Ptr) :
    Step st (pushMemoizationPtr st p) := by
  obtain ⟨hmm, hsm, hid, hout, hret⟩ := pushNextBinPut_fields st
  unfold pushMemoizationPtr
  rcases hpp : pushNextBinPut st with ⟨st2, mid⟩
  rw [hpp] at hmm hsm hid hout hret
  simp only at hmm hsm hid hout hret
  simp only [hpp]
  subst hret
  refine ⟨by rw [hid]; exact Nat.le_succ _, fun hinv => ?_⟩
  refine ⟨⟨fun q i hi => ?_, fun s i hi => ?_⟩,
    putChunkT st.memo_id, hout, fun rest hrest => ?_⟩
  · show i < st2.memo_id
    rw [hid]
    simp only [hmm] at hi
    unfold alookup at hi
    by_cases hq : p = q
    · simp [hq] at hi
      omega
    · simp [hq] at hi
      exact lt_trans (hinv.1 q i hi) (Nat.lt_succ_self _)
  · show i < st2.memo_id
    rw [hid]
    rw [show ({ st2 with memo_map := (p, st.memo_id) :: st2.memo_map } :
        PState).memoized_strings_map = st2.memoized_strings_map from rfl, hsm] at hi
    exact lt_trans (hinv.2 s i hi) (Nat.lt_succ_self _)
  · rw [show ({ st2 with memo_map := (p, st.memo_id) :: st2.memo_map } :
        PState).memo_id = st2.memo_id from rfl, hid] at hrest
    exact MemoSeq.put st.memo_id rest hrest

/-- `pushMemoization` on an `IValue` is a `Step`. -/
theorem step_pushMemoizationIV (st : PState) (iv : IValue) :
    Step st (pushMemoizationIV st iv) := by
  unfold pushMemoizationIV
  cases getPointer iv with
  | none => exact step_refl st
  | some p => exact step_pushMemoizationPtr st p

/-- `pushMemoizedString` is a `Step`. -/
theorem step_pushMemoizedString (st : PState) (iv : IValue) :
    Step st (pushMemoizedString st iv) := by
  cases iv <;> simp only [pushMemoizedString] <;> try exact step_refl st
  exact step_trans (step_emit _ _ (by intro t ht; fin_cases ht <;> rfl))
    (step_pushMemoizationIV _ _)

/-- `pushGlobal` is a `Step`: PUT on a miss, GET of an id recorded
below the counter on a hit. -/
theorem step_pushGlobal (st : PState) (name : List Nat) :
    Step st (pushGlobal st name) := by
  unfold pushGlobal
  cases hl : alookup name st.memoized_strings_map with
  | some i =>
      refine ⟨?_, fun hinv => ?_⟩
      · show st.memo_id ≤ (pushBinGet st i).memo_id
        unfold pushBinGet emit
        split_ifs <;> exact le_refl _
      · exact (step_pushBinGet st i (hinv.2 name i hl)).2 hinv
  | none =>
      obtain ⟨hmm, hsm, hid, hout, hret⟩ :=
        pushNextBinPut_fields (emit st [Token.op OpCode.GLOBAL, Token.raw name])
      rcases hpp : pushNextBinPut (emit st [Token.op OpCode.GLOBAL, Token.raw name])
        with ⟨st2, mid⟩
      rw [hpp] at hmm hsm hid hout hret
      simp only at hmm hsm hid hout hret
      simp only [emit] at hmm hsm hid hout hret
      simp only [hpp]
      subst hret
      refine ⟨by rw [hid]; exact Nat.le_succ _, fun hinv => ?_⟩
      refine ⟨⟨fun q i hi => ?_, fun s i hi => ?_⟩,
        [Token.op OpCode.GLOBAL, Token.raw name] ++ putChunkT st.memo_id,
        by rw [hout, List.append_assoc], fun rest hrest => ?_⟩
      · show i < st2.memo_id
        rw [hid]
        rw [show ({ st2 with memoized_strings_map :=
            (name, st.memo_id) :: st2.memoized_strings_map } : PState).memo_map =
            st2.memo_map from rfl, hmm] at hi
        exact lt_trans (hinv.1 q i hi) (Nat.lt_succ_self _)
      · show i < st2.memo_id
        rw [hid]
        simp only [hsm] at hi
        unfold alookup at hi
        by_cases hq : name = s
        · simp [hq] at hi
          omega
        · simp [hq] at hi
          exact lt_trans (hinv.2 s i hi) (Nat.lt_succ_self _)
      · rw [show ({ st2 with memoized_strings_map :=
            (name, st.memo_id) :: st2.memoized_strings_map } : PState).memo_id =
            st2.memo_id from rfl, hid] at hrest
        refine memoSeq_neutral_prefix st.memo_id
          [Token.op OpCode.GLOBAL, Token.raw name] _
          (by intro t ht; fin_cases ht <;> rfl) ?_
        exact MemoSeq.put st.memo_id rest hrest

/-- `pushClass` is a `Step`. -/
theorem step_pushClass (st : PState) (cls : PicklerClass) :
    Step st (pushClass st cls) :=
  step_pushGlobal st _

/-- The tokens of `pushInt` contain no memo opcode. -/
theorem intTokens_noPG (n : Int) : ∀ t ∈ intTokens n, isPG t = false := by
  unfold intTokens
  split_ifs <;> intro t ht <;> fin_cases ht <;> rfl

/-- `pushInt` is a `Step`. -/
theorem step_pushInt (st : PState) (n : Int) : Step st (pushInt st n) := by
  have h : pushInt st n = emit st (intTokens n) := by
    unfold pushInt intTokens emit
    split_ifs <;> rfl
  rw [h]
  exact step_emit st _ (intTokens_noPG n)

/-- `addInts` is a `Step`. -/
theorem step_addInts (st : PState) (xs : List Int) : Step st (addInts st xs) := by
  induction xs generalizing st with
  | nil => exact step_refl st
  | cons x rest ih => exact step_trans (step_pushInt st x) (ih _)

/-- `pushDouble` is a `Step`. -/
theorem step_pushDouble (st : PState) (bits : Nat) : Step st (pushDouble st bits) := by
  refine step_emit st _ ?_
  intro t ht
  rcases List.mem_cons.mp ht with h | h
  · rw [h]; rfl
  · obtain ⟨i, -, hi⟩ := List.mem_map.mp h
    rw [← hi]; rfl

/-- `pushIntList` is a `Step`. -/
theorem step_pushIntList (st : PState) (id : Nat) (xs : List Int) :
    Step st (pushIntList st id xs) := by
  unfold pushIntList
  apply step_trans (step_pushClass _ _)
  apply step_trans (step_emit _ [Token.op OpCode.MARK, Token.op OpCode.EMPTY_LIST,
    Token.op OpCode.MARK] (by intro t ht; fin_cases ht <;> rfl))
  apply step_trans (step_addInts _ _)
  apply step_trans (step_emit _ [Token.op OpCode.APPENDS, Token.op OpCode.TUPLE,
    Token.op OpCode.REDUCE] (by intro t ht; fin_cases ht <;> rfl))
  exact step_pushMemoizationIV _ _

/-- `pushTensorReference` is a `Step`. -/
theorem step_pushTensorReference (st : PState) (tt : List TensorHandle)
    (h : TensorHandle) : Step st (pushTensorReference st tt h) := by
  unfold pushTensorReference
  apply step_trans (step_pushClass _ _)
  apply step_trans (step_set_table _ _)
  apply step_trans (step_emit _ [Token.op OpCode.MARK] (by intro t ht; fin_cases ht <;> rfl))
  apply step_trans (step_pushInt _ _)
  exact step_emit _ [Token.op OpCode.TUPLE, Token.op OpCode.REDUCE]
    (by intro t ht; fin_cases ht <;> rfl)

/-- The requires-grad emission is not a memo opcode. -/
theorem isPG_bool_op (b : Bool) :
    isPG (Token.op (if b then OpCode.NEWTRUE else OpCode.NEWFALSE)) = false := by
  cases b <;> rfl

/-- `pushLiteralTensor` is a `Step`. -/
theorem step_pushLiteralTensor (st : PState) (tensor : TensorHandle) :
    Step st (pushLiteralTensor st tensor) := by
  unfold pushLiteralTensor
  apply step_trans (step_pushGlobal _ _)
  apply step_trans (step_emit _ [Token.op OpCode.MARK] (by intro t ht; fin_cases ht <;> rfl))
  apply step_trans (step_emit _ [Token.op OpCode.MARK] (by intro t ht; fin_cases ht <;> rfl))
  apply step_trans (step_set_fresh _ _)
  apply step_trans (step_pushMemoizedString _ _)
  apply step_trans (step_pushGlobal _ _)
  apply step_trans (step_set_fresh _ _)
  apply step_trans (step_pushMemoizedString _ _)
  apply step_trans (step_set_fresh _ _)
  apply step_trans (step_pushMemoizedString _ _)
  apply step_trans (step_pushInt _ _)
  apply step_trans (step_emit _ [Token.op OpCode.NONE, Token.op OpCode.TUPLE,
    Token.op OpCode.BINPERSID] (by intro t ht; fin_cases ht <;> rfl))
  apply step_trans (step_pushInt _ _)
  apply step_trans (step_emit _ [Token.op OpCode.MARK] (by intro t ht; fin_cases ht <;> rfl))
  apply step_trans (step_addInts _ _)
  apply step_trans (step_emit _ [Token.op OpCode.TUPLE] (by intro t ht; fin_cases ht <;> rfl))
  apply step_trans (step_emit _ [Token.op OpCode.MARK] (by intro t ht; fin_cases ht <;> rfl))
  apply step_trans (step_addInts _ _)
  apply step_trans (step_emit _ [Token.op OpCode.TUPLE] (by intro t ht; fin_cases ht <;> rfl))
  apply step_trans (step_emit _
    [Token.op (if tensor.requires_grad then OpCode.NEWTRUE else OpCode.NEWFALSE)]
    (by intro t ht; fin_cases ht; exact isPG_bool_op _))
  apply step_trans (step_pushGlobal _ _)
  apply step_trans (step_emit _ [Token.op OpCode.EMPTY_TUPLE, Token.op OpCode.REDUCE]
    (by intro t ht; fin_cases ht <;> rfl))
  apply step_trans (step_emit _ [Token.op OpCode.TUPLE, Token.op OpCode.REDUCE]
    (by intro t ht; fin_cases ht <;> rfl))
  exact step_set_lits _ _

/-- `pushTensor` is a `Step`. -/
theorem step_pushTensor (st : PState) (h : TensorHandle) :
    Step st (pushTensor st h) := by
  unfold pushTensor
  cases st.tensor_table with
  | none => exact step_pushLiteralTensor st h
  | some tt => exact step_pushTensorReference st tt h

/-- A memo hit is a `Step` (the recorded id is below the counter by
the invariant). -/
theorem step_memo_hit (st : PState) (v : IValue) (p : Ptr) (i : Nat)
    (h1 : getPointer v = some p) (h2 : alookup p st.memo_map = some i) :
    Step st (addIValue st v) := by
  rw [addIValue_memo_hit st v p i h1 h2]
  refine ⟨?_, fun hinv => ?_⟩
  · show st.memo_id ≤ (pushBinGet st i).memo_id
    unfold pushBinGet emit
    split_ifs <;> exact le_refl _
  · exact (step_pushBinGet st i (hinv.1 p i h2)).2 hinv

mutual
/-- `addIValue` is a `Step` for every value. -/
theorem step_addIValue (st : PState) (v : IValue) : Step st (addIValue st v) := by
  cases v with
  | none =>
      exact step_emit _ [Token.op OpCode.NONE] (by intro t ht; fin_cases ht <;> rfl)
  | bool b =>
      cases b
      · exact step_emit _ [Token.op OpCode.NEWFALSE]
          (by intro t ht; fin_cases ht <;> rfl)
      · exact step_emit _ [Token.op OpCode.NEWTRUE]
          (by intro t ht; fin_cases ht <;> rfl)
  | int n => exact step_pushInt st n
  | double bits => exact step_pushDouble st bits
  | tensor h => exact step_pushTensor st h
  | str id bs =>
      cases hmemo : alookup (Ptr.user 3 id) st.memo_map with
      | some i => exact step_memo_hit st _ _ i rfl hmemo
      | none =>
          rw [addIValue_str st id bs hmemo]
          exact step_pushMemoizedString st _
  | intlist id xs =>
      cases hmemo : alookup (Ptr.user 4 id) st.memo_map with
      | some i => exact step_memo_hit st _ _ i rfl hmemo
      | none =>
          rw [addIValue_intlist st id xs hmemo]
          exact step_pushIntList st id xs
  | tuple id xs =>
      cases hmemo : alookup (Ptr.user 2 id) st.memo_map with
      | some i => exact step_memo_hit st _ _ i rfl hmemo
      | none =>
          rw [addIValue_tuple st id xs hmemo]
          unfold pushTuple
          apply step_trans (step_emit _ [Token.op OpCode.MARK]
            (by intro t ht; fin_cases ht <;> rfl))
          apply step_trans (step_addIValueList _ xs)
          apply step_trans (step_emit _ [Token.op OpCode.TUPLE]
            (by intro t ht; fin_cases ht <;> rfl))
          exact step_pushMemoizationIV _ _
  | list id xs =>
      cases hmemo : alookup (Ptr.user 1 id) st.memo_map with
      | some i => exact step_memo_hit st _ _ i rfl hmemo
      | none =>
          rw [addIValue_list st id xs hmemo]
          unfold pushList
          apply step_trans (step_emit _ [Token.op OpCode.EMPTY_LIST]
            (by intro t ht; fin_cases ht <;> rfl))
          apply step_trans (step_pushMemoizationIV _ _)
          apply step_trans (step_emit _ [Token.op OpCode.MARK]
            (by intro t ht; fin_cases ht <;> rfl))
          apply step_trans (step_addIValueList _ xs)
          exact step_emit _ [Token.op OpCode.APPENDS]
            (by intro t ht; fin_cases ht <;> rfl)
  | dict id ps =>
      cases hmemo : alookup (Ptr.user 0 id) st.memo_map with
      | some i => exact step_memo_hit st _ _ i rfl hmemo
      | none =>
          rw [addIValue_dict st id ps hmemo]
          unfold pushDict
          apply step_trans (step_emit _ [Token.op OpCode.EMPTY_DICT]
            (by intro t ht; fin_cases ht <;> rfl))
          apply step_trans (step_pushMemoizationIV _ _)
          apply step_trans (step_emit _ [Token.op OpCode.MARK]
            (by intro t ht; fin_cases ht <;> rfl))
          apply step_trans (step_addPairs _ ps)
          exact step_emit _ [Token.op OpCode.SETITEMS]
            (by intro t ht; fin_cases ht <;> rfl)

/-- `addIValueList` is a `Step`. -/
theorem step_addIValueList (st : PState) (xs : IVList) :
    Step st (addIValueList st xs) := by
  cases xs with
  | nil => exact step_refl st
  | cons v rest =>
      rw [addIValueList]
      exact step_trans (step_addIValue st v) (step_addIValueList _ rest)

/-- `addPairs` is a `Step`. -/
theorem step_addPairs (st : PState) (ps : IVPairs) : Step st (addPairs st ps) := by
  cases ps with
  | nil => exact step_refl st
  | cons k v rest =>
      rw [addPairs]
      exact step_trans (step_addIValue st k)
        (step_trans (step_addIValue _ v) (step_addPairs _ rest))
end

/-- The key program and tensor records of `finish` contain no memo
opcode. -/
theorem tensorKeyChunk_noPG (lits : List TensorHandle) :
    ∀ t ∈ (lits.map tensorKeyChunk).flatten, isPG t = false := by
  intro t ht
  obtain ⟨chunk, hchunk, htc⟩ := List.mem_flatten.mp ht
  obtain ⟨tensor, -, hmap⟩ := List.mem_map.mp hchunk
  rw [← hmap] at htc
  fin_cases htc <;> rfl

/-- `pushTensorData` is a `Step`. -/
theorem step_pushTensorData (st : PState) (tensor : TensorHandle) :
    Step st (pushTensorData st tensor) :=
  step_emit _ _ (by intro t ht; fin_cases ht <;> rfl)

/-- Folding `pushTensorData` over the collected tensors is a `Step`. -/
theorem step_foldTensorData (st : PState) (lits : List TensorHandle) :
    Step st (lits.foldl pushTensorData st) := by
  induction lits generalizing st with
  | nil => exact step_refl st
  | cons t rest ih =>
      rw [List.foldl_cons]
      exact step_trans (step_pushTensorData st t) (ih _)

/-- `finish` is a `Step`. -/
theorem step_finish (st : PState) : Step st (finish st) := by
  unfold finish
  dsimp only
  split_ifs
  · apply step_trans (step_emit _ [Token.op OpCode.STOP]
      (by intro t ht; fin_cases ht <;> rfl))
    unfold start
    apply step_trans (step_emit _ [Token.op OpCode.PROTO, Token.u8 2]
      (by intro t ht; fin_cases ht <;> rfl))
    apply step_trans (step_emit _ [Token.op OpCode.MARK]
      (by intro t ht; fin_cases ht <;> rfl))
    apply step_trans (step_emit _ _ (tensorKeyChunk_noPG _))
    apply step_trans (step_emit _ [Token.op OpCode.TUPLE, Token.op OpCode.STOP]
      (by intro t ht; fin_cases ht <;> rfl))
    exact step_foldTensorData _ _
  · exact step_emit _ [Token.op OpCode.STOP] (by intro t ht; fin_cases ht <;> rfl)

/-- One whole session is a `Step` from the fresh state. -/
theorem step_encodeSession (tab : Option (List TensorHandle)) (vs : IVList) :
    Step (freshPickler tab) (encodeSession tab vs) := by
  unfold encodeSession startTuple start endTuple
  apply step_trans (step_emit _ [Token.op OpCode.PROTO, Token.u8 2]
    (by intro t ht; fin_cases ht <;> rfl))
  apply step_trans (step_emit _ [Token.op OpCode.MARK]
    (by intro t ht; fin_cases ht <;> rfl))
  apply step_trans (step_addIValueList _ vs)
  apply step_trans (step_emit _ [Token.op OpCode.TUPLE]
    (by intro t ht; fin_cases ht <;> rfl))
  exact step_finish _

/-- The fresh encoder state satisfies the memo-map invariant. -/
theorem freshPickler_encInv (tab : Option (List TensorHandle)) :
    EncInv (freshPickler tab) := by
  constructor <;> intro x i hx <;> simp [freshPickler, alookup] at hx

/-- C8.  Memo discipline of every encoder session, in either tensor
mode: scanning the emitted token stream left to right, the PUT opcodes
carry exactly the consecutive ids 0, 1, 2, ... (dense allocation in
first-emission order, globals sharing the same counter), every
BINGET/LONG_BINGET carries an id previously bound by a PUT at the same
id, and no memo opcode appears outside these shapes (`MemoSeq 0`).
Second conjunct: re-emitting a value whose identity is already
memoized emits exactly a GET and nothing else. -/
theorem C8_memo_discipline :
    (∀ (tab : Option (List TensorHandle)) (vs : IVList),
        MemoSeq 0 (encodeSession tab vs).out) ∧
    (∀ (st : PState) (v : IValue) (p : Ptr) (i : Nat),
        getPointer v = some p → alookup p st.memo_map = some i →
        addIValue st v = pushBinGet st i) := by
  constructor
  · intro tab vs
    obtain ⟨-, hrest⟩ := step_encodeSession tab vs
    obtain ⟨-, delta, hout, hseq⟩ := hrest (freshPickler_encInv tab)
    have h0 := hseq [] (MemoSeq.nil _)
    rw [hout]
    show MemoSeq (freshPickler tab).memo_id ((freshPickler tab).out ++ delta)
    simpa [freshPickler] using h0
  · intro st v p i h1 h2
    exact addIValue_memo_hit st v p i h1 h2

/-- C8, witness: a session re-emitting one string identity, and the
GET-only re-emission at a concrete memoized state. -/
theorem C8_memo_discipline_witness :
    MemoSeq 0 (encodeSession (some [])
      (IVList.cons (IValue.str 7 (ascii ("ab")))
        (IVList.cons (IValue.str 7 (ascii ("ab"))) IVList.nil))).out ∧
    addIValue ⟨[], [(Ptr.user 3 7, 0)], [], 1, Option.none, [], 0⟩
        (IValue.str 7 (ascii ("ab"))) =
      pushBinGet ⟨[], [(Ptr.user 3 7, 0)], [], 1, Option.none, [], 0⟩ 0 :=
  ⟨C8_memo_discipline.1 (some []) _,
   C8_memo_discipline.2 ⟨[], [(Ptr.user 3 7, 0)], [], 1, Option.none, [], 0⟩
     (IValue.str 7 (ascii ("ab"))) (Ptr.user 3 7) 0 rfl rfl⟩

end TorchPickle
